import Mathlib

/-!
Verification development for the Framelytics SEO analysis engine.

The TypeScript sources (analyzers under `src/analyzers/`, the aggregation
service `src/utils/seo-analyzer.service.fixed.ts`, and the shared types in
`src/types/seo-types.ts`) are shallowly embedded below.  JavaScript numbers
are modelled as exact rationals (`Rat`); all quantities that reach a claim
are small integers, where double precision arithmetic is exact.  JavaScript
strings are modelled as Lean strings (all comparisons performed by the code
are on ASCII data).  External collaborators (the WHATWG `new URL` parser used
by the links analyzer, and the Framer host used by the visual-enrichment
step) are modelled as explicit oracle parameters.
-/

/-- Lower-casing, character by character (`String.prototype.toLowerCase`; all
comparisons in the repository are on ASCII data, where this is exact).
Implemented structurally so that concrete evaluations reduce in the kernel. -/
def String.jsLower (s : String) : String :=
  ⟨s.data.map Char.toLower⟩

/-- Emptiness test, implemented structurally. -/
def String.jsIsEmpty (s : String) : Bool :=
  s.data.isEmpty

/-- JavaScript startsWith, implemented structurally. -/
def String.jsStartsWith (s pat : String) : Bool :=
  pat.data.isPrefixOf s.data

/-- JavaScript `s.trim()` (ASCII whitespace), implemented structurally. -/
def String.jsTrim (s : String) : String :=
  ⟨((s.data.dropWhile Char.isWhitespace).reverse.dropWhile Char.isWhitespace).reverse⟩

/-- JavaScript truthiness of an optional string: `undefined` and `""` are falsy. -/
def jsFalsyStr : Option String → Bool
  | none => true
  | some s => s.jsIsEmpty

/-- JavaScript `a || b` for an optional string `a` and string default `b`. -/
def jsOrStr (a : Option String) (b : String) : String :=
  match a with
  | some s => if s.jsIsEmpty then b else s
  | none => b

/-- JavaScript `x || 0` for an optional number (`undefined` and `0` give `0`). -/
def jsOrZero (a : Option Rat) : Rat :=
  match a with
  | some v => v
  | none => 0

/-- JavaScript truthiness of an optional number: `undefined` and `0` are falsy. -/
def jsTruthyNum : Option Rat → Bool
  | none => false
  | some v => v != 0

/-- Substring occurrence scan over character lists: does `pat` occur as a
contiguous block of `s`?  (The empty pattern occurs in every string.) -/
def listInfixCheck (pat : List Char) : List Char → Bool
  | [] => pat.isEmpty
  | c :: rest => pat.isPrefixOf (c :: rest) || listInfixCheck pat rest

/-- JavaScript `String.prototype.includes`: substring test. -/
def jsIncludes (s pat : String) : Bool :=
  listInfixCheck pat.data s.data

/-- JavaScript `s.split(sep)` for a single-character separator (the only
separators the repository uses are `","` and `" "`). -/
def jsSplitOnCharAux (sep : Char) (cur : List Char) : List Char → List String
  | [] => [⟨cur.reverse⟩]
  | c :: rest =>
    if c = sep then ⟨cur.reverse⟩ :: jsSplitOnCharAux sep [] rest
    else jsSplitOnCharAux sep (c :: cur) rest

/-- JavaScript `s.split(sep)` for a one-character string separator. -/
def jsSplitOnChar (sep : Char) (s : String) : List String :=
  jsSplitOnCharAux sep [] s.data

/-- JavaScript `String.prototype.indexOf` over characters (the repository only
ever searches ASCII patterns, where UTF-16 and scalar indices agree);
`-1` when absent. -/
def jsIndexOfAux (hay pat : List Char) (i : Nat) : Int :=
  match hay with
  | [] => if pat.isEmpty then i else -1
  | _ :: rest => if pat.isPrefixOf hay then (i : Int) else jsIndexOfAux rest pat (i + 1)

/-- JavaScript `s.indexOf(pat)`. -/
def jsIndexOf (s pat : String) : Int :=
  jsIndexOfAux s.data pat.data 0

/-- JavaScript `s.substring(start)`: negative start is clamped to 0,
start past the end gives the empty string. -/
def jsSubstringFrom (s : String) (start : Int) : String :=
  ⟨s.data.drop start.toNat⟩

/-- JavaScript `Set`-based de-duplication: keeps the first occurrence of
each element, in insertion order. -/
def jsSetDedupAux (seen : List String) : List String → List String
  | [] => []
  | x :: xs =>
    if seen.contains x then jsSetDedupAux seen xs
    else x :: jsSetDedupAux (x :: seen) xs

/-- JavaScript `[...new Set(l)]`. -/
def jsSetDedup (l : List String) : List String :=
  jsSetDedupAux [] l

/-- JavaScript whitespace class `\s` (the repository only exercises ASCII). -/
def jsIsSpace (c : Char) : Bool :=
  c = ' ' || c = '\t' || c = '\n' || c = '\r' || c = '\x0b' || c = '\x0c'

/-- Splits a character list on maximal runs of characters satisfying `p`,
mirroring JavaScript `String.prototype.split` with a one-or-more character
class regex: pieces between matches are kept, including empty leading and
trailing pieces.  The first argument is `some cur` while a piece (reversed in
`cur`) is being accumulated, and `none` while a separator run is consumed. -/
def jsSplitRunsAux (p : Char → Bool) : Option (List Char) → List Char → List String
  | some cur, [] => [⟨cur.reverse⟩]
  | none, [] => [""]
  | some cur, c :: rest =>
    if p c then ⟨cur.reverse⟩ :: jsSplitRunsAux p none rest
    else jsSplitRunsAux p (some (c :: cur)) rest
  | none, c :: rest =>
    if p c then jsSplitRunsAux p none rest
    else jsSplitRunsAux p (some [c]) rest

/-- JavaScript `s.split(/[class]+/)` for a character class `p`. -/
def jsSplitRuns (p : Char → Bool) (s : String) : List String :=
  jsSplitRunsAux p (some []) s.data

/-- JavaScript `s.split(/\s+/)`. -/
def jsSplitWhitespace (s : String) : List String :=
  jsSplitRuns jsIsSpace s

/-- Decimal value of a digit string (0 for non-digit strings; only applied to
all-digit strings below). -/
def digitsToNat (s : String) : Nat :=
  s.data.foldl (fun acc c => acc * 10 + (c.toNat - 48)) 0

/-- Is the string an array-index-like JavaScript object key (canonical decimal
form of an integer below 2^32 - 1)?  Such keys are enumerated first, in
ascending numeric order, by `Object.entries`. -/
def jsIsArrayIndexKey (s : String) : Bool :=
  !s.jsIsEmpty && s.data.all Char.isDigit &&
    (s = "0" || s.data.head? != some '0') &&
    digitsToNat s < 4294967295

/-- Stable insertion into a list sorted with respect to `keep` (an element `y`
already in the list stays in front of `x` whenever `keep y x`). -/
def stableInsertBy (keep : α → α → Bool) (x : α) : List α → List α
  | [] => [x]
  | y :: ys => if keep y x then y :: stableInsertBy keep x ys else x :: y :: ys

/-- Stable sort: elements are inserted left to right, each after every element
it does not strictly precede.  Matches the (stable) `Array.prototype.sort`. -/
def stableSortBy (keep : α → α → Bool) (l : List α) : List α :=
  l.foldl (fun acc x => stableInsertBy keep x acc) []

/-- Builds up a JavaScript `Record<string, number>` used as a counter:
`m[k] = (m[k] || 0) + 1`, keeping insertion order of first occurrences. -/
def jsRecordBump (m : List (String × Nat)) (k : String) : List (String × Nat) :=
  if m.any (fun e => e.1 = k) then
    m.map (fun e => if e.1 = k then (e.1, e.2 + 1) else e)
  else
    m ++ [(k, 1)]

/-- Enumeration order of `Object.entries` over a string-keyed record:
array-index-like keys first, in ascending numeric order, then the remaining
keys in insertion order. -/
def jsRecordEntries (m : List (String × Nat)) : List (String × Nat) :=
  stableSortBy (fun a b => digitsToNat a.1 ≤ digitsToNat b.1)
      (m.filter (fun e => jsIsArrayIndexKey e.1))
    ++ m.filter (fun e => !jsIsArrayIndexKey e.1)

/-- JavaScript `Math.round` (for the non-negative values produced by the
scoring code): floor of `x + 1/2`, i.e. round half up. -/
def jsRound (x : Rat) : Int :=
  ⌊x + 1 / 2⌋

/-- JavaScript number-to-string used inside message templates.  Matches
JavaScript exactly on integers (the only values the claims exercise);
non-integral rationals are rendered as `num/den`, which no claim inspects. -/
def jsNumToString (q : Rat) : String :=
  if q.den = 1 then toString q.num else toString q

/-- JavaScript `x.toFixed(1)` for the non-negative rationals produced by the
keyword-density computation: round `10 x` half away from zero (= half up for
non-negative values) and print one decimal. -/
def jsToFixed1 (x : Rat) : String :=
  let n : Int := ⌊x * 10 + 1 / 2⌋
  toString (n / 10) ++ "." ++ toString (n % 10)

/-! ### The tiny regex engine

The analyzers use a handful of concrete JavaScript regexes only as match
tests (`regex.test`, `text.match(...)` in boolean position).  Existence of a
match is insensitive to greediness, so a continuation-passing matcher over
character lists decides each of them exactly. -/

/-- Regular expressions as used by the repository's pattern tests. -/
inductive RE where
  /-- a single character from a class -/
  | cls (p : Char → Bool) : RE
  /-- concatenation -/
  | seq (a b : RE) : RE
  /-- alternation -/
  | alt (a b : RE) : RE
  /-- zero or more characters from a class -/
  | starCls (p : Char → Bool) : RE
  /-- one or more characters from a class -/
  | plusCls (p : Char → Bool) : RE
  /-- zero or one character from a class -/
  | optCls (p : Char → Bool) : RE

/-- Does some prefix of `cs` consisting of characters in `p` lead to a suffix
accepted by the continuation `k`?  (Matcher for `[class]*`.) -/
def rePlusAux (p : Char → Bool) (k : List Char → Bool) : List Char → Bool
  | [] => false
  | c :: rest => p c && (k rest || rePlusAux p k rest)

/-- CPS matcher: `reMatch r cs k` holds iff `cs = m ++ rest` for some `m`
matched by `r` and some `rest` accepted by `k`. -/
def reMatch : RE → List Char → (List Char → Bool) → Bool
  | .cls p, cs, k =>
    match cs with
    | [] => false
    | c :: rest => p c && k rest
  | .seq a b, cs, k => reMatch a cs (fun rest => reMatch b rest k)
  | .alt a b, cs, k => reMatch a cs k || reMatch b cs k
  | .starCls p, cs, k => k cs || rePlusAux p k cs
  | .plusCls p, cs, k => rePlusAux p k cs
  | .optCls p, cs, k =>
    k cs ||
      match cs with
      | [] => false
      | c :: rest => p c && k rest

/-- Unanchored regex search (`regex.test(s)` / `s.match(regex) !== null`). -/
def reSearchAux (r : RE) : List Char → Bool
  | [] => reMatch r [] (fun _ => true)
  | c :: rest => reMatch r (c :: rest) (fun _ => true) || reSearchAux r rest

/-- Searches the whole string for a match of `r`. -/
def reSearch (r : RE) (s : String) : Bool :=
  reSearchAux r s.data

/-- A sequence of regexes (empty sequence never used by the call sites). -/
def reSeqs : List RE → RE
  | [] => .optCls (fun _ => false)
  | [r] => r
  | r :: rs => .seq r (reSeqs rs)

/-- The literal word `w` (non-empty at every call site) as a regex. -/
def reWord (w : String) : RE :=
  reSeqs (w.data.map (fun c => RE.cls (fun d => d = c)))

/-- JavaScript word character `\w` = `[A-Za-z0-9_]`. -/
def jsIsWordChar (c : Char) : Bool :=
  c.isAlpha || c.isDigit || c = '_'

/-- Search for `\b w \b` in `text` (both already lower-cased by the caller):
an occurrence of `w` delimited on both sides by a word boundary. -/
def wordBoundaryAux (w : List Char) (prev : Option Char) : List Char → Bool
  | [] => false
  | c :: rest =>
    (w.isPrefixOf (c :: rest) &&
      (match prev with
       | none => true
       | some pc => !jsIsWordChar pc) &&
      (match (c :: rest).drop w.length with
       | [] => true
       | nc :: _ => !jsIsWordChar nc)) ||
    wordBoundaryAux w (some c) rest

/-- JavaScript `new RegExp("\\b" ++ w ++ "\\b", "i").test(text)` for the
(purely alphabetic, lower-case) language-indicator words, with `text` already
lower-cased by the caller. -/
def wordBoundaryTest (w text : String) : Bool :=
  wordBoundaryAux w.data none text.data

/-! ### Data model (`src/types/seo-types.ts`) -/

/-- Severity class of an issue (`SEOIssueType`). -/
inductive SEOIssueType where
  | error
  | warning
  | info
  | success
deriving DecidableEq, Repr

/-- Priority tier of an issue (`SEOIssuePriority`). -/
inductive SEOIssuePriority where
  | critical
  | important
  | niceToHave
deriving DecidableEq, Repr

/-- The closed set of issue categories (`SEOCategory`). -/
inductive SEOCategory where
  | metadata
  | headings
  | images
  | links
  | structureTag
  | content
  | performance
  | accessibility
  | mobile
  | social
  | security
  | favicon
  | schema
  | international
deriving DecidableEq, Repr

/-- The string name of a category, as used for the keys of the analyzer
registry and for `options.filter` membership tests. -/
def SEOCategory.name : SEOCategory → String
  | .metadata => "metadata"
  | .headings => "headings"
  | .images => "images"
  | .links => "links"
  | .structureTag => "structure"
  | .content => "content"
  | .performance => "performance"
  | .accessibility => "accessibility"
  | .mobile => "mobile"
  | .social => "social"
  | .security => "security"
  | .favicon => "favicon"
  | .schema => "schema"
  | .international => "international"

/-- An on-canvas bounding box (the `elementPosition` payload). -/
structure ElementRect where
  x : Rat
  y : Rat
  width : Rat
  height : Rat
deriving DecidableEq, Repr

/-- One detected finding (`SEOIssue`).  Optional fields default to `none`
exactly as omitted properties of the TypeScript object literals. -/
structure SEOIssue where
  type : SEOIssueType
  message : String
  category : SEOCategory
  element : Option String := none
  recommendation : Option String := none
  elementId : Option String := none
  elementPosition : Option ElementRect := none
  screenshot : Option String := none
  priority : SEOIssuePriority
  externalResourceLink : Option String := none
  externalResourceTitle : Option String := none
deriving DecidableEq, Repr

/-- A normalized page-element descriptor (`FramerNode`).  The `style` and
`metadata` sub-objects are flattened into optional fields; no analyzer
enumerates their keys (the one `Object.keys(node.style)` use is discussed at
`AccessibilityAnalyzer.checkKeyboardNavigation`), and the `children` list,
though declared in the TypeScript interface, is never read by any analyzer or
by the aggregation engine, so it is omitted here. -/
structure FramerNode where
  id : Option String := none
  name : String
  text : Option String := none
  type : Option String := none
  alt : Option String := none
  href : Option String := none
  rel : Option String := none
  ariaLabel : Option String := none
  role : Option String := none
  styleFontSize : Option Rat := none
  styleColor : Option String := none
  styleBackgroundColor : Option String := none
  styleWidth : Option Rat := none
  styleHeight : Option Rat := none
  metaName : Option String := none
  metaContent : Option String := none
  metaProperty : Option String := none
deriving DecidableEq, Repr

/-- Analyzer options (`SEOAnalyzerOptions`).  Only `filter` is ever read by
the engine; it keeps its string-list type (`SEOCategory[] | string[]`). -/
structure SEOAnalyzerOptions where
  filter : Option (List String) := none
deriving Repr

/-! ### Links analyzer (`src/analyzers/links-analyzer.ts`)

The browser's WHATWG URL parser (`new URL(href)` and `url.hostname`) is an
external collaborator; it is modelled as an oracle
`up : String → Option String` returning the hostname when the parse succeeds
and `none` when the constructor throws. -/

namespace LinksAnalyzer

/-- Rendering of `${expr}` for a `string | undefined` expression. -/
def jsTemplateOptStr : Option String → String
  | some s => s
  | none => "undefined"

/-- Is `hostname` truthy and clearly non-local
(`url.hostname && !url.hostname.includes("localhost") &&
!url.hostname.includes("127.0.0.1")`)? -/
def isExternalHost (h : String) : Bool :=
  !h.jsIsEmpty && !jsIncludes h "localhost" && !jsIncludes h "127.0.0.1"

/-- The node filter of `checkBrokenLinks`. -/
def isBrokenCheckLinkNode (n : FramerNode) : Bool :=
  !jsFalsyStr n.href ||
    jsIncludes n.name.jsLower "link" ||
    jsIncludes n.name.jsLower "anchor" ||
    n.role == some "link"

/-- The node filter of `checkInternalLinking` (no "anchor" clause). -/
def isInternalCheckLinkNode (n : FramerNode) : Bool :=
  !jsFalsyStr n.href ||
    jsIncludes n.name.jsLower "link" ||
    n.role == some "link"

/-- The issues the `checkBrokenLinks` loop body pushes for one link node. -/
def brokenLinkIssues (up : String → Option String) (linkNode : FramerNode) :
    List SEOIssue :=
  let href := jsOrStr linkNode.href ""
  if href.jsIsEmpty then
    [{ type := .error
       message := "Empty href in link \"" ++ linkNode.name ++ "\""
       category := .links
       element := some linkNode.name
       elementId := linkNode.id
       recommendation := some "Add a valid URL to all links"
       priority := .critical
       externalResourceLink := some "https://web.dev/learn/html/links/#href"
       externalResourceTitle := some "Web.dev: Link href attribute" }]
  else if href = "#" || href = "javascript:void(0)" then
    [{ type := .warning
       message := "Placeholder link href=\"" ++ href ++ "\" in \"" ++ linkNode.name ++ "\""
       category := .links
       element := some linkNode.name
       elementId := linkNode.id
       recommendation := some "Replace placeholder links with valid URLs or use buttons for JavaScript actions"
       priority := .important
       externalResourceLink := some "https://web.dev/learn/html/links/#javascript-links"
       externalResourceTitle := some "Web.dev: JavaScript links" }]
  else
    (if jsIncludes href "example.com" || jsIncludes href "placeholder" ||
        jsIncludes href "dummy" || jsIncludes href "test" || jsIncludes href ".temp" then
      [{ type := .warning
         message := "Potentially broken link: " ++ href
         category := .links
         element := some linkNode.name
         elementId := linkNode.id
         recommendation := some "Replace example/placeholder URLs with actual valid links"
         priority := .critical
         externalResourceLink := some "https://developers.google.com/search/docs/crawling-indexing/links-crawlable"
         externalResourceTitle := some "Google: Ensure your links are crawlable" }]
    else []) ++
    (match up href with
     | some _ => []
     | none =>
       if !href.jsStartsWith "/" && !href.jsStartsWith "#" &&
          !href.jsStartsWith "./" && !href.jsStartsWith "../" then
         [{ type := .warning
            message := "Potentially malformed URL: " ++ href
            category := .links
            element := some linkNode.name
            elementId := linkNode.id
            recommendation := some "Ensure the URL format is correct"
            priority := .important
            externalResourceLink := some "https://web.dev/learn/html/links/#url-structure"
            externalResourceTitle := some "Web.dev: URL structure" }]
       else [])

/-- The closing informational reminder appended by `checkBrokenLinks` when at
least one link node was found. -/
def verifyLinksIssue : SEOIssue :=
  { type := .info
    message := "Verify all links work in production"
    category := .links
    recommendation := some "Regularly check for broken links using a tool like Screaming Frog or Google Search Console"
    priority := .important
    externalResourceLink := some "https://developers.google.com/search/docs/crawling-indexing/links-crawlable"
    externalResourceTitle := some "Google: Make your links crawlable" }

/-- The issue pushed when no link nodes exist at all. -/
def noLinksIssue : SEOIssue :=
  { type := .info
    message := "No links detected on the page"
    category := .links
    recommendation := some "Consider adding internal and external links to improve navigation and SEO"
    priority := .important
    externalResourceLink := some "https://moz.com/learn/seo/internal-link"
    externalResourceTitle := some "Moz: Internal Links" }

/-- `checkBrokenLinks` of `LinksAnalyzer`. -/
def checkBrokenLinks (up : String → Option String) (nodes : List FramerNode) :
    List SEOIssue :=
  let linkNodes := nodes.filter isBrokenCheckLinkNode
  if linkNodes.length = 0 then
    [noLinksIssue]
  else
    (linkNodes.map (brokenLinkIssues up)).flatten ++ [verifyLinksIssue]

/-- The fixed generic anchor-text phrase list. -/
def genericPhrases : List String :=
  ["click here", "read more", "learn more", "more info", "details", "link"]

/-- The issues `checkLinkText` pushes for one link node with text. -/
def linkTextIssues (linkNode : FramerNode) : List SEOIssue :=
  let linkText := jsOrStr (linkNode.text.map String.jsLower) ""
  (if genericPhrases.any (fun phrase => jsIncludes linkText phrase) && linkText.length < 20 then
    [{ type := .warning
       message := "Generic link text: \"" ++ jsTemplateOptStr linkNode.text ++ "\""
       category := .links
       element := some linkNode.name
       elementId := linkNode.id
       recommendation := some "Use descriptive link text that makes sense out of context"
       priority := .important
       externalResourceLink := some "https://web.dev/learn/accessibility/links/"
       externalResourceTitle := some "Web.dev: Links and accessibility" }]
  else []) ++
  (if linkText.length > 100 then
    [{ type := .info
       message := "Very long link text (" ++ toString linkText.length ++ " characters)"
       category := .links
       element := some linkNode.name
       elementId := linkNode.id
       recommendation := some "Keep link text concise and descriptive"
       priority := .niceToHave
       externalResourceLink := some "https://web.dev/learn/accessibility/links/"
       externalResourceTitle := some "Web.dev: Links and accessibility" }]
  else [])

/-- `checkLinkText` of `LinksAnalyzer`. -/
def checkLinkText (nodes : List FramerNode) : List SEOIssue :=
  let linkNodes := nodes.filter (fun n =>
    (!jsFalsyStr n.href || n.role == some "link" || jsIncludes n.name.jsLower "link") &&
      !jsFalsyStr n.text)
  (linkNodes.map linkTextIssues).flatten

/-- The node filter of `checkExternalLinks`: a parseable absolute URL with a
clearly non-local hostname. -/
def isExternalLinkNode (up : String → Option String) (n : FramerNode) : Bool :=
  if jsFalsyStr n.href then false
  else
    match up (n.href.getD "") with
    | some host => isExternalHost host
    | none => false

/-- The security-attribute issue `checkExternalLinks` pushes for one external
link node. -/
def externalSecurityIssues (linkNode : FramerNode) : List SEOIssue :=
  let hasRelNoopener :=
    match linkNode.rel with
    | some r => jsIncludes r "noopener"
    | none => false
  let hasRelNoreferrer :=
    match linkNode.rel with
    | some r => jsIncludes r "noreferrer"
    | none => false
  let hasTargetBlank :=
    jsIncludes linkNode.name.jsLower "blank" ||
      jsIncludes linkNode.name.jsLower "newwindow" ||
      jsIncludes linkNode.name.jsLower "external"
  if hasTargetBlank && !(hasRelNoopener || hasRelNoreferrer) then
    [{ type := .warning
       message := "External link missing security attributes: " ++ jsTemplateOptStr linkNode.href
       category := .links
       element := some linkNode.name
       elementId := linkNode.id
       recommendation := some "Add rel=\"noopener noreferrer\" to external links that open in new tabs"
       priority := .important
       externalResourceLink := some "https://web.dev/learn/html/links/#opening-links-in-a-new-tab"
       externalResourceTitle := some "Web.dev: Opening links in a new tab" }]
  else []

/-- The fixed spam-keyword list. -/
def spamDomains : List String :=
  ["casino", "pharma", "pills", "betting", "loan", "kredit", "xxx"]

/-- The spam-domain issue `checkExternalLinks` pushes for one external link
node (invalid URLs are skipped by the catch). -/
def externalSpamIssues (up : String → Option String) (linkNode : FramerNode) :
    List SEOIssue :=
  match up (jsOrStr linkNode.href "") with
  | some host =>
    if spamDomains.any (fun domain => jsIncludes host domain) then
      [{ type := .error
         message := "Potential spam domain in link: " ++ jsTemplateOptStr linkNode.href
         category := .links
         element := some linkNode.name
         elementId := linkNode.id
         recommendation := some "Remove links to potential spam domains to avoid SEO penalties"
         priority := .critical
         externalResourceLink := some "https://developers.google.com/search/docs/essentials/spam-policies"
         externalResourceTitle := some "Google: Spam policies" }]
    else []
  | none => []

/-- `checkExternalLinks` of `LinksAnalyzer`. -/
def checkExternalLinks (up : String → Option String) (nodes : List FramerNode) :
    List SEOIssue :=
  let externalLinkNodes := nodes.filter (isExternalLinkNode up)
  (externalLinkNodes.map externalSecurityIssues).flatten ++
    (externalLinkNodes.map (externalSpamIssues up)).flatten

/-- Is the link counted as internal by the `checkInternalLinking` loop
(a parse with a local/empty hostname, or an unparseable href of a recognised
relative form)? -/
def countsAsInternal (up : String → Option String) (n : FramerNode) : Bool :=
  if jsFalsyStr n.href then false
  else
    let href := n.href.getD ""
    match up href with
    | some host => !isExternalHost host
    | none =>
      href.jsStartsWith "/" || href.jsStartsWith "#" ||
        href.jsStartsWith "./" || href.jsStartsWith "../"

/-- `checkInternalLinking` of `LinksAnalyzer`. -/
def checkInternalLinking (up : String → Option String) (nodes : List FramerNode) :
    List SEOIssue :=
  let linkNodes := nodes.filter isInternalCheckLinkNode
  let internalLinkCount := (linkNodes.filter (countsAsInternal up)).length
  (if internalLinkCount < 3 && linkNodes.length > 0 then
    [{ type := .warning
       message := "Limited internal linking detected"
       category := .links
       recommendation := some "Add more internal links to improve site navigation and SEO"
       priority := .important
       externalResourceLink := some "https://moz.com/learn/seo/internal-link"
       externalResourceTitle := some "Moz: Internal Links" }]
  else []) ++
  (let internalLinks := linkNodes.filter (countsAsInternal up)
   let linkTextCounts := internalLinks.foldl (fun m linkNode =>
     let linkText := jsOrStr (linkNode.text.map String.jsLower) ""
     if linkText.jsIsEmpty then m else jsRecordBump m linkText) []
   let duplicateTexts := ((jsRecordEntries linkTextCounts).filter (fun e => e.2 > 1)).map (·.1)
   if duplicateTexts.length > 0 then
    [{ type := .info
       message := "Duplicate link text found: " ++ String.intercalate ", " duplicateTexts
       category := .links
       recommendation := some "Use unique, descriptive link text for different destinations"
       priority := .niceToHave
       externalResourceLink := some "https://web.dev/learn/accessibility/links/#unique-link-text"
       externalResourceTitle := some "Web.dev: Unique link text" }]
   else [])

/-- `LinksAnalyzer.analyze`: the four sub-checks push into one shared list. -/
def analyze (up : String → Option String) (nodes : List FramerNode) : List SEOIssue :=
  checkBrokenLinks up nodes ++ checkLinkText nodes ++
    checkExternalLinks up nodes ++ checkInternalLinking up nodes

end LinksAnalyzer

/-! ### A concrete URL-parser collaborator -/

/-- Does the string start with a URL scheme (`alpha (alphanum | + | - | .)* :`)? -/
def schemeCharsThenColon : List Char → Bool
  | [] => false
  | c :: rest =>
    if c = ':' then true
    else (c.isAlpha || c.isDigit || c = '+' || c = '-' || c = '.') && schemeCharsThenColon rest

/-- Does the string begin with a valid URL scheme followed by a colon? -/
def hasURLScheme (s : String) : Bool :=
  match s.data with
  | [] => false
  | c :: rest => c.isAlpha && schemeCharsThenColon rest

/-- Modelled from the spec: the browser's WHATWG `new URL` parser is an
external collaborator of the links analyzer (§6: the engine performs no real
link-reachability checking; `new URL(href)` merely throws on strings that are
not absolute URLs).  This reference instance returns the lower-cased hostname
of `http`/`https` URLs (up to the first `/`, `?`, `#` or `:`), an empty
hostname for other scheme-ful URLs, and `none` (the constructor throws) for
scheme-less strings such as the relative hrefs `/about` or `#top`.  The
general theorems below quantify over an arbitrary parser; this instance only
discharges their hypotheses on concrete, unambiguous inputs. -/
def specURLHostname (s : String) : Option String :=
  if s.jsStartsWith "http://" then
    some ⟨((s.data.drop 7).takeWhile (fun c =>
      !(c = '/' || c = '?' || c = '#' || c = ':'))).map Char.toLower⟩
  else if s.jsStartsWith "https://" then
    some ⟨((s.data.drop 8).takeWhile (fun c =>
      !(c = '/' || c = '?' || c = '#' || c = ':'))).map Char.toLower⟩
  else if hasURLScheme s then some ""
  else none

/-- The C6 scenario: five link nodes with well-formed internal (relative)
hrefs and descriptive, unique anchor text. -/
def linkScenarioNodes : List FramerNode :=
  [ { name := "nav-about", type := some "link", href := some "/about",
      text := some "About our company history" }
  , { name := "nav-contact", type := some "link", href := some "/contact",
      text := some "Contact the sales team" }
  , { name := "nav-services", type := some "link", href := some "/services",
      text := some "Our professional services" }
  , { name := "nav-blog", type := some "link", href := some "/blog",
      text := some "Latest company news articles" }
  , { name := "nav-home", type := some "link", href := some "/home",
      text := some "Return to the homepage" } ]

/-- Counterexample to C6: with zero link-like nodes, `checkBrokenLinks`
returns early after the "No links detected on the page" issue, so the links
checker emits no issue with message "Verify all links work in production" —
the closing reminder is not appended "regardless of findings". -/
theorem c6_counterexample :
    LinksAnalyzer.analyze specURLHostname [] = [LinksAnalyzer.noLinksIssue] ∧
    (LinksAnalyzer.analyze specURLHostname []).all
      (fun i => !(i.message == "Verify all links work in production")) = true := by
  decide

/-- Claim C6 (amended): the closing informational reminder issue (message
"Verify all links work in production") is appended whenever at least one
link-like node exists (but with zero link-like nodes the checker instead
emits only the "No links detected" issue); and for the five-link scenario
with well-formed internal hrefs and descriptive unique anchor text, the links
checker returns exactly the closing informational issue and nothing else. -/
theorem c6_links_closing_issue :
    (∀ (up : String → Option String) (nodes : List FramerNode),
        (∃ n ∈ nodes, LinksAnalyzer.isBrokenCheckLinkNode n = true) →
        LinksAnalyzer.verifyLinksIssue ∈ LinksAnalyzer.analyze up nodes) ∧
    LinksAnalyzer.analyze specURLHostname linkScenarioNodes =
      [LinksAnalyzer.verifyLinksIssue] := by
  constructor
  · intro up nodes hex
    obtain ⟨n, hn, hp⟩ := hex
    have hmem : n ∈ nodes.filter LinksAnalyzer.isBrokenCheckLinkNode :=
      List.mem_filter.2 ⟨hn, hp⟩
    have hne : (nodes.filter LinksAnalyzer.isBrokenCheckLinkNode).length ≠ 0 := by
      intro h0
      rw [List.length_eq_zero] at h0
      rw [h0] at hmem
      exact (List.not_mem_nil n) hmem
    simp only [LinksAnalyzer.analyze, LinksAnalyzer.checkBrokenLinks]
    rw [if_neg hne]
    simp [List.mem_append]
  · decide

/-- Witness for C6: the general closing-reminder statement applied to the
concrete five-link scenario. -/
theorem c6_links_closing_issue_witness :
    LinksAnalyzer.verifyLinksIssue ∈
      LinksAnalyzer.analyze specURLHostname linkScenarioNodes :=
  c6_links_closing_issue.1 specURLHostname linkScenarioNodes
    ⟨{ name := "nav-about", type := some "link", href := some "/about",
       text := some "About our company history" }, by decide, by decide⟩

/-! ### Accessibility analyzer (`AccessibilityAnalyzer`) -/

namespace AccessibilityAnalyzer

/-- The image-node filter of `checkImageAltText`. -/
def isImageNode (n : FramerNode) : Bool :=
  n.type == some "image" ||
    jsIncludes n.name.jsLower "image" ||
    jsIncludes n.name.jsLower "img" ||
    jsIncludes n.name.jsLower "picture"

/-- The critical missing-alt error (`!imageNode.alt && !imageNode.ariaLabel`
is true both when `alt` is absent and when it is the empty string). -/
def missingAltIssue (imageNode : FramerNode) : SEOIssue :=
  { type := .error
    message := "Missing alt text for image \"" ++ imageNode.name ++ "\""
    category := .accessibility
    element := some imageNode.name
    elementId := imageNode.id
    recommendation := some "Add descriptive alt text to all images for screen readers and better accessibility"
    priority := .critical
    externalResourceLink := some "https://web.dev/learn/accessibility/images/"
    externalResourceTitle := some "Web.dev: Images and accessibility" }

/-- The body of the first `forEach` of `checkImageAltText` for one image. -/
def altIssuesFor (imageNode : FramerNode) : List SEOIssue :=
  if jsFalsyStr imageNode.alt && jsFalsyStr imageNode.ariaLabel then
    [missingAltIssue imageNode]
  else if (match imageNode.alt with
           | some a => !a.jsIsEmpty && (a == "image" || a.length < 5)
           | none => false) then
    [{ type := .warning
       message := "Non-descriptive alt text \"" ++ jsOrStr imageNode.alt "" ++
         "\" for image \"" ++ imageNode.name ++ "\""
       category := .accessibility
       element := some imageNode.name
       elementId := imageNode.id
       recommendation := some "Use descriptive alt text that conveys the purpose and content of the image"
       priority := .important
       externalResourceLink := some "https://web.dev/learn/accessibility/images/"
       externalResourceTitle := some "Web.dev: Images and accessibility" }]
  else []

/-- The decorative-image filter (`alt === "" ||` decorative/background name). -/
def isDecorativeImage (n : FramerNode) : Bool :=
  n.alt == some "" ||
    jsIncludes n.name.jsLower "decorative" ||
    jsIncludes n.name.jsLower "background"

/-- The body of the decorative `forEach` (fires when `alt !== ""`, which is
also true when `alt` is absent). -/
def decorativeIssuesFor (imageNode : FramerNode) : List SEOIssue :=
  if !(imageNode.alt == some "") then
    [{ type := .info
       message := "Decorative image \"" ++ imageNode.name ++ "\" should have empty alt text"
       category := .accessibility
       element := some imageNode.name
       elementId := imageNode.id
       recommendation := some "For decorative images, use empty alt text (alt=\"\") to hide them from screen readers"
       priority := .niceToHave
       externalResourceLink := some "https://www.w3.org/WAI/tutorials/images/decorative/"
       externalResourceTitle := some "W3C: Decorative Images" }]
  else []

/-- `checkImageAltText` of `AccessibilityAnalyzer`. -/
def checkImageAltText (nodes : List FramerNode) : List SEOIssue :=
  let imageNodes := nodes.filter isImageNode
  if imageNodes.length = 0 then []
  else
    (imageNodes.map altIssuesFor).flatten ++
      ((imageNodes.filter isDecorativeImage).map decorativeIssuesFor).flatten

/-- The fixed (simplified) list of valid ARIA roles. -/
def validRoles : List String :=
  [ "button", "checkbox", "dialog", "gridcell", "link", "menuitem",
    "menuitemcheckbox", "menuitemradio", "option", "progressbar",
    "radio", "scrollbar", "searchbox", "slider", "spinbutton",
    "switch", "tab", "tabpanel", "textbox", "treeitem" ]

/-- `checkAriaAttributes` loop body for one node. -/
def ariaIssuesFor (node : FramerNode) : List SEOIssue :=
  (match node.role with
   | some r =>
     if !r.jsIsEmpty && !(validRoles.contains r.jsLower) then
       [{ type := .warning
          message := "Potentially invalid ARIA role \"" ++ r ++ "\" on element \"" ++ node.name ++ "\""
          category := .accessibility
          element := some node.name
          elementId := node.id
          recommendation := some "Use valid ARIA roles from the WAI-ARIA specification"
          priority := .important
          externalResourceLink := some "https://developer.mozilla.org/en-US/docs/Web/Accessibility/ARIA/Roles"
          externalResourceTitle := some "MDN: ARIA Roles" }]
     else []
   | none => []) ++
  (let isInteractive :=
     node.role == some "button" || node.role == some "link" ||
       jsIncludes node.name.jsLower "button" || jsIncludes node.name.jsLower "link"
   if isInteractive && jsFalsyStr node.ariaLabel && jsFalsyStr node.text then
     [{ type := .error
        message := "Interactive element \"" ++ node.name ++ "\" has no accessible name"
        category := .accessibility
        element := some node.name
        elementId := node.id
        recommendation := some "Add text content or aria-label to all interactive elements"
        priority := .critical
        externalResourceLink := some "https://web.dev/learn/accessibility/aria-html/#accessible-names"
        externalResourceTitle := some "Web.dev: Accessible names" }]
   else [])

/-- `checkAriaAttributes` of `AccessibilityAnalyzer`. -/
def checkAriaAttributes (nodes : List FramerNode) : List SEOIssue :=
  (nodes.map ariaIssuesFor).flatten

/-- The input-node filter of `checkFormAccessibility`. -/
def isInputNode (n : FramerNode) : Bool :=
  jsIncludes n.name.jsLower "input" ||
    jsIncludes n.name.jsLower "textfield" ||
    jsIncludes n.name.jsLower "textarea" ||
    jsIncludes n.name.jsLower "select" ||
    n.role == some "textbox" ||
    n.role == some "searchbox" ||
    n.role == some "combobox"

/-- `checkFormAccessibility` of `AccessibilityAnalyzer`. -/
def checkFormAccessibility (nodes : List FramerNode) : List SEOIssue :=
  let formNodes := nodes.filter (fun n =>
    jsIncludes n.name.jsLower "form" || n.role == some "form")
  if formNodes.length = 0 then []
  else
    let inputNodes := nodes.filter isInputNode
    (inputNodes.map (fun inputNode =>
      let hasAssociatedLabel := nodes.any (fun node =>
        jsIncludes node.name.jsLower "label" &&
          jsIncludes node.name.jsLower inputNode.name.jsLower)
      if !hasAssociatedLabel && jsFalsyStr inputNode.ariaLabel then
        [{ type := .error
           message := "Input \"" ++ inputNode.name ++ "\" has no associated label"
           category := .accessibility
           element := some inputNode.name
           elementId := inputNode.id
           recommendation := some "Associate a label with every form control or use aria-label"
           priority := .critical
           externalResourceLink := some "https://web.dev/learn/accessibility/forms/"
           externalResourceTitle := some "Web.dev: Accessible forms" }]
      else [])).flatten ++
    (let hasErrorMessage := nodes.any (fun node =>
       jsIncludes node.name.jsLower "error" ||
         jsIncludes node.name.jsLower "validation" ||
         jsIncludes node.name.jsLower "helper")
     if inputNodes.length > 0 && !hasErrorMessage then
       [{ type := .warning
          message := "Form may lack error validation messages"
          category := .accessibility
          recommendation := some "Include clear error messages and validation guidance for form inputs"
          priority := .important
          externalResourceLink := some "https://web.dev/learn/accessibility/forms/#error-reporting"
          externalResourceTitle := some "Web.dev: Form error reporting" }]
     else [])

/-- `checkKeyboardNavigation` of `AccessibilityAnalyzer`.  The source also
disjoins `node.style && Object.keys(node.style).some(key => key.includes("focus"))`;
the typed style object only ever has the keys fontSize, color,
backgroundColor, width and height, none of which contains "focus", so that
disjunct is identically false and is omitted. -/
def checkKeyboardNavigation (nodes : List FramerNode) : List SEOIssue :=
  let hasFocusStyles := nodes.any (fun node => jsIncludes node.name.jsLower "focus")
  (if !hasFocusStyles then
    [{ type := .warning
       message := "No visible focus indicators detected"
       category := .accessibility
       recommendation := some "Add visible focus indicators for keyboard navigation"
       priority := .important
       externalResourceLink := some "https://web.dev/learn/accessibility/focus/"
       externalResourceTitle := some "Web.dev: Focus" }]
  else []) ++
  (let hasSkipLink := nodes.any (fun node =>
     jsIncludes node.name.jsLower "skip" && jsIncludes node.name.jsLower "navigation")
   if !hasSkipLink then
    [{ type := .info
       message := "No skip navigation link detected"
       category := .accessibility
       recommendation := some "Add a \x27Skip to main content\x27 link at the beginning of the page for keyboard users"
       priority := .niceToHave
       externalResourceLink := some "https://web.dev/learn/accessibility/focus/#skip-navigation"
       externalResourceTitle := some "Web.dev: Skip navigation" }]
   else [])

/-- The text-node filter of `checkColorContrast`. -/
def isContrastTextNode (n : FramerNode) : Bool :=
  n.type == some "text" ||
    jsIncludes n.name.jsLower "text" ||
    jsIncludes n.name.jsLower "paragraph" ||
    jsIncludes n.name.jsLower "heading"

/-- The per-node contrast heuristic of `checkColorContrast`. -/
def contrastIssuesFor (textNode : FramerNode) : List SEOIssue :=
  match textNode.styleColor, textNode.styleBackgroundColor with
  | some c, some b =>
    if c.jsIsEmpty || b.jsIsEmpty then []
    else
      let color := c.jsLower
      let backgroundColor := b.jsLower
      if (jsIncludes color "light" && jsIncludes backgroundColor "light") ||
         (jsIncludes color "white" && jsIncludes backgroundColor "light") ||
         (jsIncludes color "yellow" && jsIncludes backgroundColor "white") ||
         (jsIncludes color "dark" && jsIncludes backgroundColor "dark") ||
         (jsIncludes color "black" && jsIncludes backgroundColor "dark") then
        [{ type := .warning
           message := "Potential contrast issue in \"" ++ textNode.name ++ "\""
           category := .accessibility
           element := some textNode.name
           elementId := textNode.id
           recommendation := some "Ensure text has sufficient contrast with its background (minimum ratio of 4.5:1)"
           priority := .important
           externalResourceLink := some "https://web.dev/learn/accessibility/color-contrast/"
           externalResourceTitle := some "Web.dev: Color and contrast" }]
      else []
  | _, _ => []

/-- `checkColorContrast` of `AccessibilityAnalyzer`: the generic reminder is
appended exactly when no per-node contrast issue fired. -/
def checkColorContrast (nodes : List FramerNode) : List SEOIssue :=
  let textNodes := nodes.filter isContrastTextNode
  let found := (textNodes.map contrastIssuesFor).flatten
  found ++
    (if found.isEmpty then
      [{ type := .info
         message := "Verify color contrast in your design"
         category := .accessibility
         recommendation := some "Use a contrast checker tool to ensure all text meets WCAG standards (4.5:1 for normal text, 3:1 for large text)"
         priority := .important
         externalResourceLink := some "https://web.dev/learn/accessibility/color-contrast/"
         externalResourceTitle := some "Web.dev: Color and contrast" }]
    else [])

/-- `checkTextSize` of `AccessibilityAnalyzer`. -/
def checkTextSize (nodes : List FramerNode) : List SEOIssue :=
  let smallTextNodes := nodes.filter (fun node =>
    match node.styleFontSize with
    | some v => v != 0 && v < 12
    | none => false)
  (if smallTextNodes.length > 0 then
    [{ type := .warning
       message := "Text size may be too small for some users"
       category := .accessibility
       recommendation := some "Use a minimum font size of 12px, preferably 16px for body text"
       priority := .important
       externalResourceLink := some "https://web.dev/learn/accessibility/typography/#font-size"
       externalResourceTitle := some "Web.dev: Typography and accessibility" }] ++
    (match smallTextNodes.head? with
     | some n0 =>
       [{ type := .info
          message := "Small text found in \"" ++ n0.name ++ "\" (" ++
            jsNumToString (jsOrZero n0.styleFontSize) ++ "px)"
          category := .accessibility
          element := some n0.name
          elementId := n0.id
          recommendation := some "Increase font size for better readability"
          priority := .niceToHave }]
     | none => [])
  else []) ++
  [{ type := .info
     message := "Consider using relative units for text sizing"
     category := .accessibility
     recommendation := some "Use relative units like rem or em instead of pixels to support user font size preferences"
     priority := .niceToHave
     externalResourceLink := some "https://web.dev/learn/accessibility/typography/#responsive-typography"
     externalResourceTitle := some "Web.dev: Responsive typography" }]

/-- `AccessibilityAnalyzer.analyze`. -/
def analyze (nodes : List FramerNode) : List SEOIssue :=
  checkImageAltText nodes ++ checkAriaAttributes nodes ++
    checkFormAccessibility nodes ++ checkKeyboardNavigation nodes ++
    checkColorContrast nodes ++ checkTextSize nodes

end AccessibilityAnalyzer

/-! ### Images analyzer (`ImagesAnalyzer`) -/

namespace ImagesAnalyzer

/-- The image-node filter of `ImagesAnalyzer.analyze` (broader than the
accessibility checker's: it also matches "icon" and "photo"). -/
def isImageNode (n : FramerNode) : Bool :=
  n.type == some "image" ||
    jsIncludes n.name.jsLower "image" ||
    jsIncludes n.name.jsLower "img" ||
    jsIncludes n.name.jsLower "picture" ||
    jsIncludes n.name.jsLower "icon" ||
    jsIncludes n.name.jsLower "photo"

/-- The filter of images lacking alt text (`!node.alt` is true both for a
missing and for an empty-string alt; the decorative/background name test is
case-sensitive here). -/
def lacksAlt (n : FramerNode) : Bool :=
  jsFalsyStr n.alt &&
    !jsIncludes n.name "decorative" &&
    !jsIncludes n.name "background"

/-- `checkAltText` of `ImagesAnalyzer`. -/
def checkAltText (imageNodes : List FramerNode) : List SEOIssue :=
  let imagesWithoutAlt := imageNodes.filter lacksAlt
  (if imagesWithoutAlt.length > 0 then
    [{ type := .error
       message := toString imagesWithoutAlt.length ++ " image" ++
         (if imagesWithoutAlt.length > 1 then "s" else "") ++ " without alt text"
       category := .images
       element := some "img"
       recommendation := some "Add descriptive alt text to all non-decorative images for accessibility and SEO"
       priority := .critical
       externalResourceLink := some "https://developers.google.com/search/docs/advanced/guidelines/google-images#use-descriptive-alt-text"
       externalResourceTitle := some "Google: Use descriptive alt text" }] ++
    ((imagesWithoutAlt.take 5).map (fun node =>
      { type := .info
        message := "Image \x27" ++ node.name ++ "\x27 is missing alt text"
        category := .images
        element := some node.name
        elementId := node.id
        priority := .critical
        recommendation := some "Add descriptive alt text that explains the image content" })) ++
    (if imagesWithoutAlt.length > 5 then
      [{ type := .info
         message := "And " ++ toString (imagesWithoutAlt.length - 5) ++ " more images without alt text"
         category := .images
         priority := .important }]
    else [])
  else []) ++
  (let shortAltTextImages := imageNodes.filter (fun node =>
     (match node.alt with
      | some a => !a.jsIsEmpty && a.length < 5
      | none => false) &&
       !jsIncludes node.name "decorative" &&
       !jsIncludes node.name "background")
   if shortAltTextImages.length > 0 then
    [{ type := .warning
       message := toString shortAltTextImages.length ++ " image" ++
         (if shortAltTextImages.length > 1 then "s have" else " has") ++ " very short alt text"
       category := .images
       element := some "img"
       recommendation := some "Use descriptive alt text that clearly explains the image content"
       priority := .important
       externalResourceLink := some "https://moz.com/learn/seo/alt-text"
       externalResourceTitle := some "Moz: Image Alt Text" }]
   else [])

/-- The anchored, case-insensitive generic-filename regex
`/^(image|img|photo|pic|dsc|untitled|screenshot)[0-9]+\.(jpg|jpeg|png|gif|webp|svg)$/i`. -/
def genericFilenameTest (s : String) : Bool :=
  let ls := s.jsLower.data
  ["image", "img", "photo", "pic", "dsc", "untitled", "screenshot"].any (fun p =>
    p.data.isPrefixOf ls &&
      (let rest := ls.drop p.data.length
       let digits := rest.takeWhile Char.isDigit
       !digits.isEmpty &&
         (match rest.drop digits.length with
          | '.' :: ext => ["jpg", "jpeg", "png", "gif", "webp", "svg"].contains ⟨ext⟩
          | _ => false)))

/-- `checkImageFilenames` of `ImagesAnalyzer`
(`node.name.split('/').pop() || node.name`). -/
def checkImageFilenames (imageNodes : List FramerNode) : List SEOIssue :=
  let imagesWithGenericFilenames := imageNodes.filter (fun node =>
    let filename := jsOrStr (jsSplitOnChar '/' node.name).getLast? node.name
    genericFilenameTest filename)
  if imagesWithGenericFilenames.length > 0 then
    [{ type := .warning
       message := toString imagesWithGenericFilenames.length ++ " image" ++
         (if imagesWithGenericFilenames.length > 1 then "s have" else " has") ++ " generic filenames"
       category := .images
       recommendation := some "Use descriptive filenames for images (e.g., \x27red-sports-car.jpg\x27 instead of \x27image1.jpg\x27)"
       priority := .niceToHave
       externalResourceLink := some "https://developers.google.com/search/docs/advanced/guidelines/google-images#file-names"
       externalResourceTitle := some "Google: Choose descriptive filenames" }]
  else []

/-- `checkLazyLoading` of `ImagesAnalyzer`. -/
def checkLazyLoading (imageNodes : List FramerNode) : List SEOIssue :=
  if imageNodes.length > 3 then
    [{ type := .info
       message := "Multiple images detected - consider implementing lazy loading"
       category := .images
       recommendation := some "Add loading=\"lazy\" attribute to images that appear below the fold"
       priority := .important
       externalResourceLink := some "https://web.dev/browser-level-image-lazy-loading/"
       externalResourceTitle := some "Web.dev: Browser-level image lazy-loading for the web" }]
  else []

/-- `checkImageDimensions` of `ImagesAnalyzer` (a width or height of `0` is
falsy and counts as missing). -/
def checkImageDimensions (imageNodes : List FramerNode) : List SEOIssue :=
  let imagesWithoutDimensions := imageNodes.filter (fun node =>
    !jsTruthyNum node.styleWidth || !jsTruthyNum node.styleHeight)
  if imagesWithoutDimensions.length > 0 then
    [{ type := .warning
       message := toString imagesWithoutDimensions.length ++ " image" ++
         (if imagesWithoutDimensions.length > 1 then "s lack" else " lacks") ++ " explicit dimensions"
       category := .images
       recommendation := some "Set explicit width and height attributes on images to prevent layout shifts"
       priority := .important
       externalResourceLink := some "https://web.dev/optimize-cls/#images-without-dimensions"
       externalResourceTitle := some "Web.dev: Optimize Cumulative Layout Shift - Images without dimensions" }]
  else []

/-- `ImagesAnalyzer.analyze`. -/
def analyze (nodes : List FramerNode) : List SEOIssue :=
  let imageNodes := nodes.filter isImageNode
  if imageNodes.length = 0 then
    [{ type := .info
       message := "No images found on the page"
       category := .images
       recommendation := some "Consider adding relevant images to enhance content and SEO"
       priority := .niceToHave
       externalResourceLink := some "https://developers.google.com/search/docs/advanced/guidelines/google-images"
       externalResourceTitle := some "Google: Google Images best practices" }]
  else
    checkAltText imageNodes ++ checkImageFilenames imageNodes ++
      checkLazyLoading imageNodes ++ checkImageDimensions imageNodes

end ImagesAnalyzer

/-- Counterexample to C7: for an image node with `alt: ""` (no aria-label, no
decorative indicator), the accessibility checker DOES emit the critical
"missing alt text" error, because `!imageNode.alt` is true for the empty
string — contradicting the claim that an empty-string alt counts as present. -/
theorem c7_counterexample :
    (AccessibilityAnalyzer.analyze
      [{ name := "photo", type := some "image", alt := some "" }]).any
      (fun i => i.type == .error && i.priority == .critical &&
        i.message == "Missing alt text for image \"photo\"") = true := by
  decide

/-- Claim C7 (amended): both checkers treat an empty-string alt exactly like a
missing one.  For every node list containing an image node with `alt = ""`,
no aria-label and no decorative indicator in its name, the accessibility
checker emits its critical missing-alt error for that node, and the images
checker likewise emits its critical "1 image without alt text" error on the
singleton list — there is no asymmetry between the two checkers here. -/
theorem c7_empty_alt_flagged
    (nodes : List FramerNode) (n : FramerNode)
    (hmem : n ∈ nodes)
    (himg : AccessibilityAnalyzer.isImageNode n = true)
    (halt : n.alt = some "")
    (haria : jsFalsyStr n.ariaLabel = true) :
    AccessibilityAnalyzer.missingAltIssue n ∈ AccessibilityAnalyzer.analyze nodes ∧
    (jsIncludes n.name "decorative" = false → jsIncludes n.name "background" = false →
      (ImagesAnalyzer.analyze [n]).any (fun i => i.type == .error &&
        i.priority == .critical && i.message == "1 image without alt text") = true) := by
  constructor
  · have hf : n ∈ nodes.filter AccessibilityAnalyzer.isImageNode :=
      List.mem_filter.2 ⟨hmem, himg⟩
    have hne : (nodes.filter AccessibilityAnalyzer.isImageNode).length ≠ 0 := by
      intro h0
      rw [List.length_eq_zero] at h0
      rw [h0] at hf
      exact (List.not_mem_nil n) hf
    have hissue : AccessibilityAnalyzer.missingAltIssue n ∈ AccessibilityAnalyzer.altIssuesFor n := by
      simp [AccessibilityAnalyzer.altIssuesFor, halt, haria,
        show jsFalsyStr (some "") = true from rfl]
    have hflat : AccessibilityAnalyzer.missingAltIssue n ∈
        ((nodes.filter AccessibilityAnalyzer.isImageNode).map
          AccessibilityAnalyzer.altIssuesFor).flatten :=
      List.mem_flatten.2 ⟨_, List.mem_map_of_mem _ hf, hissue⟩
    simp only [AccessibilityAnalyzer.analyze, AccessibilityAnalyzer.checkImageAltText]
    rw [if_neg hne]
    simp only [List.mem_append]
    tauto
  · intro hdec hbg
    have himg2 : ImagesAnalyzer.isImageNode n = true := by
      simp only [AccessibilityAnalyzer.isImageNode, Bool.or_eq_true, beq_iff_eq] at himg
      simp only [ImagesAnalyzer.isImageNode, Bool.or_eq_true, beq_iff_eq]
      tauto
    have hlacks : ImagesAnalyzer.lacksAlt n = true := by
      simp [ImagesAnalyzer.lacksAlt, halt, hdec, hbg,
        show jsFalsyStr (some "") = true from rfl]
    simp [ImagesAnalyzer.analyze, himg2, ImagesAnalyzer.checkAltText, hlacks]
    refine Or.inl ?_
    decide

/-- Witness for C7: the amended statement applied to the concrete node. -/
theorem c7_empty_alt_flagged_witness :
    AccessibilityAnalyzer.missingAltIssue
        { name := "photo", type := some "image", alt := some "" } ∈
      AccessibilityAnalyzer.analyze
        [{ name := "photo", type := some "image", alt := some "" }] :=
  (c7_empty_alt_flagged [{ name := "photo", type := some "image", alt := some "" }]
    { name := "photo", type := some "image", alt := some "" }
    (by decide) (by decide) rfl rfl).1

/-! ### Structure analyzer (`src/analyzers/structure-analyzer.ts`) -/

namespace StructureAnalyzer

/-- The H1-like node filter of `checkHeadingStructure`. -/
def isH1Node (n : FramerNode) : Bool :=
  n.name.jsLower == "h1" ||
    n.name.jsLower == "heading1" ||
    jsIncludes n.name.jsLower "h1" ||
    jsIncludes n.name.jsLower "title" ||
    (match n.styleFontSize with
     | some v => v != 0 && v ≥ 32
     | none => false)

/-- The H2-like node filter. -/
def isH2Node (n : FramerNode) : Bool :=
  n.name.jsLower == "h2" ||
    n.name.jsLower == "heading2" ||
    jsIncludes n.name.jsLower "h2" ||
    jsIncludes n.name.jsLower "subtitle" ||
    (match n.styleFontSize with
     | some v => v != 0 && v ≥ 24 && v < 32
     | none => false)

/-- The H3-like node filter. -/
def isH3Node (n : FramerNode) : Bool :=
  n.name.jsLower == "h3" ||
    n.name.jsLower == "heading3" ||
    jsIncludes n.name.jsLower "h3" ||
    (match n.styleFontSize with
     | some v => v != 0 && v ≥ 20 && v < 24
     | none => false)

/-- The preference test of `findMainH1`: name contains "title" or "main", or
is exactly "h1" (NOT merely containing "h1"). -/
def isPreferredMainH1 (node : FramerNode) : Bool :=
  jsIncludes node.name.jsLower "title" ||
    jsIncludes node.name.jsLower "main" ||
    node.name.jsLower == "h1"

/-- `findMainH1` of `StructureAnalyzer`: the preferred candidate if any,
otherwise the first H1-like node in input order. -/
def findMainH1 (h1Nodes : List FramerNode) : Option FramerNode :=
  if h1Nodes.length = 0 then none
  else
    match h1Nodes.find? isPreferredMainH1 with
    | some mainTitleNode => some mainTitleNode
    | none => h1Nodes.head?

/-- The critical error for a page without any H1-like node. -/
def noH1Issue : SEOIssue :=
  { type := .error
    message := "No H1 heading found on the page"
    category := .structureTag
    recommendation := some "Add an H1 heading as the main title of your page - each page should have exactly one H1"
    priority := .critical
    externalResourceLink := some "https://developers.google.com/search/docs/appearance/page-titles"
    externalResourceTitle := some "Google: Create good page titles" }

/-- The bullet list of detected H1 candidates (first five, then a count). -/
def h1NodesList (h1Nodes : List FramerNode) : String :=
  ((h1Nodes.take 5).foldl (fun acc node =>
      acc ++ "• \"" ++ jsOrStr node.text node.name ++ "\"\n") "") ++
    (if h1Nodes.length > 5 then
      "• ... and " ++ toString (h1Nodes.length - 5) ++ " more"
    else "")

/-- The critical error for multiple H1-like nodes. -/
def multipleH1Issue (h1Nodes : List FramerNode) : SEOIssue :=
  { type := .error
    message := "Multiple H1 headings found (" ++ toString h1Nodes.length ++ ")"
    category := .structureTag
    recommendation := some ("Use only one H1 heading per page for proper SEO structure. The following elements are detected as H1s:\n" ++
      h1NodesList h1Nodes)
    priority := .critical
    externalResourceLink := some "https://www.searchenginejournal.com/on-page-seo/heading-tags/"
    externalResourceTitle := some "How to Use Heading Tags for SEO" }

/-- The informational suggestion naming the most likely main H1. -/
def mainH1Suggestion (potentialMainH1 : FramerNode) : SEOIssue :=
  { type := .info
    message := "Consider keeping \"" ++ jsOrStr potentialMainH1.text potentialMainH1.name ++
      "\" as your main H1"
    category := .structureTag
    element := some potentialMainH1.name
    elementId := potentialMainH1.id
    recommendation := some "Keep this as your main H1 and convert other H1s to H2s or other elements"
    priority := .important }

/-- The per-H1 text length checks. -/
def headingLengthIssues (node : FramerNode) : List SEOIssue :=
  let headingText := jsOrStr node.text ""
  (if headingText.length < 20 then
    [{ type := .info
       message := "H1 heading is quite short"
       category := .structureTag
       element := some "h1"
       elementId := node.id
       recommendation := some "Consider using a more descriptive H1 heading that includes your main keyword"
       priority := .important
       externalResourceLink := some "https://moz.com/learn/seo/on-page-factors"
       externalResourceTitle := some "Moz: On-Page Ranking Factors" }]
  else []) ++
  (if headingText.length > 70 then
    [{ type := .warning
       message := "H1 heading is too long"
       category := .structureTag
       element := some "h1"
       elementId := node.id
       recommendation := some "Keep H1 headings concise (under 70 characters)"
       priority := .important
       externalResourceLink := some "https://moz.com/learn/seo/on-page-factors"
       externalResourceTitle := some "Moz: On-Page Ranking Factors" }]
  else [])

/-- `checkHeadingStructure` of `StructureAnalyzer`. -/
def checkHeadingStructure (nodes : List FramerNode) : List SEOIssue :=
  let h1Nodes := nodes.filter isH1Node
  let h2Nodes := nodes.filter isH2Node
  (if h1Nodes.length = 0 then [noH1Issue]
   else if h1Nodes.length > 1 then
     [multipleH1Issue h1Nodes] ++
       (match findMainH1 h1Nodes with
        | some potentialMainH1 => [mainH1Suggestion potentialMainH1]
        | none => [])
   else []) ++
  (if h1Nodes.length = 0 && h2Nodes.length > 0 then
    [{ type := .warning
       message := "H2 headings found without an H1 heading"
       category := .structureTag
       recommendation := some "Add an H1 heading before using H2 headings - proper heading hierarchy is important for SEO"
       priority := .important
       externalResourceLink := some "https://www.w3.org/WAI/tutorials/page-structure/headings/"
       externalResourceTitle := some "W3C: Headings" }]
  else []) ++
  (h1Nodes.map headingLengthIssues).flatten ++
  (let h3Nodes := nodes.filter isH3Node
   if h2Nodes.length = 0 && h3Nodes.length > 0 then
    [{ type := .warning
       message := "H3 headings found without H2 headings"
       category := .structureTag
       recommendation := some "Don\x27t skip heading levels (use H2 before H3) for proper document structure"
       priority := .important
       externalResourceLink := some "https://www.w3.org/WAI/tutorials/page-structure/headings/"
       externalResourceTitle := some "W3C: Headings" }]
   else [])

/-- The fixed list of semantic HTML elements. -/
def semanticElements : List String :=
  ["header", "nav", "main", "article", "section", "aside", "footer"]

/-- `checkSemanticElements` of `StructureAnalyzer`. -/
def checkSemanticElements (nodes : List FramerNode) : List SEOIssue :=
  let foundSemanticElements := semanticElements.filter (fun element =>
    nodes.any (fun node =>
      node.name.jsLower == element || jsIncludes node.name.jsLower element))
  let missingSemanticElements := semanticElements.filter (fun element =>
    !foundSemanticElements.contains element)
  (if missingSemanticElements.length > 0 then
    [{ type := .warning
       message := "Missing semantic HTML elements: " ++
         String.intercalate ", " missingSemanticElements
       category := .structureTag
       recommendation := some "Use semantic HTML elements to improve accessibility and SEO"
       priority := .important
       externalResourceLink := some "https://web.dev/learn/html/semantic-html/"
       externalResourceTitle := some "Learn HTML: Semantic HTML" }]
  else []) ++
  (if foundSemanticElements.contains "article" && !foundSemanticElements.contains "main" then
    [{ type := .info
       message := "Article element used without a main element"
       category := .structureTag
       recommendation := some "Wrap article elements in a main element for better semantic structure"
       priority := .niceToHave
       externalResourceLink := some "https://web.dev/learn/html/semantic-html/"
       externalResourceTitle := some "Learn HTML: Semantic HTML" }]
  else [])

/-- `checkContentStructure` of `StructureAnalyzer`. -/
def checkContentStructure (nodes : List FramerNode) : List SEOIssue :=
  let textNodes := nodes.filter (fun node =>
    node.type == some "text" &&
      !jsIncludes node.name.jsLower "h1" &&
      !jsIncludes node.name.jsLower "h2" &&
      !jsIncludes node.name.jsLower "h3" &&
      !jsIncludes node.name.jsLower "heading")
  let headingNodes := nodes.filter (fun node =>
    jsIncludes node.name.jsLower "h1" ||
      jsIncludes node.name.jsLower "h2" ||
      jsIncludes node.name.jsLower "h3" ||
      jsIncludes node.name.jsLower "heading")
  (if textNodes.length > 10 && headingNodes.length < 3 then
    [{ type := .info
       message := "Long content with few headings"
       category := .structureTag
       recommendation := some "Break up long content with more headings to improve readability and SEO"
       priority := .important
       externalResourceLink := some "https://www.searchenginejournal.com/content-marketing/long-form-content/"
       externalResourceTitle := some "How to Create Long-Form Content That Ranks, Reads Well & Converts" }]
  else []) ++
  (let listNodes := nodes.filter (fun node =>
     jsIncludes node.name.jsLower "list" ||
       jsIncludes node.name.jsLower "ul" ||
       jsIncludes node.name.jsLower "ol")
   if listNodes.length = 0 then
    [{ type := .info
       message := "No list elements found"
       category := .structureTag
       recommendation := some "Consider using lists to structure content and improve readability"
       priority := .niceToHave
       externalResourceLink := some "https://www.semrush.com/blog/semantic-html5-guide/"
       externalResourceTitle := some "Semantic HTML5: A Guide for Better SEO and UX" }]
   else [])

/-- `StructureAnalyzer.analyze`. -/
def analyze (nodes : List FramerNode) : List SEOIssue :=
  checkHeadingStructure nodes ++ checkSemanticElements nodes ++
    checkContentStructure nodes

end StructureAnalyzer

/-- Counterexample to C8: with two H1-like nodes — first "banner" (H1-like via
its 32px font size) and then "my-h1" (whose name CONTAINS "h1") — the emitted
suggestion names "banner"'s text ("Welcome"), not "my-h1"'s: `findMainH1`
only prefers names containing "title"/"main" or exactly equal to "h1", so a
name merely containing "h1" is not preferred, contradicting the claimed
heuristic. -/
theorem c8_counterexample :
    (StructureAnalyzer.checkHeadingStructure
        [ { name := "banner", text := some "Welcome", styleFontSize := some 32 },
          { name := "my-h1", text := some "Real heading" } ]).any
      (fun i => i.message == "Consider keeping \"Welcome\" as your main H1") = true ∧
    (StructureAnalyzer.checkHeadingStructure
        [ { name := "banner", text := some "Welcome", styleFontSize := some 32 },
          { name := "my-h1", text := some "Real heading" } ]).all
      (fun i => !(i.message == "Consider keeping \"Real heading\" as your main H1")) = true := by
  decide

/-- Claim C8 (amended): zero H1-like nodes give the critical error; more than
one gives the critical error plus an informational suggestion naming the
"most likely main" H1, chosen by preferring a node whose name contains
"title" or "main" or IS EXACTLY "h1", and otherwise taking the first H1-like
node in input order. -/
theorem c8_heading_structure (nodes : List FramerNode) :
    ((nodes.filter StructureAnalyzer.isH1Node).length = 0 →
      StructureAnalyzer.noH1Issue ∈ StructureAnalyzer.checkHeadingStructure nodes) ∧
    ((nodes.filter StructureAnalyzer.isH1Node).length > 1 →
      StructureAnalyzer.multipleH1Issue (nodes.filter StructureAnalyzer.isH1Node) ∈
          StructureAnalyzer.checkHeadingStructure nodes ∧
      ∃ m, StructureAnalyzer.findMainH1 (nodes.filter StructureAnalyzer.isH1Node) = some m ∧
        StructureAnalyzer.mainH1Suggestion m ∈ StructureAnalyzer.checkHeadingStructure nodes ∧
        (∀ m', (nodes.filter StructureAnalyzer.isH1Node).find?
            StructureAnalyzer.isPreferredMainH1 = some m' → m = m') ∧
        ((nodes.filter StructureAnalyzer.isH1Node).find?
            StructureAnalyzer.isPreferredMainH1 = none →
          (nodes.filter StructureAnalyzer.isH1Node).head? = some m)) := by
  constructor
  · intro h0
    simp [StructureAnalyzer.checkHeadingStructure, h0]
  · intro hgt
    have hne : (nodes.filter StructureAnalyzer.isH1Node).length ≠ 0 := by omega
    have hmain : ∃ m, StructureAnalyzer.findMainH1 (nodes.filter StructureAnalyzer.isH1Node) = some m := by
      rw [StructureAnalyzer.findMainH1, if_neg hne]
      cases hfind : (nodes.filter StructureAnalyzer.isH1Node).find?
          StructureAnalyzer.isPreferredMainH1 with
      | some m => exact ⟨m, rfl⟩
      | none =>
        cases hl : (nodes.filter StructureAnalyzer.isH1Node) with
        | nil => simp [hl] at hne
        | cons a t => exact ⟨a, by simp⟩
    obtain ⟨m, hm⟩ := hmain
    have hmem : StructureAnalyzer.multipleH1Issue (nodes.filter StructureAnalyzer.isH1Node) ∈
        StructureAnalyzer.checkHeadingStructure nodes := by
      simp only [StructureAnalyzer.checkHeadingStructure]
      rw [if_neg hne, if_pos hgt, hm]
      simp
    refine ⟨hmem, m, hm, ?_, ?_, ?_⟩
    · simp only [StructureAnalyzer.checkHeadingStructure]
      rw [if_neg hne, if_pos hgt, hm]
      simp
    · intro m' hfind
      rw [StructureAnalyzer.findMainH1, if_neg hne, hfind] at hm
      exact (Option.some_inj.1 hm).symm
    · intro hfind
      rw [StructureAnalyzer.findMainH1, if_neg hne, hfind] at hm
      exact hm

/-- Witness for C8: the zero-H1 branch on the empty node list, and the
multiple-H1 branch on the two-node counterexample list. -/
theorem c8_heading_structure_witness :
    StructureAnalyzer.noH1Issue ∈ StructureAnalyzer.checkHeadingStructure [] ∧
    StructureAnalyzer.multipleH1Issue
        ([ { name := "banner", text := some "Welcome", styleFontSize := some 32 },
           { name := "my-h1", text := some "Real heading" } ].filter
          StructureAnalyzer.isH1Node) ∈
      StructureAnalyzer.checkHeadingStructure
        [ { name := "banner", text := some "Welcome", styleFontSize := some 32 },
          { name := "my-h1", text := some "Real heading" } ] :=
  ⟨(c8_heading_structure []).1 (by decide),
   ((c8_heading_structure
      [ { name := "banner", text := some "Welcome", styleFontSize := some 32 },
        { name := "my-h1", text := some "Real heading" } ]).2 (by decide)).1⟩

/-! ### Metadata analyzer (`MetadataAnalyzer`) -/

namespace MetadataAnalyzer

/-- The title-node finder (`name === "title" || name.includes("title-tag")`). -/
def findTitleNode (nodes : List FramerNode) : Option FramerNode :=
  nodes.find? (fun node =>
    node.name.jsLower == "title" || jsIncludes node.name.jsLower "title-tag")

/-- The keywords-meta-tag finder of `getKeywords`. -/
def findKeywordsNode (nodes : List FramerNode) : Option FramerNode :=
  nodes.find? (fun node =>
    node.metaName == some "keywords" ||
      (jsIncludes node.name.jsLower "meta" && jsIncludes node.name.jsLower "keywords"))

/-- The H1 finder of `getKeywords` (`name === "h1" || includes("heading1")`). -/
def findKeywordH1 (nodes : List FramerNode) : Option FramerNode :=
  nodes.find? (fun node =>
    node.name.jsLower == "h1" || jsIncludes node.name.jsLower "heading1")

/-- First three words longer than three characters, lower-cased
(`text.split(" ").filter(w => w.length > 3).map(toLowerCase).slice(0, 3)`). -/
def firstThreeLongWords (text : String) : List String :=
  (((jsSplitOnChar ' ' text).filter (fun word => word.length > 3)).map
    String.jsLower).take 3

/-- The heading/title fallback of `getKeywords`: first three long words of
the title text and of the H1 text, de-duplicated. -/
def getKeywordsFallback (nodes : List FramerNode) : List String :=
  let title := findTitleNode nodes
  let h1 := findKeywordH1 nodes
  let titleWords :=
    match title with
    | some t => (match t.text with
      | some tx => if !tx.jsIsEmpty then firstThreeLongWords tx else []
      | none => [])
    | none => []
  let h1Words :=
    match h1 with
    | some h => (match h.text with
      | some hx => if !hx.jsIsEmpty then firstThreeLongWords hx else []
      | none => [])
    | none => []
  jsSetDedup (titleWords ++ h1Words)

/-- `getKeywords` of `MetadataAnalyzer`: prefer the explicit keywords meta
tag (comma-split, trimmed, lower-cased) when it has truthy content, otherwise
fall back to title/H1 words. -/
def getKeywords (nodes : List FramerNode) : List String :=
  match findKeywordsNode nodes with
  | some keywordsNode =>
    match keywordsNode.metaContent with
    | some content =>
      if !content.jsIsEmpty then
        (jsSplitOnChar ',' content).map (fun k => k.jsTrim.jsLower)
      else getKeywordsFallback nodes
    | none => getKeywordsFallback nodes
  | none => getKeywordsFallback nodes

/-- `containsKeyword` of `MetadataAnalyzer`: vacuously true with no keywords,
otherwise a case-insensitive substring test against the lower-cased text. -/
def containsKeyword (text : String) (keywords : List String) : Bool :=
  if keywords.length = 0 then true
  else keywords.any (fun keyword => jsIncludes text.jsLower keyword)

/-- `checkTitleTag` of `MetadataAnalyzer`. -/
def checkTitleTag (nodes : List FramerNode) : List SEOIssue :=
  match findTitleNode nodes with
  | none =>
    [{ type := .error
       message := "Missing title tag"
       category := .metadata
       recommendation := some "Add a descriptive title tag that includes your main keyword"
       priority := .critical
       externalResourceLink := some "https://developers.google.com/search/docs/appearance/title-link"
       externalResourceTitle := some "Google: Control your title links in search results" }]
  | some titleNode =>
    let titleText := jsOrStr titleNode.text ""
    (if titleText.length < 30 then
      [{ type := .warning
         message := "Title tag is too short"
         category := .metadata
         recommendation := some "Make your title tag between 50-60 characters for optimal display in search results"
         priority := .important
         externalResourceLink := some "https://moz.com/learn/seo/title-tag"
         externalResourceTitle := some "Moz: Title Tag" }]
    else if titleText.length > 60 then
      [{ type := .warning
         message := "Title tag is too long"
         category := .metadata
         recommendation := some "Keep your title tag under 60 characters to prevent truncation in search results"
         priority := .important
         externalResourceLink := some "https://moz.com/learn/seo/title-tag"
         externalResourceTitle := some "Moz: Title Tag" }]
    else []) ++
    (if !containsKeyword titleText (getKeywords nodes) then
      [{ type := .warning
         message := "Title tag doesn\x27t contain primary keyword"
         category := .metadata
         recommendation := some "Include your primary keyword in the title tag for better SEO"
         priority := .important
         externalResourceLink := some "https://moz.com/learn/seo/title-tag"
         externalResourceTitle := some "Moz: Title Tag - SEO Best Practices" }]
    else [])

/-- `checkMetaDescription` of `MetadataAnalyzer`. -/
def checkMetaDescription (nodes : List FramerNode) : List SEOIssue :=
  let descriptionNode := nodes.find? (fun node =>
    node.metaName == some "description" ||
      (jsIncludes node.name.jsLower "meta" && jsIncludes node.name.jsLower "description"))
  match descriptionNode with
  | none =>
    [{ type := .error
       message := "Missing meta description"
       category := .metadata
       recommendation := some "Add a meta description that accurately summarizes the page content and includes your target keywords"
       priority := .critical
       externalResourceLink := some "https://developers.google.com/search/docs/appearance/snippet"
       externalResourceTitle := some "Google: Create good meta descriptions" }]
  | some descNode =>
    let descriptionText := jsOrStr descNode.text (jsOrStr descNode.metaContent "")
    (if descriptionText.length < 120 then
      [{ type := .warning
         message := "Meta description is too short"
         category := .metadata
         recommendation := some "Make your meta description between 120-158 characters for optimal display in search results"
         priority := .important
         externalResourceLink := some "https://moz.com/learn/seo/meta-description"
         externalResourceTitle := some "Moz: Meta Description" }]
    else if descriptionText.length > 158 then
      [{ type := .warning
         message := "Meta description is too long"
         category := .metadata
         recommendation := some "Keep your meta description under 158 characters to prevent truncation in search results"
         priority := .important
         externalResourceLink := some "https://moz.com/learn/seo/meta-description"
         externalResourceTitle := some "Moz: Meta Description" }]
    else []) ++
    (if !containsKeyword descriptionText (getKeywords nodes) then
      [{ type := .warning
         message := "Meta description doesn\x27t contain primary keyword"
         category := .metadata
         recommendation := some "Include your primary keyword in the meta description for better SEO"
         priority := .important
         externalResourceLink := some "https://ahrefs.com/blog/meta-description/"
         externalResourceTitle := some "How to Write the Perfect Meta Description" }]
    else [])

/-- `checkMetaViewport` of `MetadataAnalyzer`. -/
def checkMetaViewport (nodes : List FramerNode) : List SEOIssue :=
  let viewportNode := nodes.find? (fun node =>
    node.metaName == some "viewport" ||
      (jsIncludes node.name.jsLower "meta" && jsIncludes node.name.jsLower "viewport"))
  match viewportNode with
  | none =>
    [{ type := .error
       message := "Missing meta viewport tag"
       category := .metadata
       recommendation := some "Add a meta viewport tag for proper mobile rendering (e.g., <meta name=\x27viewport\x27 content=\x27width=device-width, initial-scale=1\x27>)"
       priority := .critical
       externalResourceLink := some "https://web.dev/viewport/"
       externalResourceTitle := some "Responsive Web Design Basics: Set the viewport" }]
  | some viewportNode =>
    let viewportContent := jsOrStr viewportNode.metaContent ""
    if !jsIncludes viewportContent "width=device-width" ||
       !jsIncludes viewportContent "initial-scale=1" then
      [{ type := .warning
         message := "Incomplete meta viewport tag"
         category := .metadata
         recommendation := some "Ensure your meta viewport tag includes \x27width=device-width, initial-scale=1\x27"
         priority := .important
         externalResourceLink := some "https://web.dev/viewport/"
         externalResourceTitle := some "Responsive Web Design Basics: Set the viewport" }]
    else []

/-- `checkCanonicalUrl` of `MetadataAnalyzer`. -/
def checkCanonicalUrl (nodes : List FramerNode) : List SEOIssue :=
  let canonicalNode := nodes.find? (fun node =>
    node.rel == some "canonical" ||
      (jsIncludes node.name.jsLower "link" && jsIncludes node.name.jsLower "canonical"))
  if canonicalNode.isNone then
    [{ type := .warning
       message := "Missing canonical URL"
       category := .metadata
       recommendation := some "Add a canonical URL to prevent duplicate content issues"
       priority := .important
       externalResourceLink := some "https://developers.google.com/search/docs/crawling-indexing/consolidate-duplicate-urls"
       externalResourceTitle := some "Google: Consolidate duplicate URLs" }]
  else []

/-- `checkLanguageAttribute` of `MetadataAnalyzer`. -/
def checkLanguageAttribute (nodes : List FramerNode) : List SEOIssue :=
  let htmlLangNode := nodes.find? (fun node =>
    jsIncludes node.name.jsLower "html-lang" ||
      (jsIncludes node.name.jsLower "html" && jsIncludes node.name.jsLower "lang"))
  if htmlLangNode.isNone then
    [{ type := .warning
       message := "Missing language attribute on HTML tag"
       category := .metadata
       recommendation := some "Add a lang attribute to the HTML tag (e.g., <html lang=\x27en\x27>)"
       priority := .important
       externalResourceLink := some "https://web.dev/learn/accessibility/aria-html/#language"
       externalResourceTitle := some "Web.dev: Use the lang attribute" }]
  else []

/-- `checkMetaRobots` of `MetadataAnalyzer`. -/
def checkMetaRobots (nodes : List FramerNode) : List SEOIssue :=
  let robotsNode := nodes.find? (fun node =>
    node.metaName == some "robots" ||
      (jsIncludes node.name.jsLower "meta" && jsIncludes node.name.jsLower "robots"))
  match robotsNode with
  | none =>
    [{ type := .info
       message := "No meta robots tag found"
       category := .metadata
       recommendation := some "Consider adding a meta robots tag to control search engine crawling and indexing"
       priority := .niceToHave
       externalResourceLink := some "https://developers.google.com/search/docs/crawling-indexing/robots-meta-tag"
       externalResourceTitle := some "Google: Robots meta tag and X-Robots-Tag HTTP header specifications" }]
  | some robotsNode =>
    let robotsContent := jsOrStr robotsNode.metaContent ""
    if jsIncludes robotsContent "noindex" || jsIncludes robotsContent "nofollow" then
      [{ type := .warning
         message := "Meta robots tag contains " ++
           (if jsIncludes robotsContent "noindex" then "noindex" else "nofollow")
         category := .metadata
         recommendation := some "Ensure you want to prevent search engines from indexing or following links on this page"
         priority := .critical
         externalResourceLink := some "https://developers.google.com/search/docs/crawling-indexing/robots-meta-tag"
         externalResourceTitle := some "Google: Robots meta tag and X-Robots-Tag HTTP header specifications" }]
    else []

/-- `checkFavicon` of `MetadataAnalyzer`. -/
def checkFavicon (nodes : List FramerNode) : List SEOIssue :=
  let faviconNode := nodes.find? (fun node =>
    node.rel == some "icon" || node.rel == some "shortcut icon" ||
      jsIncludes node.name.jsLower "favicon" ||
      (jsIncludes node.name.jsLower "link" && jsIncludes node.name.jsLower "icon"))
  if faviconNode.isNone then
    [{ type := .info
       message := "Missing favicon"
       category := .metadata
       recommendation := some "Add a favicon to improve brand recognition and user experience"
       priority := .niceToHave
       externalResourceLink := some "https://web.dev/learn/html/document-structure/#favicons"
       externalResourceTitle := some "Web.dev: Favicons" }]
  else []

/-- `MetadataAnalyzer.analyze`. -/
def analyze (nodes : List FramerNode) : List SEOIssue :=
  checkTitleTag nodes ++ checkMetaDescription nodes ++ checkMetaViewport nodes ++
    checkCanonicalUrl nodes ++ checkLanguageAttribute nodes ++
    checkMetaRobots nodes ++ checkFavicon nodes

end MetadataAnalyzer

/-! ### International analyzer (`InternationalAnalyzer`; reports under the
metadata category and is composed into the metadata slot by the service). -/

namespace InternationalAnalyzer

/-- Regex `/[A-Z]{2}\s+\d{5}/` (US zip code heuristic). -/
def zipRE : RE :=
  reSeqs [.cls Char.isUpper, .cls Char.isUpper, .plusCls jsIsSpace,
    .cls Char.isDigit, .cls Char.isDigit, .cls Char.isDigit, .cls Char.isDigit,
    .cls Char.isDigit]

/-- Regex `/[A-Z]{2}\s+[A-Z0-9]{3}/` (UK postal code heuristic). -/
def ukPostRE : RE :=
  reSeqs [.cls Char.isUpper, .cls Char.isUpper, .plusCls jsIsSpace,
    .cls (fun c => c.isUpper || c.isDigit),
    .cls (fun c => c.isUpper || c.isDigit),
    .cls (fun c => c.isUpper || c.isDigit)]

/-- Does the node's text look regional (`/[A-Z]{2}\s+\d{5}/`,
`/[A-Z]{2}\s+[A-Z0-9]{3}/`, or a currency symbol `€|£|¥|₹|₽`)? -/
def textLooksRegional (text : Option String) : Bool :=
  match text with
  | some t =>
    reSearch zipRE t || reSearch ukPostRE t ||
      t.data.any (fun c => c = '€' || c = '£' || c = '¥' || c = '₹' || c = '₽')
  | none => false

/-- `checkHreflangTags` of `InternationalAnalyzer`. -/
def checkHreflangTags (nodes : List FramerNode) : List SEOIssue :=
  let hreflangNodes := nodes.filter (fun node =>
    jsIncludes node.name.jsLower "hreflang" ||
      (node.rel == some "alternate" && jsIncludes node.name.jsLower "hreflang"))
  let hasMultilingualIndicators := nodes.any (fun node =>
    jsIncludes node.name.jsLower "language switcher" ||
      jsIncludes node.name.jsLower "language selector" ||
      jsIncludes node.name.jsLower "multilingual" ||
      jsIncludes node.name.jsLower "translate")
  (if hasMultilingualIndicators && hreflangNodes.length = 0 then
    [{ type := .error
       message := "Multilingual site without hreflang tags"
       category := .metadata
       recommendation := some "Add hreflang tags to help search engines understand the language and regional targeting of your pages"
       priority := .critical
       externalResourceLink := some "https://developers.google.com/search/docs/advanced/crawling/localized-versions"
       externalResourceTitle := some "Google: Tell Google about localized versions of your page" }]
  else []) ++
  (if hreflangNodes.length > 0 then
    (let hasSelfReference := hreflangNodes.any (fun node =>
       jsIncludes node.name.jsLower "self" || jsIncludes node.name.jsLower "current")
     if !hasSelfReference then
      [{ type := .warning
         message := "Missing self-referencing hreflang tag"
         category := .metadata
         recommendation := some "Include a self-referencing hreflang tag for each language version of a page"
         priority := .important
         externalResourceLink := some "https://developers.google.com/search/docs/advanced/crawling/localized-versions#html"
         externalResourceTitle := some "Google: Specify the language and region for a page" }]
     else []) ++
    [{ type := .info
       message := "Verify reciprocal hreflang tags across all language versions"
       category := .metadata
       recommendation := some "Ensure all language versions of a page reference each other with hreflang tags"
       priority := .niceToHave
       externalResourceLink := some "https://ahrefs.com/blog/hreflang-tags/"
       externalResourceTitle := some "Ahrefs: Hreflang Tags: The Ultimate Guide" }]
  else [])

/-- `checkLanguageDeclaration` of `InternationalAnalyzer`. -/
def checkLanguageDeclaration (nodes : List FramerNode) : List SEOIssue :=
  let htmlWithLang := nodes.any (fun node =>
    (jsIncludes node.name.jsLower "html" && jsIncludes node.name.jsLower "lang=") ||
      jsIncludes node.name.jsLower "html-lang")
  (if !htmlWithLang then
    [{ type := .warning
       message := "Missing language declaration (html lang attribute)"
       category := .metadata
       recommendation := some "Add the lang attribute to your HTML tag to declare the language of your page"
       priority := .important
       externalResourceLink := some "https://web.dev/learn/html/document-structure/#lang"
       externalResourceTitle := some "Web.dev: The lang attribute" }]
  else []) ++
  (let contentLanguageNode := nodes.find? (fun node =>
     node.metaName == some "content-language" ||
       (jsIncludes node.name.jsLower "meta" && jsIncludes node.name.jsLower "content-language"))
   if contentLanguageNode.isNone && !htmlWithLang then
    [{ type := .warning
       message := "No language metadata found"
       category := .metadata
       recommendation := some "Specify the language of your page using the html lang attribute or content-language meta tag"
       priority := .important
       externalResourceLink := some "https://developers.google.com/search/docs/advanced/crawling/localized-versions#language-html"
       externalResourceTitle := some "Google: Tell Google the language of a page" }]
   else [])

/-- `checkGeoTargeting` of `InternationalAnalyzer`. -/
def checkGeoTargeting (nodes : List FramerNode) : List SEOIssue :=
  let geoMetaNode := nodes.find? (fun node =>
    node.metaName == some "geo.region" ||
      node.metaName == some "geo.placename" ||
      node.metaName == some "geo.position" ||
      (jsIncludes node.name.jsLower "meta" &&
        (jsIncludes node.name.jsLower "geo.region" ||
          jsIncludes node.name.jsLower "geo.placename" ||
          jsIncludes node.name.jsLower "geo.position")))
  let hasRegionalContent := nodes.any (fun node =>
    textLooksRegional node.text ||
      jsIncludes node.name.jsLower "region" ||
      jsIncludes node.name.jsLower "country")
  if hasRegionalContent && geoMetaNode.isNone then
    [{ type := .info
       message := "Regional content without geo-targeting metadata"
       category := .metadata
       recommendation := some "Consider adding geo-targeting meta tags for content specific to geographic regions"
       priority := .niceToHave
       externalResourceLink := some "https://developers.google.com/search/docs/specialty/international/managing-multi-regional-sites"
       externalResourceTitle := some "Google: Managing Multi-Regional and Multilingual Sites" }]
  else []

/-- The common-word indicator lists for the four probed languages. -/
def languageIndicators : List (List String) :=
  [ ["the", "and", "of", "to", "in", "is", "you", "that", "it", "for"]
  , ["el", "la", "los", "las", "y", "que", "en", "de", "es", "para"]
  , ["le", "la", "les", "et", "que", "en", "dans", "est", "pour", "avec"]
  , ["der", "die", "das", "und", "zu", "in", "ist", "für", "mit", "auf"] ]

/-- The text-node filter of `checkMultilingualContent`. -/
def isMultilingualTextNode (n : FramerNode) : Bool :=
  n.type == some "text" ||
    jsIncludes n.name.jsLower "text" ||
    jsIncludes n.name.jsLower "paragraph" ||
    jsIncludes n.name.jsLower "heading"

/-- `checkMultilingualContent` of `InternationalAnalyzer`: each language is
"detected" if some text node word-boundary-matches one of its indicator
words; more than one detected language yields the warning. -/
def checkMultilingualContent (nodes : List FramerNode) : List SEOIssue :=
  let textNodes := nodes.filter isMultilingualTextNode
  let detectedCount := (languageIndicators.filter (fun words =>
    textNodes.any (fun node =>
      let text := jsOrStr (node.text.map String.jsLower) ""
      !text.jsIsEmpty && words.any (fun word => wordBoundaryTest word text)))).length
  if detectedCount > 1 then
    [{ type := .warning
       message := "Mixed languages detected on the same page"
       category := .metadata
       recommendation := some "Avoid mixing multiple languages on the same page. Create separate pages for each language instead."
       priority := .important
       externalResourceLink := some "https://developers.google.com/search/docs/advanced/crawling/managing-multi-regional-sites"
       externalResourceTitle := some "Google: Managing multi-regional and multilingual sites" }]
  else []

/-- The international-URL-pattern test of `checkInternationalURLs`. -/
def hasInternationalPattern (href : String) : Bool :=
  jsIncludes href "/en/" || jsIncludes href "/fr/" ||
    jsIncludes href "/es/" || jsIncludes href "/de/" ||
    jsIncludes href "/it/" || jsIncludes href "/ru/" ||
    jsIncludes href ".com/en" || jsIncludes href ".com/fr" ||
    jsIncludes href ".fr/" || jsIncludes href ".es/" ||
    jsIncludes href ".de/" || jsIncludes href ".it/" ||
    jsIncludes href ".co.uk/" || jsIncludes href ".com.au/"

/-- `checkInternationalURLs` of `InternationalAnalyzer`. -/
def checkInternationalURLs (nodes : List FramerNode) : List SEOIssue :=
  let internationalLinks := nodes.filter (fun node =>
    hasInternationalPattern (jsOrStr node.href ""))
  if internationalLinks.length > 0 then
    let countryCodePattern := internationalLinks.filter (fun node =>
      match node.href with
      | some h => jsIncludes h "/en/" || jsIncludes h "/fr/" ||
          jsIncludes h "/es/" || jsIncludes h "/de/"
      | none => false)
    let ccTLDPattern := internationalLinks.filter (fun node =>
      match node.href with
      | some h => jsIncludes h ".fr" || jsIncludes h ".es" ||
          jsIncludes h ".de" || jsIncludes h ".co.uk"
      | none => false)
    if countryCodePattern.length > 0 && ccTLDPattern.length > 0 then
      [{ type := .warning
         message := "Inconsistent international URL structure"
         category := .metadata
         recommendation := some "Use a consistent URL structure for international versions (either subdirectories, subdomains, or ccTLDs)"
         priority := .important
         externalResourceLink := some "https://ahrefs.com/blog/international-seo/"
         externalResourceTitle := some "Ahrefs: International SEO - A Complete Guide" }]
    else []
  else []

/-- `InternationalAnalyzer.analyze`. -/
def analyze (nodes : List FramerNode) : List SEOIssue :=
  checkHreflangTags nodes ++ checkLanguageDeclaration nodes ++
    checkGeoTargeting nodes ++ checkMultilingualContent nodes ++
    checkInternationalURLs nodes

end InternationalAnalyzer

/-- Stated from claim C9's words: the fallback keyword set is the
de-duplicated union of the first three words longer than three characters
from the title text and from the H1 text, lower-cased. -/
def keywordFallbackSpec (nodes : List FramerNode) : List String :=
  jsSetDedup (
    (match MetadataAnalyzer.findTitleNode nodes with
     | some t => (match t.text with
       | some tx => if !tx.jsIsEmpty then
           (((jsSplitOnChar ' ' tx).filter (fun w => w.length > 3)).map
             String.jsLower).take 3
         else []
       | none => [])
     | none => []) ++
    (match MetadataAnalyzer.findKeywordH1 nodes with
     | some h => (match h.text with
       | some hx => if !hx.jsIsEmpty then
           (((jsSplitOnChar ' ' hx).filter (fun w => w.length > 3)).map
             String.jsLower).take 3
         else []
       | none => [])
     | none => []))

/-- Claim C9: keyword derivation prefers an explicit keywords meta tag
(comma-split, trimmed, lower-cased); otherwise it is the de-duplicated union
of the first 3 words longer than 3 characters from the title text and from
the H1 text, lower-cased; a text "contains" a keyword iff some derived
keyword is a substring of the lower-cased text; and with zero derived
keywords the title and description keyword checks are vacuously satisfied
(no keyword-missing warning is emitted). -/
theorem c9_keyword_derivation :
    (∀ (nodes : List FramerNode) (kn : FramerNode) (content : String),
        MetadataAnalyzer.findKeywordsNode nodes = some kn →
        kn.metaContent = some content → content.jsIsEmpty = false →
        MetadataAnalyzer.getKeywords nodes =
          (jsSplitOnChar ',' content).map (fun k => k.jsTrim.jsLower)) ∧
    (∀ nodes : List FramerNode,
        (∀ kn, MetadataAnalyzer.findKeywordsNode nodes = some kn →
          jsFalsyStr kn.metaContent = true) →
        MetadataAnalyzer.getKeywords nodes = keywordFallbackSpec nodes) ∧
    (∀ (text : String) (keywords : List String),
        MetadataAnalyzer.containsKeyword text keywords = true ↔
          (keywords = [] ∨ ∃ k ∈ keywords, jsIncludes text.jsLower k = true)) ∧
    (∀ nodes : List FramerNode, MetadataAnalyzer.getKeywords nodes = [] →
        (∀ i ∈ MetadataAnalyzer.checkTitleTag nodes,
          i.message ≠ "Title tag doesn\x27t contain primary keyword") ∧
        (∀ i ∈ MetadataAnalyzer.checkMetaDescription nodes,
          i.message ≠ "Meta description doesn\x27t contain primary keyword")) := by
  have hfallback : ∀ nodes, MetadataAnalyzer.getKeywordsFallback nodes = keywordFallbackSpec nodes := by
    intro nodes
    simp only [MetadataAnalyzer.getKeywordsFallback, keywordFallbackSpec,
      MetadataAnalyzer.firstThreeLongWords]
  refine ⟨?_, ?_, ?_, ?_⟩
  · intro nodes kn content hfind hcontent hne
    simp only [MetadataAnalyzer.getKeywords, hfind, hcontent, hne]
    simp
  · intro nodes h
    rcases hfind : MetadataAnalyzer.findKeywordsNode nodes with _ | kn
    · simp only [MetadataAnalyzer.getKeywords, hfind, hfallback]
    · have hk := h kn hfind
      rcases hmc : kn.metaContent with _ | c
      · simp only [MetadataAnalyzer.getKeywords, hfind, hmc, hfallback]
      · rw [hmc] at hk
        simp only [jsFalsyStr] at hk
        simp only [MetadataAnalyzer.getKeywords, hfind, hmc, hk, hfallback]
        simp
  · intro text keywords
    rcases keywords with _ | ⟨k, ks⟩ <;>
      simp [MetadataAnalyzer.containsKeyword, List.any_eq_true]
  · intro nodes hkw
    have hck : ∀ t, MetadataAnalyzer.containsKeyword t (MetadataAnalyzer.getKeywords nodes) = true := by
      intro t
      rw [hkw]
      rfl
    constructor
    · intro i hi
      rcases hfindT : MetadataAnalyzer.findTitleNode nodes with _ | t
      · simp only [MetadataAnalyzer.checkTitleTag, hfindT] at hi
        simp at hi
        subst hi
        decide
      · simp only [MetadataAnalyzer.checkTitleTag, hfindT, hck] at hi
        simp at hi
        split at hi <;> simp_all
    · intro i hi
      rcases hfindD : nodes.find? (fun node =>
          node.metaName == some "description" ||
            (jsIncludes node.name.jsLower "meta" &&
              jsIncludes node.name.jsLower "description")) with _ | d
      · simp only [MetadataAnalyzer.checkMetaDescription, hfindD] at hi
        simp at hi
        subst hi
        decide
      · simp only [MetadataAnalyzer.checkMetaDescription, hfindD, hck] at hi
        simp at hi
        split at hi <;> simp_all

/-- Witness for C9: the explicit-keywords branch on a concrete keywords meta
tag, the fallback branch on the empty node list, and the substring test on a
concrete text/keyword pair. -/
theorem c9_keyword_derivation_witness :
    MetadataAnalyzer.getKeywords
        [{ name := "meta-keywords", metaName := some "keywords",
           metaContent := some "SEO, Tools" }] =
      (jsSplitOnChar ',' "SEO, Tools").map (fun k => k.jsTrim.jsLower) ∧
    MetadataAnalyzer.getKeywords [] = keywordFallbackSpec [] ∧
    MetadataAnalyzer.containsKeyword "Hello" ["ell"] = true :=
  ⟨c9_keyword_derivation.1
      [{ name := "meta-keywords", metaName := some "keywords",
         metaContent := some "SEO, Tools" }]
      { name := "meta-keywords", metaName := some "keywords",
        metaContent := some "SEO, Tools" }
      "SEO, Tools" (by decide) rfl (by decide),
   c9_keyword_derivation.2.1 []
      (fun kn h => by simp [MetadataAnalyzer.findKeywordsNode] at h),
   (c9_keyword_derivation.2.2.1 "Hello" ["ell"]).mpr
      (Or.inr ⟨"ell", by decide, by decide⟩)⟩

/-- JavaScript `s.slice(n)` / dropping a fixed number of leading characters,
implemented structurally. -/
def jsDrop (s : String) (n : Nat) : String :=
  ⟨s.data.drop n⟩

/-! ### Content analyzer (`ContentAnalyzer`) -/

namespace ContentAnalyzer

/-- The text-node filter of `checkContentLength`. -/
def isLengthTextNode (n : FramerNode) : Bool :=
  n.type == some "text" ||
    !jsFalsyStr n.text ||
    jsIncludes n.name.jsLower "text" ||
    jsIncludes n.name.jsLower "paragraph"

/-- `checkContentLength` of `ContentAnalyzer`. -/
def checkContentLength (nodes : List FramerNode) : List SEOIssue :=
  let textNodes := nodes.filter isLengthTextNode
  let totalTextContent := textNodes.foldl (fun acc node =>
    acc + (jsOrStr node.text "").length) 0
  if totalTextContent < 300 then
    [{ type := .warning
       message := "Content length is too short"
       category := .content
       recommendation := some "Add more content to your page. Aim for at least 300 words for better SEO performance"
       priority := .important
       externalResourceLink := some "https://moz.com/learn/seo/on-page-factors"
       externalResourceTitle := some "Moz: On-Page Ranking Factors" }]
  else if totalTextContent > 10000 then
    [{ type := .info
       message := "Content is very long"
       category := .content
       recommendation := some "Consider breaking very long content into multiple pages or adding table of contents for better user experience"
       priority := .niceToHave
       externalResourceLink := some "https://www.searchenginejournal.com/content-marketing/long-form-content/"
       externalResourceTitle := some "How to Create Long-Form Content That Ranks, Reads Well & Converts" }]
  else []

/-- `checkKeywordDensity` of `ContentAnalyzer`.  Word counting uses the
JavaScript record semantics (`jsRecordBump`/`jsRecordEntries`) and the stable
descending sort of `Array.prototype.sort((a, b) => b[1] - a[1])`; the density
is an exact rational. -/
def checkKeywordDensity (nodes : List FramerNode) : List SEOIssue :=
  let textContent := String.intercalate " "
    ((nodes.filter (fun node => !jsFalsyStr node.text)).map (fun node => jsOrStr node.text ""))
  if textContent.length = 0 then []
  else
    let words := jsSplitWhitespace textContent.jsLower
    let wordCounts := words.foldl (fun m word =>
      if word.length ≥ 4 then jsRecordBump m word else m) []
    let sortedWords := (stableSortBy (fun a b => a.2 ≥ b.2) (jsRecordEntries wordCounts)).take 5
    match sortedWords with
    | [] => []
    | (topKeyword, count) :: _ =>
      let density : Rat := (count : Rat) / (words.length : Rat) * 100
      (if density > 5 then
        [{ type := .warning
           message := "Keyword \"" ++ topKeyword ++ "\" appears too frequently (" ++
             jsToFixed1 density ++ "%)"
           category := .content
           recommendation := some "Avoid keyword stuffing. Keep keyword density below 3-5% for natural content"
           priority := .important
           externalResourceLink := some "https://moz.com/learn/seo/on-page-factors"
           externalResourceTitle := some "Moz: On-Page Ranking Factors" }]
      else []) ++
      (let headingNodes := nodes.filter (fun node =>
         jsIncludes node.name.jsLower "h1" ||
           jsIncludes node.name.jsLower "h2" ||
           jsIncludes node.name.jsLower "heading")
       let headingTexts := headingNodes.map (fun node => (jsOrStr node.text "").jsLower)
       match (sortedWords.take 3).find? (fun e =>
         !(headingTexts.any (fun text => jsIncludes text e.1))) with
       | some e =>
         [{ type := .info
            message := "Keyword \"" ++ e.1 ++ "\" doesn\x27t appear in any headings"
            category := .content
            recommendation := some "Include important keywords in your headings for better SEO"
            priority := .niceToHave
            externalResourceLink := some "https://moz.com/learn/seo/on-page-factors"
            externalResourceTitle := some "Moz: On-Page Ranking Factors" }]
       | none => [])

/-- Punctuation class of the sentence split `/[.!?]+/`. -/
def isSentencePunct (c : Char) : Bool :=
  c = '.' || c = '!' || c = '?'

/-- `checkReadability` of `ContentAnalyzer`. -/
def checkReadability (nodes : List FramerNode) : List SEOIssue :=
  let paragraphNodes := nodes.filter (fun node =>
    jsIncludes node.name.jsLower "paragraph" ||
      jsIncludes node.name.jsLower "text" ||
      (match node.text with
       | some t => !t.jsIsEmpty && t.length > 100
       | none => false))
  if paragraphNodes.length = 0 then []
  else
    (let longParagraphs := paragraphNodes.filter (fun node =>
       (match node.text with
        | some t => t.length
        | none => 0) > 300)
     if longParagraphs.length > 0 then
      [{ type := .info
         message := "Some paragraphs are very long"
         category := .content
         recommendation := some "Break long paragraphs into smaller chunks of 3-4 sentences for better readability"
         priority := .niceToHave
         externalResourceLink := some "https://web.dev/learn/accessibility/typography/#content-structure"
         externalResourceTitle := some "Web.dev: Content structure" }]
     else []) ++
    (let complexSentences := paragraphNodes.filter (fun node =>
       (jsSplitRuns isSentencePunct (jsOrStr node.text "")).any (fun sentence =>
         (jsSplitWhitespace sentence.jsTrim).length > 25))
     if complexSentences.length > 0 then
      [{ type := .info
         message := "Some sentences may be too complex"
         category := .content
         recommendation := some "Simplify complex sentences for better readability. Aim for an average sentence length of 15-20 words"
         priority := .niceToHave
         externalResourceLink := some "https://yoast.com/readability-checks-in-yoast-seo/"
         externalResourceTitle := some "Yoast: Readability checks" }]
     else [])

/-- `checkThinContent` of `ContentAnalyzer`. -/
def checkThinContent (nodes : List FramerNode) : List SEOIssue :=
  let textNodes := nodes.filter (fun node => !jsFalsyStr node.text)
  if textNodes.length = 0 then
    [{ type := .error
       message := "No text content found on the page"
       category := .content
       recommendation := some "Add meaningful text content to your page for SEO and user experience"
       priority := .critical
       externalResourceLink := some "https://developers.google.com/search/docs/essentials/content-quality-guidelines"
       externalResourceTitle := some "Google: Content quality guidelines" }]
  else
    let allText := String.intercalate " " (textNodes.map (fun node => jsOrStr node.text ""))
    let words := (jsSplitWhitespace allText).filter (fun word => word.length > 0)
    let uniqueWords := jsSetDedup (words.map String.jsLower)
    (if (uniqueWords.length : Rat) < (words.length : Rat) * (1 / 2) then
      [{ type := .warning
         message := "Content has a high level of repetition"
         category := .content
         recommendation := some "Reduce repetitive content and add more unique content to avoid thin content issues"
         priority := .important
         externalResourceLink := some "https://developers.google.com/search/docs/essentials/content-quality-guidelines"
         externalResourceTitle := some "Google: Content quality guidelines" }]
    else []) ++
    (if words.length < 100 && nodes.length > 50 then
      [{ type := .warning
         message := "Low content-to-code ratio detected"
         category := .content
         recommendation := some "Add more meaningful content relative to the page structure to improve SEO"
         priority := .important
         externalResourceLink := some "https://developers.google.com/search/docs/essentials/content-quality-guidelines"
         externalResourceTitle := some "Google: Content quality guidelines" }]
    else [])

/-- `ContentAnalyzer.analyze`. -/
def analyze (nodes : List FramerNode) : List SEOIssue :=
  checkContentLength nodes ++ checkKeywordDensity nodes ++
    checkReadability nodes ++ checkThinContent nodes

end ContentAnalyzer

/-! ### Social analyzer (`SocialAnalyzer`) -/

namespace SocialAnalyzer

/-- The required Open Graph tag suffixes. -/
def requiredOgTags : List String :=
  ["title", "type", "image", "url"]

/-- The `og:` suffixes collected from `metadata.property` values
(`property.replace("og:", "")` on a `property` starting with `og:` drops the
first three characters). -/
def foundOgTags (nodes : List FramerNode) : List String :=
  nodes.filterMap (fun node =>
    match node.metaProperty with
    | some p => if !p.jsIsEmpty && p.jsStartsWith "og:" then some (jsDrop p 3) else none
    | none => none)

/-- `checkOpenGraphTags` of `SocialAnalyzer`. -/
def checkOpenGraphTags (nodes : List FramerNode) : List SEOIssue :=
  let found := foundOgTags nodes
  let missingOgTags := requiredOgTags.filter (fun tag => !found.contains tag)
  (if missingOgTags.length = requiredOgTags.length then
    [{ type := .error
       message := "No Open Graph tags found"
       category := .social
       recommendation := some "Add Open Graph tags for better social media sharing"
       priority := .critical
       externalResourceLink := some "https://ogp.me/"
       externalResourceTitle := some "Open Graph Protocol" }]
  else if missingOgTags.length > 0 then
    [{ type := .warning
       message := "Missing required Open Graph tags: " ++
         String.intercalate ", " (missingOgTags.map (fun tag => "og:" ++ tag))
       category := .social
       recommendation := some "Add all required Open Graph tags for optimal social sharing"
       priority := .important
       externalResourceLink := some "https://ogp.me/"
       externalResourceTitle := some "Open Graph Protocol" }]
  else []) ++
  (if !found.contains "description" then
    [{ type := .warning
       message := "Missing og:description tag"
       category := .social
       recommendation := some "Add og:description for better social media previews"
       priority := .important
       externalResourceLink := some "https://ogp.me/"
       externalResourceTitle := some "Open Graph Protocol" }]
  else []) ++
  (if found.contains "image" && !found.contains "image:alt" then
    [{ type := .warning
       message := "Missing og:image:alt tag"
       category := .social
       recommendation := some "Add alt text for your Open Graph image"
       priority := .important
       externalResourceLink := some "https://ogp.me/"
       externalResourceTitle := some "Open Graph Protocol" }]
  else [])

/-- `checkTwitterCards` of `SocialAnalyzer`. -/
def checkTwitterCards (nodes : List FramerNode) : List SEOIssue :=
  let twitterCardNode := nodes.find? (fun node => node.metaName == some "twitter:card")
  match twitterCardNode with
  | none =>
    [{ type := .warning
       message := "No Twitter card meta tag found"
       category := .social
       recommendation := some "Add twitter:card meta tag for Twitter sharing"
       priority := .important
       externalResourceLink := some "https://developer.twitter.com/en/docs/twitter-for-websites/cards/guides/getting-started"
       externalResourceTitle := some "Twitter Cards: Getting Started" }]
  | some _ =>
    let missingTwitterTags :=
      ["twitter:title", "twitter:description", "twitter:image"].filter (fun tag =>
        !(nodes.any (fun node => node.metaName == some tag)))
    if missingTwitterTags.length > 0 then
      [{ type := .warning
         message := "Missing Twitter card tags: " ++ String.intercalate ", " missingTwitterTags
         category := .social
         recommendation := some "Add all essential Twitter card tags for optimal Twitter sharing"
         priority := .important
         externalResourceLink := some "https://developer.twitter.com/en/docs/twitter-for-websites/cards/guides/getting-started"
         externalResourceTitle := some "Twitter Cards: Getting Started" }]
    else []

/-- `checkSocialPreviewImages` of `SocialAnalyzer`. -/
def checkSocialPreviewImages (nodes : List FramerNode) : List SEOIssue :=
  let ogImageNode := nodes.find? (fun node =>
    node.metaProperty == some "og:image" ||
      jsIncludes node.name.jsLower "og:image" ||
      jsIncludes node.name.jsLower "og-image" ||
      jsIncludes node.name.jsLower "opengraph-image")
  let twitterImageNode := nodes.find? (fun node =>
    node.metaName == some "twitter:image" ||
      jsIncludes node.name.jsLower "twitter:image" ||
      jsIncludes node.name.jsLower "twitter-image")
  (if ogImageNode.isNone && twitterImageNode.isNone then
    [{ type := .error
       message := "No social preview images found"
       category := .social
       recommendation := some "Add social preview images (og:image and twitter:image) to make your content stand out when shared on social media"
       priority := .critical
       externalResourceLink := some "https://blog.hubspot.com/marketing/open-graph-tags-facebook-twitter-linkedin"
       externalResourceTitle := some "How to Use Open Graph Tags for Better Social Sharing" }]
  else if ogImageNode.isNone then
    [{ type := .warning
       message := "Missing Open Graph image (og:image)"
       category := .social
       recommendation := some "Add an og:image tag for better previews on Facebook, LinkedIn, and other platforms"
       priority := .important
       externalResourceLink := some "https://ogp.me/"
       externalResourceTitle := some "Open Graph Protocol" }]
  else if twitterImageNode.isNone then
    [{ type := .warning
       message := "Missing Twitter image (twitter:image)"
       category := .social
       recommendation := some "Add a twitter:image tag for better previews on Twitter"
       priority := .important
       externalResourceLink := some "https://developer.twitter.com/en/docs/twitter-for-websites/cards/overview/summary-card-with-large-image"
       externalResourceTitle := some "Twitter Summary Card with Large Image" }]
  else []) ++
  (if ogImageNode.isSome then
    [{ type := .info
       message := "Consider optimizing Open Graph image dimensions"
       category := .social
       recommendation := some "Ideal size for Open Graph images is 1200x630 pixels"
       priority := .niceToHave
       externalResourceLink := some "https://developers.facebook.com/docs/sharing/webmasters/images/"
       externalResourceTitle := some "Facebook Sharing: Images" }]
  else [])

/-- `checkSocialSharingOptions` of `SocialAnalyzer`. -/
def checkSocialSharingOptions (nodes : List FramerNode) : List SEOIssue :=
  let socialSharingNodes := nodes.filter (fun node =>
    jsIncludes node.name.jsLower "social" ||
      jsIncludes node.name.jsLower "share" ||
      jsIncludes node.name.jsLower "facebook" ||
      jsIncludes node.name.jsLower "twitter" ||
      jsIncludes node.name.jsLower "linkedin" ||
      jsIncludes node.name.jsLower "pinterest")
  if socialSharingNodes.length = 0 then
    [{ type := .info
       message := "No social sharing options detected"
       category := .social
       recommendation := some "Consider adding social sharing buttons to increase content distribution"
       priority := .niceToHave
       externalResourceLink := some "https://developers.facebook.com/docs/plugins/share-button"
       externalResourceTitle := some "Facebook: Share Button Plugin" }]
  else []

/-- `SocialAnalyzer.analyze`. -/
def analyze (nodes : List FramerNode) : List SEOIssue :=
  checkOpenGraphTags nodes ++ checkTwitterCards nodes ++
    checkSocialPreviewImages nodes ++ checkSocialSharingOptions nodes

end SocialAnalyzer

/-! ### Performance analyzer (`src/analyzers/performance-analyzer.ts`) -/

namespace PerformanceAnalyzer

/-- `checkJavaScriptUsage` of `PerformanceAnalyzer`. -/
def checkJavaScriptUsage (nodes : List FramerNode) : List SEOIssue :=
  let scriptNodes := nodes.filter (fun node =>
    node.type == some "script" || jsIncludes node.name.jsLower "script")
  (if scriptNodes.length > 15 then
    [{ type := .warning
       message := "High number of JavaScript resources (" ++ toString scriptNodes.length ++ ")"
       category := .performance
       recommendation := some "Reduce the number of JavaScript files by bundling them together or removing unnecessary scripts"
       priority := .important
       externalResourceLink := some "https://web.dev/optimize-javascript-execution/"
       externalResourceTitle := some "Web.dev: Optimize JavaScript execution" }]
  else []) ++
  (let syncScriptNodes := scriptNodes.filter (fun node =>
     !jsIncludes node.name.jsLower "defer" && !jsIncludes node.name.jsLower "async")
   if syncScriptNodes.length > 5 then
    [{ type := .warning
       message := "Multiple synchronous JavaScript resources"
       category := .performance
       recommendation := some "Use defer or async attributes for non-critical JavaScript to improve page load time"
       priority := .important
       externalResourceLink := some "https://web.dev/efficiently-load-third-party-javascript/"
       externalResourceTitle := some "Web.dev: Efficiently load third-party JavaScript" }]
   else [])

/-- `checkImageOptimization` of `PerformanceAnalyzer`. -/
def checkImageOptimization (nodes : List FramerNode) : List SEOIssue :=
  let imageNodes := nodes.filter (fun node =>
    node.type == some "image" ||
      jsIncludes node.name.jsLower "image" ||
      jsIncludes node.name.jsLower "img")
  (let nonWebPImages := imageNodes.filter (fun node =>
     !jsIncludes node.name.jsLower ".webp")
   if nonWebPImages.length > 3 then
    [{ type := .info
       message := "Consider using WebP image format"
       category := .performance
       recommendation := some "Convert images to WebP format for better compression and faster loading"
       priority := .niceToHave
       externalResourceLink := some "https://web.dev/serve-images-webp/"
       externalResourceTitle := some "Web.dev: Serve images in next-gen formats" }]
   else []) ++
  (let nonResponsiveImages := imageNodes.filter (fun node =>
     !jsIncludes node.name.jsLower "srcset" && !jsIncludes node.name.jsLower "sizes")
   if nonResponsiveImages.length > 3 then
    [{ type := .warning
       message := "Non-responsive images detected"
       category := .performance
       recommendation := some "Use srcset and sizes attributes for responsive images to optimize for different devices"
       priority := .important
       externalResourceLink := some "https://web.dev/serve-responsive-images/"
       externalResourceTitle := some "Web.dev: Serve responsive images" }]
   else [])

/-- `checkResourceMinification` of `PerformanceAnalyzer`. -/
def checkResourceMinification (nodes : List FramerNode) : List SEOIssue :=
  let cssNodes := nodes.filter (fun node =>
    node.type == some "style" ||
      jsIncludes node.name.jsLower "style" ||
      jsIncludes node.name.jsLower ".css")
  let jsNodes := nodes.filter (fun node =>
    node.type == some "script" ||
      jsIncludes node.name.jsLower "script" ||
      jsIncludes node.name.jsLower ".js")
  (let potentiallyUnminifiedCss := cssNodes.filter (fun node =>
     !jsIncludes node.name.jsLower ".min.css" && !jsIncludes node.name.jsLower "minified")
   if potentiallyUnminifiedCss.length > 0 then
    [{ type := .warning
       message := "Potentially unminified CSS resources"
       category := .performance
       recommendation := some "Minify CSS files to reduce file size and improve load times"
       priority := .important
       externalResourceLink := some "https://web.dev/minify-css/"
       externalResourceTitle := some "Web.dev: Minify CSS" }]
   else []) ++
  (let potentiallyUnminifiedJs := jsNodes.filter (fun node =>
     !jsIncludes node.name.jsLower ".min.js" && !jsIncludes node.name.jsLower "minified")
   if potentiallyUnminifiedJs.length > 0 then
    [{ type := .warning
       message := "Potentially unminified JavaScript resources"
       category := .performance
       recommendation := some "Minify JavaScript files to reduce file size and improve load times"
       priority := .important
       externalResourceLink := some "https://web.dev/unminified-javascript/"
       externalResourceTitle := some "Web.dev: Minify JavaScript" }]
   else [])

/-- `checkCriticalRenderingPath` of `PerformanceAnalyzer`. -/
def checkCriticalRenderingPath (nodes : List FramerNode) : List SEOIssue :=
  (let inlineStyleNodes := nodes.filter (fun node =>
     jsIncludes node.name.jsLower "style" && !jsIncludes node.name.jsLower "link")
   if inlineStyleNodes.length = 0 then
    [{ type := .info
       message := "No inline critical CSS found"
       category := .performance
       recommendation := some "Consider inlining critical CSS to improve above-the-fold content rendering"
       priority := .niceToHave
       externalResourceLink := some "https://web.dev/extract-critical-css/"
       externalResourceTitle := some "Web.dev: Extract critical CSS" }]
   else []) ++
  (let preloadNodes := nodes.filter (fun node =>
     jsIncludes node.name.jsLower "preload" || jsIncludes node.name.jsLower "prefetch")
   if preloadNodes.length = 0 then
    [{ type := .info
       message := "No resource preloading detected"
       category := .performance
       recommendation := some "Use preload for critical resources and prefetch for resources needed for future navigations"
       priority := .niceToHave
       externalResourceLink := some "https://web.dev/preload-critical-assets/"
       externalResourceTitle := some "Web.dev: Preload critical assets" }]
   else [])

/-- `checkRenderBlockingResources` of `PerformanceAnalyzer`. -/
def checkRenderBlockingResources (nodes : List FramerNode) : List SEOIssue :=
  (let cssInHeadNodes := nodes.filter (fun node =>
     node.type == some "style" ||
       (jsIncludes node.name.jsLower "link" && jsIncludes node.name.jsLower "stylesheet"))
   let nonMediaCss := cssInHeadNodes.filter (fun node =>
     !jsIncludes node.name.jsLower "media=")
   if nonMediaCss.length > 3 then
    [{ type := .warning
       message := "Multiple render-blocking CSS resources"
       category := .performance
       recommendation := some "Use media queries to make non-critical CSS non-render-blocking"
       priority := .important
       externalResourceLink := some "https://web.dev/defer-non-critical-css/"
       externalResourceTitle := some "Web.dev: Defer non-critical CSS" }]
   else []) ++
  (let scriptsInHeadNodes := nodes.filter (fun node =>
     node.type == some "script" &&
       !jsIncludes node.name.jsLower "async" &&
       !jsIncludes node.name.jsLower "defer")
   if scriptsInHeadNodes.length > 0 then
    [{ type := .warning
       message := "Render-blocking scripts detected"
       category := .performance
       recommendation := some "Move scripts to the end of the body or use async/defer attributes"
       priority := .important
       externalResourceLink := some "https://web.dev/render-blocking-resources/"
       externalResourceTitle := some "Web.dev: Eliminate render-blocking resources" }]
   else [])

/-- `PerformanceAnalyzer.analyze`. -/
def analyze (nodes : List FramerNode) : List SEOIssue :=
  checkJavaScriptUsage nodes ++ checkImageOptimization nodes ++
    checkResourceMinification nodes ++ checkCriticalRenderingPath nodes ++
    checkRenderBlockingResources nodes

end PerformanceAnalyzer

/-! ### Mobile analyzer (`MobileAnalyzer`) -/

namespace MobileAnalyzer

/-- `checkViewportMetaTag` of `MobileAnalyzer`. -/
def checkViewportMetaTag (nodes : List FramerNode) : List SEOIssue :=
  let viewportNode := nodes.find? (fun node =>
    node.metaName == some "viewport" ||
      (jsIncludes node.name.jsLower "meta" && jsIncludes node.name.jsLower "viewport"))
  match viewportNode with
  | none =>
    [{ type := .error
       message := "Missing viewport meta tag"
       category := .mobile
       recommendation := some "Add a viewport meta tag for proper mobile rendering: <meta name=\x27viewport\x27 content=\x27width=device-width, initial-scale=1\x27>"
       priority := .critical
       externalResourceLink := some "https://web.dev/responsive-web-design-basics/#set-the-viewport"
       externalResourceTitle := some "Web.dev: Set the viewport" }]
  | some viewportNode =>
    let viewportContent := jsOrStr viewportNode.metaContent ""
    (if !jsIncludes viewportContent "width=device-width" then
      [{ type := .error
         message := "Viewport meta tag missing width=device-width"
         category := .mobile
         recommendation := some "Add width=device-width to your viewport meta tag for responsive design"
         priority := .critical
         externalResourceLink := some "https://developers.google.com/search/mobile-sites/mobile-seo/responsive-design"
         externalResourceTitle := some "Google: Responsive design" }]
    else []) ++
    (if !jsIncludes viewportContent "initial-scale=1" then
      [{ type := .warning
         message := "Viewport meta tag missing initial-scale=1"
         category := .mobile
         recommendation := some "Add initial-scale=1 to your viewport meta tag for proper scaling"
         priority := .important
         externalResourceLink := some "https://developers.google.com/search/mobile-sites/mobile-seo/responsive-design"
         externalResourceTitle := some "Google: Responsive design" }]
    else []) ++
    (if jsIncludes viewportContent "user-scalable=no" ||
        jsIncludes viewportContent "maximum-scale=1" ||
        jsIncludes viewportContent "minimum-scale=1 maximum-scale=1" then
      [{ type := .error
         message := "Viewport prevents zooming"
         category := .mobile
         recommendation := some "Remove user-scalable=no, maximum-scale=1, or similar restrictions to allow users to zoom"
         priority := .critical
         externalResourceLink := some "https://web.dev/meta-viewport/"
         externalResourceTitle := some "Web.dev: Accessible viewport" }]
    else [])

/-- The interactive-node filter of `checkTapTargets`. -/
def isInteractiveNode (n : FramerNode) : Bool :=
  n.type == some "button" ||
    (n.type == some "a" && !jsFalsyStr n.href) ||
    jsIncludes n.name.jsLower "button" ||
    jsIncludes n.name.jsLower "link" ||
    jsIncludes n.name.jsLower "clickable"

/-- `checkTapTargets` of `MobileAnalyzer`.  The nested pair loop sets its
flag exactly when at least two interactive nodes have truthy width and
height. -/
def checkTapTargets (nodes : List FramerNode) : List SEOIssue :=
  let interactiveNodes := nodes.filter isInteractiveNode
  (let smallTapTargets := interactiveNodes.filter (fun node =>
     let width := jsOrZero node.styleWidth
     let height := jsOrZero node.styleHeight
     (width > 0 && width < 48) || (height > 0 && height < 48))
   if smallTapTargets.length > 0 then
    [{ type := .warning
       message := toString smallTapTargets.length ++ " small tap targets detected"
       category := .mobile
       recommendation := some "Ensure tap targets are at least 48x48px in size with adequate spacing"
       priority := .important
       externalResourceLink := some "https://web.dev/tap-targets/"
       externalResourceTitle := some "Web.dev: Tap targets are sized appropriately" }]
   else []) ++
  (let potentiallyCloseTargets :=
     (interactiveNodes.filter (fun node =>
       jsTruthyNum node.styleWidth && jsTruthyNum node.styleHeight)).length ≥ 2
   if potentiallyCloseTargets then
    [{ type := .warning
       message := "Potentially crowded tap targets"
       category := .mobile
       recommendation := some "Ensure at least 8px of space between tap targets for better usability"
       priority := .important
       externalResourceLink := some "https://web.dev/tap-targets/"
       externalResourceTitle := some "Web.dev: Tap targets are sized appropriately" }]
   else [])

/-- The text-node filter of `checkFontSizing`. -/
def isFontTextNode (n : FramerNode) : Bool :=
  n.type == some "text" ||
    jsIncludes n.name.jsLower "text" ||
    jsIncludes n.name.jsLower "paragraph" ||
    jsIncludes n.name.jsLower "heading"

/-- `checkFontSizing` of `MobileAnalyzer`. -/
def checkFontSizing (nodes : List FramerNode) : List SEOIssue :=
  let textNodes := nodes.filter isFontTextNode
  (let smallFontNodes := textNodes.filter (fun node =>
     let fontSize := jsOrZero node.styleFontSize
     fontSize > 0 && fontSize < 16)
   if smallFontNodes.length > 0 then
    [{ type := .warning
       message := toString smallFontNodes.length ++ " text element" ++
         (if smallFontNodes.length > 1 then "s" else "") ++ " with small font size"
       category := .mobile
       recommendation := some "Use a minimum font size of 16px for body text to ensure readability on mobile devices"
       priority := .important
       externalResourceLink := some "https://web.dev/font-size/"
       externalResourceTitle := some "Web.dev: Ensure text remains visible during font loading" }]
   else []) ++
  (let nonResponsiveFontNodes := textNodes.filter (fun node =>
     let fontSize := jsOrZero node.styleFontSize
     fontSize > 0 && jsIncludes node.name.jsLower "px" &&
       !jsIncludes node.name.jsLower "em" &&
       !jsIncludes node.name.jsLower "rem" &&
       !jsIncludes node.name.jsLower "vw")
   if nonResponsiveFontNodes.length > 3 then
    [{ type := .info
       message := "Consider using relative font sizes"
       category := .mobile
       recommendation := some "Use relative units like em, rem, or vw instead of px for better scaling across devices"
       priority := .niceToHave
       externalResourceLink := some "https://web.dev/responsive-web-design-basics/#responsive-text"
       externalResourceTitle := some "Web.dev: Responsive text" }]
   else [])

/-- The media-query indicator strings. -/
def mediaQueryIndicators : List String :=
  ["@media", "media=", "media query", "responsive"]

/-- `checkMediaQueries` of `MobileAnalyzer`. -/
def checkMediaQueries (nodes : List FramerNode) : List SEOIssue :=
  let styleNodes := nodes.filter (fun node =>
    node.type == some "style" ||
      jsIncludes node.name.jsLower "style" ||
      jsIncludes node.name.jsLower ".css")
  let hasMediaQueries := styleNodes.any (fun node =>
    mediaQueryIndicators.any (fun indicator =>
      jsIncludes node.name.jsLower indicator ||
        (match node.text with
         | some t => !t.jsIsEmpty && jsIncludes t.jsLower indicator
         | none => false)))
  if !hasMediaQueries && styleNodes.length > 0 then
    [{ type := .warning
       message := "No media queries detected"
       category := .mobile
       recommendation := some "Use media queries to adapt your layout for different screen sizes"
       priority := .important
       externalResourceLink := some "https://web.dev/responsive-web-design-basics/#media-queries"
       externalResourceTitle := some "Web.dev: Media queries" }]
  else []

/-- `checkMobileSpecificIssues` of `MobileAnalyzer`. -/
def checkMobileSpecificIssues (nodes : List FramerNode) : List SEOIssue :=
  (let fixedWidthNodes := nodes.filter (fun node =>
     let width := jsOrZero node.styleWidth
     width > 600 && !jsIncludes node.name.jsLower "%" &&
       !jsIncludes node.name.jsLower "vw" &&
       (jsIncludes node.name.jsLower "container" ||
         jsIncludes node.name.jsLower "wrapper" ||
         jsIncludes node.name.jsLower "layout" ||
         jsIncludes node.name.jsLower "section"))
   if fixedWidthNodes.length > 0 then
    [{ type := .warning
       message := "Fixed-width layout detected"
       category := .mobile
       recommendation := some "Use percentage or viewport-relative units for width instead of fixed pixel values"
       priority := .important
       externalResourceLink := some "https://web.dev/responsive-web-design-basics/#flexible-images"
       externalResourceTitle := some "Web.dev: Flexible grids" }]
   else []) ++
  (let potentialOverflowNodes := nodes.filter (fun node =>
     let width := jsOrZero node.styleWidth
     width > 480 &&
       (jsIncludes node.name.jsLower "table" ||
         jsIncludes node.name.jsLower "gallery" ||
         jsIncludes node.name.jsLower "slider" ||
         jsIncludes node.name.jsLower "horizontal"))
   if potentialOverflowNodes.length > 0 then
    [{ type := .warning
       message := "Potential horizontal scrolling issues"
       category := .mobile
       recommendation := some "Ensure content doesn\x27t overflow the viewport by using responsive techniques for wide content"
       priority := .important
       externalResourceLink := some "https://web.dev/content-width/"
       externalResourceTitle := some "Web.dev: Content fits the viewport" }]
   else []) ++
  (let potentiallyMissingTouchEvents := nodes.filter (fun node =>
     jsIncludes node.name.jsLower "click" && !jsIncludes node.name.jsLower "touch")
   if potentiallyMissingTouchEvents.length > 3 then
    [{ type := .info
       message := "Consider implementing touch events"
       category := .mobile
       recommendation := some "Ensure interactive elements respond to touch events, not just mouse events"
       priority := .niceToHave
       externalResourceLink := some "https://web.dev/touch-events/"
       externalResourceTitle := some "Web.dev: Touch events" }]
   else [])

/-- `MobileAnalyzer.analyze`. -/
def analyze (nodes : List FramerNode) : List SEOIssue :=
  checkViewportMetaTag nodes ++ checkTapTargets nodes ++
    checkFontSizing nodes ++ checkMediaQueries nodes ++
    checkMobileSpecificIssues nodes

end MobileAnalyzer

/-! ### Security analyzer (`src/analyzers/security-analyzer.ts`) -/

namespace SecurityAnalyzer

/-- `checkHttpsUsage` of `SecurityAnalyzer`. -/
def checkHttpsUsage (nodes : List FramerNode) : List SEOIssue :=
  (let httpUrls := nodes.filter (fun node =>
     let href := jsOrStr node.href ""
     let content := jsOrStr node.metaContent ""
     let text := jsOrStr node.text ""
     (href.jsStartsWith "http://" && !jsIncludes href "localhost") ||
       (content.jsStartsWith "http://" && !jsIncludes content "localhost") ||
       (jsIncludes text "http://" && !jsIncludes text "localhost"))
   if httpUrls.length > 0 then
    [{ type := .error
       message := "Insecure HTTP URLs detected"
       category := .security
       recommendation := some "Replace all HTTP URLs with HTTPS to ensure secure connections"
       priority := .critical
       externalResourceLink := some "https://web.dev/why-https-matters/"
       externalResourceTitle := some "Web.dev: Why HTTPS matters" }]
   else []) ++
  (let httpsWithMixedContent := nodes.filter (fun node =>
     let href := jsOrStr node.href ""
     href.jsStartsWith "https://" &&
       (match node.text with
        | some t => jsIncludes t "http://" && !jsIncludes t "localhost"
        | none => false))
   if httpsWithMixedContent.length > 0 then
    [{ type := .warning
       message := "Potential mixed content issues"
       category := .security
       recommendation := some "Ensure all resources are loaded over HTTPS to prevent mixed content warnings"
       priority := .important
       externalResourceLink := some "https://web.dev/what-is-mixed-content/"
       externalResourceTitle := some "Web.dev: What is mixed content?" }]
   else [])

/-- The `action=` attribute heuristically recovered from the node name
(the guard lower-cases the name but `indexOf` runs on the original). -/
def formAction (n : FramerNode) : String :=
  if jsIncludes n.name.jsLower "action=" then
    jsSubstringFrom n.name (jsIndexOf n.name "action=" + 7)
  else ""

/-- `checkSecureForms` of `SecurityAnalyzer`. -/
def checkSecureForms (nodes : List FramerNode) : List SEOIssue :=
  let formNodes := nodes.filter (fun node =>
    node.type == some "form" || jsIncludes node.name.jsLower "form")
  if formNodes.length = 0 then []
  else
    (let insecureFormActions := formNodes.filter (fun node =>
       let action := formAction node
       action.jsStartsWith "http://" && !jsIncludes action "localhost")
     if insecureFormActions.length > 0 then
      [{ type := .error
         message := "Insecure form submission"
         category := .security
         recommendation := some "Ensure all form actions use HTTPS to protect user data during transmission"
         priority := .critical
         externalResourceLink := some "https://web.dev/security-forms/"
         externalResourceTitle := some "Web.dev: Secure forms" }]
     else []) ++
    (let potentiallySensitiveForms := formNodes.filter (fun node =>
       jsIncludes node.name.jsLower "password" ||
         jsIncludes node.name.jsLower "credit" ||
         jsIncludes node.name.jsLower "card" ||
         jsIncludes node.name.jsLower "payment" ||
         jsIncludes node.name.jsLower "login" ||
         jsIncludes node.name.jsLower "signin")
     (potentiallySensitiveForms.map (fun form =>
       let hasAutocompleteOff :=
         jsIncludes form.name.jsLower "autocomplete=\"off\"" ||
           jsIncludes form.name.jsLower "autocomplete=\x27off\x27"
       if hasAutocompleteOff then
        [{ type := .warning
           message := "Autocomplete disabled on sensitive form"
           category := .security
           recommendation := some "Avoid disabling autocomplete on password fields to allow password managers to work"
           priority := .important
           externalResourceLink := some "https://web.dev/sign-in-form-best-practices/#autocomplete"
           externalResourceTitle := some "Web.dev: Autocomplete for login forms" }]
       else [])).flatten)

/-- The meta security headers probed for. -/
def securityHeadersInMeta : List String :=
  [ "content-security-policy", "x-content-type-options", "x-frame-options",
    "x-xss-protection", "referrer-policy" ]

/-- `checkSecurityHeaders` of `SecurityAnalyzer` (again: the guard lower-cases
the name but `indexOf` runs on the original). -/
def checkSecurityHeaders (nodes : List FramerNode) : List SEOIssue :=
  let metaNodes := nodes.filter (fun node => jsIncludes node.name.jsLower "meta")
  let foundSecurityHeaders := metaNodes.any (fun node =>
    let httpEquiv :=
      if jsIncludes node.name.jsLower "http-equiv=" then
        jsSubstringFrom node.name (jsIndexOf node.name "http-equiv=" + 11)
      else ""
    securityHeadersInMeta.any (fun header => jsIncludes httpEquiv header))
  if !foundSecurityHeaders then
    [{ type := .info
       message := "No security headers detected"
       category := .security
       recommendation := some "Consider implementing security headers like Content-Security-Policy, X-Content-Type-Options, etc."
       priority := .niceToHave
       externalResourceLink := some "https://web.dev/security-headers/"
       externalResourceTitle := some "Web.dev: Security headers" }]
  else []

/-- `checkExternalResources` of `SecurityAnalyzer`. -/
def checkExternalResources (nodes : List FramerNode) : List SEOIssue :=
  let externalScripts := nodes.filter (fun node =>
    (node.type == some "script" && !jsFalsyStr node.href &&
      !jsIncludes (jsOrStr node.href "") "integrity=") ||
    (jsIncludes node.name.jsLower "script" &&
      jsIncludes node.name.jsLower "src=" &&
      !jsIncludes node.name.jsLower "integrity="))
  let externalStyles := nodes.filter (fun node =>
    (node.type == some "link" && node.rel == some "stylesheet" &&
      !jsFalsyStr node.href && !jsIncludes (jsOrStr node.href "") "integrity=") ||
    (jsIncludes node.name.jsLower "link" &&
      jsIncludes node.name.jsLower "stylesheet" &&
      jsIncludes node.name.jsLower "href=" &&
      !jsIncludes node.name.jsLower "integrity="))
  (if externalScripts.length > 0 || externalStyles.length > 0 then
    [{ type := .info
       message := "External resources without SRI"
       category := .security
       recommendation := some "Use Subresource Integrity (SRI) for external scripts and stylesheets"
       priority := .niceToHave
       externalResourceLink := some "https://web.dev/csp-sri/"
       externalResourceTitle := some "Web.dev: Subresource Integrity" }]
  else []) ++
  (let suspiciousDomains := ["evil", "hack", "malware", "phish", "suspicious"]
   let potentiallySuspiciousResources := nodes.filter (fun node =>
     let href := jsOrStr node.href ""
     suspiciousDomains.any (fun domain => jsIncludes href domain))
   if potentiallySuspiciousResources.length > 0 then
    [{ type := .error
       message := "Potentially suspicious resource domains"
       category := .security
       recommendation := some "Review external resources for suspicious or malicious domains"
       priority := .critical
       externalResourceLink := some "https://owasp.org/www-community/attacks/xss/"
       externalResourceTitle := some "OWASP: Cross-Site Scripting (XSS)" }]
   else [])

/-- `checkContentSecurityPolicy` of `SecurityAnalyzer`. -/
def checkContentSecurityPolicy (nodes : List FramerNode) : List SEOIssue :=
  let cspNode := nodes.find? (fun node =>
    (jsIncludes node.name.jsLower "meta" &&
      jsIncludes node.name.jsLower "content-security-policy") ||
    (node.metaName == some "http-equiv" &&
      (match node.metaContent with
       | some c => jsIncludes c.jsLower "content-security-policy"
       | none => false)))
  match cspNode with
  | none =>
    [{ type := .info
       message := "No Content Security Policy detected"
       category := .security
       recommendation := some "Implement a Content Security Policy to mitigate XSS and data injection attacks"
       priority := .niceToHave
       externalResourceLink := some "https://web.dev/csp/"
       externalResourceTitle := some "Web.dev: Content Security Policy" }]
  | some cspNode =>
    let cspContent := jsOrStr cspNode.metaContent ""
    if jsIncludes cspContent "unsafe-inline" || jsIncludes cspContent "unsafe-eval" then
      [{ type := .warning
         message := "Weak Content Security Policy"
         category := .security
         recommendation := some "Avoid using \x27unsafe-inline\x27 or \x27unsafe-eval\x27 in your Content Security Policy"
         priority := .important
         externalResourceLink := some "https://web.dev/strict-csp/"
         externalResourceTitle := some "Web.dev: Mitigate XSS with a strict CSP" }]
    else []

/-- `SecurityAnalyzer.analyze`. -/
def analyze (nodes : List FramerNode) : List SEOIssue :=
  checkHttpsUsage nodes ++ checkSecureForms nodes ++
    checkSecurityHeaders nodes ++ checkExternalResources nodes ++
    checkContentSecurityPolicy nodes

end SecurityAnalyzer

/-! ### Schema analyzer (`SchemaAnalyzer`) -/

namespace SchemaAnalyzer

/-- Regex `/\d+\s+[A-Za-z\s]+,\s+[A-Za-z\s]+,\s+[A-Z]{2}\s+\d{5}/`
(US street address heuristic). -/
def addressRE : RE :=
  reSeqs [.plusCls Char.isDigit, .plusCls jsIsSpace,
    .plusCls (fun c => c.isAlpha || jsIsSpace c), .cls (fun c => c = ','),
    .plusCls jsIsSpace, .plusCls (fun c => c.isAlpha || jsIsSpace c),
    .cls (fun c => c = ','), .plusCls jsIsSpace,
    .cls Char.isUpper, .cls Char.isUpper, .plusCls jsIsSpace,
    .cls Char.isDigit, .cls Char.isDigit, .cls Char.isDigit,
    .cls Char.isDigit, .cls Char.isDigit]

/-- Regex `/\(\d{3}\)\s*\d{3}-\d{4}/`. -/
def phoneParenRE : RE :=
  reSeqs [.cls (fun c => c = '('), .cls Char.isDigit, .cls Char.isDigit,
    .cls Char.isDigit, .cls (fun c => c = ')'), .starCls jsIsSpace,
    .cls Char.isDigit, .cls Char.isDigit, .cls Char.isDigit,
    .cls (fun c => c = '-'), .cls Char.isDigit, .cls Char.isDigit,
    .cls Char.isDigit, .cls Char.isDigit]

/-- Regex `/\d{3}-\d{3}-\d{4}/`. -/
def phoneDashRE : RE :=
  reSeqs [.cls Char.isDigit, .cls Char.isDigit, .cls Char.isDigit,
    .cls (fun c => c = '-'), .cls Char.isDigit, .cls Char.isDigit,
    .cls Char.isDigit, .cls (fun c => c = '-'), .cls Char.isDigit,
    .cls Char.isDigit, .cls Char.isDigit, .cls Char.isDigit]

/-- Regex `/mon|tue|wed|thu|fri|sat|sun.*?\d{1,2}:\d{2}/i`: the alternation
binds at the top level, so any of the first six day abbreviations matches on
its own, and only the `sun` branch requires a following `H:MM`-style time
(with `.` not crossing line terminators). -/
def hoursRE : RE :=
  .alt (reWord "mon") (.alt (reWord "tue") (.alt (reWord "wed")
    (.alt (reWord "thu") (.alt (reWord "fri") (.alt (reWord "sat")
      (reSeqs [reWord "sun", .starCls (fun c => c ≠ '\n' && c ≠ '\r'),
        .cls Char.isDigit, .optCls Char.isDigit, .cls (fun c => c = ':'),
        .cls Char.isDigit, .cls Char.isDigit]))))))

/-- Optional-text regex test (`node.text?.match(re)` in boolean position). -/
def textMatches (re : RE) (text : Option String) : Bool :=
  match text with
  | some t => reSearch re t
  | none => false

/-- Case-insensitive variant: the `/i` flag is modelled by lower-casing the
text (the pattern literals are already lower-case). -/
def textMatchesCI (re : RE) (text : Option String) : Bool :=
  match text with
  | some t => reSearch re t.jsLower
  | none => false

/-- Optional-text `includes` test (`node.text?.includes(s)`). -/
def textIncludes (text : Option String) (pat : String) : Bool :=
  match text with
  | some t => jsIncludes t pat
  | none => false

/-- The schema.org indicator strings. -/
def schemaIndicators : List String :=
  [ "schema.org", "itemscope", "itemtype", "itemprop",
    "application/ld+json", "@context", "@type" ]

/-- `checkSchemaMarkupPresence` of `SchemaAnalyzer` (both the text and name
tests are case-sensitive here). -/
def checkSchemaMarkupPresence (nodes : List FramerNode) : List SEOIssue :=
  let hasSchemaMarkup := nodes.any (fun node =>
    schemaIndicators.any (fun indicator =>
      jsIncludes (jsOrStr node.text "") indicator ||
        jsIncludes node.name indicator))
  if !hasSchemaMarkup then
    [{ type := .warning
       message := "No schema markup detected"
       category := .schema
       recommendation := some "Implement structured data using schema.org vocabulary to enhance search results with rich snippets"
       priority := .important
       externalResourceLink := some "https://developers.google.com/search/docs/advanced/structured-data/intro-structured-data"
       externalResourceTitle := some "Google: Introduction to structured data" }]
  else []

/-- `checkCommonSchemas` of `SchemaAnalyzer`. -/
def checkCommonSchemas (nodes : List FramerNode) : List SEOIssue :=
  let isArticle := nodes.any (fun node =>
    jsIncludes node.name.jsLower "article" ||
      jsIncludes node.name.jsLower "blog" ||
      jsIncludes node.name.jsLower "post")
  let isProduct := nodes.any (fun node =>
    jsIncludes node.name.jsLower "product" ||
      jsIncludes node.name.jsLower "item" ||
      jsIncludes node.name.jsLower "price" ||
      jsIncludes node.name.jsLower "buy")
  let isEvent := nodes.any (fun node =>
    jsIncludes node.name.jsLower "event" ||
      jsIncludes node.name.jsLower "schedule" ||
      jsIncludes node.name.jsLower "calendar")
  let isRecipe := nodes.any (fun node =>
    jsIncludes node.name.jsLower "recipe" ||
      jsIncludes node.name.jsLower "ingredients" ||
      jsIncludes node.name.jsLower "cooking")
  let hasArticleSchema := nodes.any (fun node =>
    textIncludes node.text "Article" ||
      textIncludes node.text "BlogPosting" ||
      jsIncludes node.name.jsLower "article schema")
  let hasProductSchema := nodes.any (fun node =>
    textIncludes node.text "Product" ||
      jsIncludes node.name.jsLower "product schema")
  let hasEventSchema := nodes.any (fun node =>
    textIncludes node.text "Event" ||
      jsIncludes node.name.jsLower "event schema")
  let hasRecipeSchema := nodes.any (fun node =>
    textIncludes node.text "Recipe" ||
      jsIncludes node.name.jsLower "recipe schema")
  (if isArticle && !hasArticleSchema then
    [{ type := .warning
       message := "Article content without Article schema"
       category := .schema
       recommendation := some "Implement Article or BlogPosting schema for article content to enhance visibility in search results"
       priority := .important
       externalResourceLink := some "https://developers.google.com/search/docs/advanced/structured-data/article"
       externalResourceTitle := some "Google: Article structured data" }]
  else []) ++
  (if isProduct && !hasProductSchema then
    [{ type := .warning
       message := "Product content without Product schema"
       category := .schema
       recommendation := some "Implement Product schema for product pages to enable rich product results in search"
       priority := .important
       externalResourceLink := some "https://developers.google.com/search/docs/advanced/structured-data/product"
       externalResourceTitle := some "Google: Product structured data" }]
  else []) ++
  (if isEvent && !hasEventSchema then
    [{ type := .info
       message := "Event content without Event schema"
       category := .schema
       recommendation := some "Implement Event schema for event information to display event details in search results"
       priority := .niceToHave
       externalResourceLink := some "https://developers.google.com/search/docs/advanced/structured-data/event"
       externalResourceTitle := some "Google: Event structured data" }]
  else []) ++
  (if isRecipe && !hasRecipeSchema then
    [{ type := .info
       message := "Recipe content without Recipe schema"
       category := .schema
       recommendation := some "Implement Recipe schema for recipe content to display rich recipe information in search results"
       priority := .niceToHave
       externalResourceLink := some "https://developers.google.com/search/docs/advanced/structured-data/recipe"
       externalResourceTitle := some "Google: Recipe structured data" }]
  else [])

/-- `checkLocalBusinessSchema` of `SchemaAnalyzer`. -/
def checkLocalBusinessSchema (nodes : List FramerNode) : List SEOIssue :=
  let hasAddress := nodes.any (fun node =>
    jsIncludes node.name.jsLower "address" || textMatches addressRE node.text)
  let hasPhone := nodes.any (fun node =>
    jsIncludes node.name.jsLower "phone" ||
      textMatches phoneParenRE node.text ||
      textMatches phoneDashRE node.text)
  let hasBusinessHours := nodes.any (fun node =>
    jsIncludes node.name.jsLower "hours" ||
      jsIncludes node.name.jsLower "opening" ||
      textMatchesCI hoursRE node.text)
  let isLocalBusiness := hasAddress || hasPhone || hasBusinessHours
  let hasLocalBusinessSchema := nodes.any (fun node =>
    textIncludes node.text "LocalBusiness" ||
      jsIncludes node.name.jsLower "localbusiness schema")
  if isLocalBusiness && !hasLocalBusinessSchema then
    [{ type := .warning
       message := "Local business information without LocalBusiness schema"
       category := .schema
       recommendation := some "Implement LocalBusiness schema to improve local search visibility and enable rich features like business hours"
       priority := .important
       externalResourceLink := some "https://developers.google.com/search/docs/advanced/structured-data/local-business"
       externalResourceTitle := some "Google: Local business structured data" }]
  else []

/-- `checkOrganizationSchema` of `SchemaAnalyzer`. -/
def checkOrganizationSchema (nodes : List FramerNode) : List SEOIssue :=
  let hasLogo := nodes.any (fun node =>
    jsIncludes node.name.jsLower "logo" ||
      (match node.alt with
       | some a => jsIncludes a.jsLower "logo"
       | none => false))
  let hasCompanyName := nodes.any (fun node =>
    jsIncludes node.name.jsLower "company name" ||
      jsIncludes node.name.jsLower "organization name" ||
      jsIncludes node.name.jsLower "brand name")
  let hasSocialProfiles := nodes.any (fun node =>
    jsIncludes node.name.jsLower "social" ||
      (match node.href with
       | some h => jsIncludes h "facebook.com" || jsIncludes h "twitter.com" ||
           jsIncludes h "linkedin.com" || jsIncludes h "instagram.com"
       | none => false))
  let isOrganization := hasLogo || hasCompanyName || hasSocialProfiles
  let hasOrganizationSchema := nodes.any (fun node =>
    textIncludes node.text "Organization" ||
      textIncludes node.text "Corporation" ||
      jsIncludes node.name.jsLower "organization schema")
  if isOrganization && !hasOrganizationSchema then
    [{ type := .info
       message := "Organization information without Organization schema"
       category := .schema
       recommendation := some "Implement Organization schema to establish your brand identity for search engines"
       priority := .niceToHave
       externalResourceLink := some "https://schema.org/Organization"
       externalResourceTitle := some "Schema.org: Organization" }]
  else []

/-- `checkBreadcrumbSchema` of `SchemaAnalyzer`. -/
def checkBreadcrumbSchema (nodes : List FramerNode) : List SEOIssue :=
  let hasBreadcrumbUI := nodes.any (fun node =>
    jsIncludes node.name.jsLower "breadcrumb" ||
      jsIncludes node.name.jsLower "navigation" ||
      (jsIncludes node.name.jsLower "ul" && jsIncludes node.name.jsLower "nav"))
  let hasBreadcrumbSchema := nodes.any (fun node =>
    textIncludes node.text "BreadcrumbList" ||
      jsIncludes node.name.jsLower "breadcrumb schema")
  if hasBreadcrumbUI && !hasBreadcrumbSchema then
    [{ type := .info
       message := "Breadcrumb navigation without BreadcrumbList schema"
       category := .schema
       recommendation := some "Implement BreadcrumbList schema to enhance breadcrumb display in search results"
       priority := .niceToHave
       externalResourceLink := some "https://developers.google.com/search/docs/advanced/structured-data/breadcrumb"
       externalResourceTitle := some "Google: Breadcrumb structured data" }]
  else []

/-- `SchemaAnalyzer.analyze`. -/
def analyze (nodes : List FramerNode) : List SEOIssue :=
  checkSchemaMarkupPresence nodes ++ checkCommonSchemas nodes ++
    checkLocalBusinessSchema nodes ++ checkOrganizationSchema nodes ++
    checkBreadcrumbSchema nodes

end SchemaAnalyzer

/-! ### Aggregation engine (`src/utils/seo-analyzer.service.fixed.ts`) -/

/-- One slot of the per-category result map. -/
structure CategoryData where
  issues : List SEOIssue
  score : Int
deriving Repr

/-- The result object of `analyzeNodes` (`SEOAnalysisResult`). -/
structure SEOAnalysisResult where
  issues : List SEOIssue
  score : Int
  categories : SEOCategory → CategoryData

namespace SEOAnalyzerService

/-- The Framer host collaborator used by the enrichment step (§4.3 of the
spec treats it as an injected capability).  `getRect` models `framer.getRect`:
`.error ()` is a thrown exception (the catch skips both assignments),
`.ok none` a falsy rect (position left unchanged, a screenshot is still
taken), `.ok (some r)` a real rect.  `screenshot` models
`getElementScreenshot`, which is total: it catches its own errors and
otherwise draws a placeholder canvas (with an intentionally random color)
and returns its data URL. -/
structure HostEnv where
  getRect : String → Except Unit (Option ElementRect)
  screenshot : String → String

/-- The per-issue body of `enrichIssuesWithVisualInfo`: only issues with a
truthy `elementId` matching some node are touched, and only their
`elementPosition` and `screenshot` fields are ever written. -/
def enrichIssue (host : HostEnv) (nodes : List FramerNode) (issue : SEOIssue) :
    SEOIssue :=
  match issue.elementId with
  | some eid =>
    if eid.jsIsEmpty then issue
    else if nodes.any (fun n => n.id == some eid) then
      match host.getRect eid with
      | .error _ => issue
      | .ok orect =>
        let issue1 :=
          match orect with
          | some rect => { issue with elementPosition := some rect }
          | none => issue
        { issue1 with screenshot := some (host.screenshot eid) }
    else issue
  | none => issue

/-- `enrichIssuesWithVisualInfo` of `SEOAnalyzerService`. -/
def enrichIssuesWithVisualInfo (host : HostEnv) (nodes : List FramerNode)
    (issues : List SEOIssue) : List SEOIssue :=
  issues.map (enrichIssue host nodes)

/-- `calculateScoreForCategory` of `SEOAnalyzerService`: 100 for an empty
issue list, otherwise 100 minus 20/10/5 per critical/important/nice-to-have
issue, clamped at 0. -/
def calculateScoreForCategory (issues : List SEOIssue) : Int :=
  if issues.length = 0 then 100
  else
    let criticalIssues := issues.filter (fun issue => issue.priority == .critical)
    let importantIssues := issues.filter (fun issue => issue.priority == .important)
    let niceToHaveIssues := issues.filter (fun issue => issue.priority == .niceToHave)
    let score : Int := 100 - criticalIssues.length * 20 -
      importantIssues.length * 10 - niceToHaveIssues.length * 5
    max 0 score

/-- The fixed per-category weight table of `calculateOverallScore`.  Every
category is listed, so the `|| 1` fallback of the source is dead code. -/
def categoryWeights : SEOCategory → Rat
  | .metadata => 3 / 2
  | .headings => 6 / 5
  | .structureTag => 6 / 5
  | .links => 6 / 5
  | .content => 6 / 5
  | .images => 1
  | .social => 1
  | .accessibility => 1
  | .mobile => 1
  | .performance => 1
  | .security => 4 / 5
  | .favicon => 1 / 2
  | .schema => 1
  | .international => 1

/-- The key insertion order of the `categories` object literal, which is the
iteration order of both score loops. -/
def categoriesKeyOrder : List SEOCategory :=
  [ .metadata, .headings, .images, .links, .structureTag, .content,
    .performance, .accessibility, .mobile, .social, .security, .favicon,
    .schema, .international ]

/-- `calculateOverallScore` of `SEOAnalyzerService`: accumulate total weight
and weighted score over the categories with at least one issue, then
`Math.round` the quotient (100 when no category has issues). -/
def calculateOverallScore (categories : SEOCategory → CategoryData) : Int :=
  let acc := categoriesKeyOrder.foldl (fun (acc : Rat × Rat) category =>
    let data := categories category
    if data.issues.length > 0 then
      (acc.1 + categoryWeights category,
       acc.2 + (data.score : Rat) * categoryWeights category)
    else acc) (0, 0)
  if acc.1 > 0 then jsRound (acc.2 / acc.1) else 100

/-- The analyzer registry in `Object.entries` order: insertion order of the
`analyzers` object literal.  The constructor replaces the metadata slot with
a composite that concatenates the metadata and international analyzers
(replacement does not change key order).  The links analyzer carries the URL
parser collaborator `up`. -/
def registeredAnalyzers (up : String → Option String) :
    List (SEOCategory × (List FramerNode → List SEOIssue)) :=
  [ (.metadata, fun nodes =>
      MetadataAnalyzer.analyze nodes ++ InternationalAnalyzer.analyze nodes)
  , (.structureTag, StructureAnalyzer.analyze)
  , (.social, SocialAnalyzer.analyze)
  , (.images, ImagesAnalyzer.analyze)
  , (.content, ContentAnalyzer.analyze)
  , (.accessibility, AccessibilityAnalyzer.analyze)
  , (.links, LinksAnalyzer.analyze up)
  , (.performance, PerformanceAnalyzer.analyze)
  , (.mobile, MobileAnalyzer.analyze)
  , (.security, SecurityAnalyzer.analyze)
  , (.schema, SchemaAnalyzer.analyze) ]

/-- The skip test of the analyzer loop:
`options.filter && !options.filter.includes(category)` (an empty filter
array is truthy in JavaScript and skips everything). -/
def skippedByFilter (opts : SEOAnalyzerOptions) (category : SEOCategory) : Bool :=
  match opts.filter with
  | some f => !f.contains category.name
  | none => false

/-- The analyzer loop of `analyzeNodes`: for each registered slot in order,
skip it if filtered out, otherwise run the analyzer, enrich its issues, and
append them both to the flat list and to (exactly) that category's slot. -/
def runAnalyzersLoop (host : HostEnv) (nodes : List FramerNode)
    (opts : SEOAnalyzerOptions)
    (slots : List (SEOCategory × (List FramerNode → List SEOIssue)))
    (acc : List SEOIssue × (SEOCategory → List SEOIssue)) :
    List SEOIssue × (SEOCategory → List SEOIssue) :=
  match slots with
  | [] => acc
  | (category, analyzerFn) :: rest =>
    if skippedByFilter opts category then
      runAnalyzersLoop host nodes opts rest acc
    else
      let enrichedIssues := enrichIssuesWithVisualInfo host nodes (analyzerFn nodes)
      runAnalyzersLoop host nodes opts rest
        (acc.1 ++ enrichedIssues,
         fun c => if c = category then enrichedIssues else acc.2 c)

/-- `analyzeNodes` of `SEOAnalyzerService`.  The category map starts with
empty issue lists (and score 0, which the score loop below overwrites for
every one of the 14 categories, so the final score of every category —
including filtered-out ones — is `calculateScoreForCategory` of its issue
list). -/
def analyzeNodes (up : String → Option String) (host : HostEnv)
    (nodes : List FramerNode) (opts : SEOAnalyzerOptions) : SEOAnalysisResult :=
  let run := runAnalyzersLoop host nodes opts (registeredAnalyzers up)
    ([], fun _ => [])
  let categories : SEOCategory → CategoryData := fun c =>
    { issues := run.2 c, score := calculateScoreForCategory (run.2 c) }
  { issues := run.1
    score := calculateOverallScore categories
    categories := categories }

end SEOAnalyzerService

namespace SEOAnalyzerService

/-- What one registered slot contributes: nothing if filtered out, otherwise
its analyzer's enriched output. -/
def slotOut (host : HostEnv) (nodes : List FramerNode) (opts : SEOAnalyzerOptions)
    (s : SEOCategory × (List FramerNode → List SEOIssue)) : List SEOIssue :=
  if skippedByFilter opts s.1 then []
  else enrichIssuesWithVisualInfo host nodes (s.2 nodes)

theorem runAnalyzersLoop_fst (host : HostEnv) (nodes : List FramerNode)
    (opts : SEOAnalyzerOptions) :
    ∀ (slots : List (SEOCategory × (List FramerNode → List SEOIssue)))
      (acc : List SEOIssue × (SEOCategory → List SEOIssue)),
      (runAnalyzersLoop host nodes opts slots acc).1 =
        acc.1 ++ (slots.map (slotOut host nodes opts)).flatten := by
  intro slots
  induction slots with
  | nil => intro acc; simp [runAnalyzersLoop]
  | cons s rest ih =>
    intro acc
    rcases s with ⟨category, analyzerFn⟩
    by_cases hskip : skippedByFilter opts category = true
    · simp only [runAnalyzersLoop, hskip, if_true, ih, List.map_cons,
        List.flatten_cons, slotOut]
      simp [hskip]
    · simp only [runAnalyzersLoop, hskip, if_false, Bool.false_eq_true, ih,
        List.map_cons, List.flatten_cons, slotOut]
      simp [hskip, List.append_assoc]

theorem runAnalyzersLoop_snd (host : HostEnv) (nodes : List FramerNode)
    (opts : SEOAnalyzerOptions) :
    ∀ (slots : List (SEOCategory × (List FramerNode → List SEOIssue)))
      (acc : List SEOIssue × (SEOCategory → List SEOIssue)) (c : SEOCategory),
      (runAnalyzersLoop host nodes opts slots acc).2 c =
        slots.foldl (fun cur s =>
          if s.1 = c && !(skippedByFilter opts s.1) then
            enrichIssuesWithVisualInfo host nodes (s.2 nodes)
          else cur) (acc.2 c) := by
  intro slots
  induction slots with
  | nil => intro acc c; simp [runAnalyzersLoop]
  | cons s rest ih =>
    intro acc c
    rcases s with ⟨category, analyzerFn⟩
    by_cases hskip : skippedByFilter opts category = true
    · simp only [runAnalyzersLoop, hskip, if_true, ih, List.foldl_cons]
      simp [hskip]
    · simp only [runAnalyzersLoop, hskip, if_false, Bool.false_eq_true, ih,
        List.foldl_cons]
      by_cases hc : category = c
      · subst hc
        simp [hskip]
      · have : ¬(c = category) := fun h => hc h.symm
        simp [hskip, hc, this]

end SEOAnalyzerService

namespace SEOAnalyzerService

/-- The per-category contribution of the analyzer loop: the (unique) slot
registered for the category, or nothing for the three categories without an
analyzer of their own (headings, favicon, international). -/
def registeredIssuesFor (up : String → Option String) (host : HostEnv)
    (nodes : List FramerNode) (opts : SEOAnalyzerOptions) :
    SEOCategory → List SEOIssue
  | .metadata => slotOut host nodes opts (.metadata, fun nodes =>
      MetadataAnalyzer.analyze nodes ++ InternationalAnalyzer.analyze nodes)
  | .structureTag => slotOut host nodes opts (.structureTag, StructureAnalyzer.analyze)
  | .social => slotOut host nodes opts (.social, SocialAnalyzer.analyze)
  | .images => slotOut host nodes opts (.images, ImagesAnalyzer.analyze)
  | .content => slotOut host nodes opts (.content, ContentAnalyzer.analyze)
  | .accessibility => slotOut host nodes opts (.accessibility, AccessibilityAnalyzer.analyze)
  | .links => slotOut host nodes opts (.links, LinksAnalyzer.analyze up)
  | .performance => slotOut host nodes opts (.performance, PerformanceAnalyzer.analyze)
  | .mobile => slotOut host nodes opts (.mobile, MobileAnalyzer.analyze)
  | .security => slotOut host nodes opts (.security, SecurityAnalyzer.analyze)
  | .schema => slotOut host nodes opts (.schema, SchemaAnalyzer.analyze)
  | .headings => []
  | .favicon => []
  | .international => []

theorem analyzeNodes_cat_issues (up : String → Option String) (host : HostEnv)
    (nodes : List FramerNode) (opts : SEOAnalyzerOptions) (c : SEOCategory) :
    ((analyzeNodes up host nodes opts).categories c).issues =
      registeredIssuesFor up host nodes opts c := by
  show (runAnalyzersLoop host nodes opts (registeredAnalyzers up) ([], fun _ => [])).2 c =
    registeredIssuesFor up host nodes opts c
  rw [runAnalyzersLoop_snd]
  cases c <;>
    simp only [registeredAnalyzers, List.foldl_cons, List.foldl_nil] <;>
    simp [registeredIssuesFor, slotOut] <;>
    split <;> simp_all

theorem analyzeNodes_cat_score (up : String → Option String) (host : HostEnv)
    (nodes : List FramerNode) (opts : SEOAnalyzerOptions) (c : SEOCategory) :
    ((analyzeNodes up host nodes opts).categories c).score =
      calculateScoreForCategory ((analyzeNodes up host nodes opts).categories c).issues := by
  rfl

end SEOAnalyzerService

/-- The checker-registration order (key insertion order of the `analyzers`
object literal): the order in which issues are appended to the flat list. -/
def registrationOrder : List SEOCategory :=
  [ .metadata, .structureTag, .social, .images, .content, .accessibility,
    .links, .performance, .mobile, .security, .schema ]

/-- Claim C4: the flat issues list of the result of `analyzeNodes` is the
exact concatenation, in checker-registration order, of the per-category
issue lists in the result; consequently its length equals the sum over all
fourteen categories of the per-category issue list lengths. -/
theorem c4_issue_concatenation (up : String → Option String)
    (host : SEOAnalyzerService.HostEnv) (nodes : List FramerNode)
    (opts : SEOAnalyzerOptions) :
    (SEOAnalyzerService.analyzeNodes up host nodes opts).issues =
      (registrationOrder.map (fun c =>
        ((SEOAnalyzerService.analyzeNodes up host nodes opts).categories c).issues)).flatten ∧
    (SEOAnalyzerService.analyzeNodes up host nodes opts).issues.length =
      (SEOAnalyzerService.categoriesKeyOrder.map (fun c =>
        ((SEOAnalyzerService.analyzeNodes up host nodes opts).categories c).issues.length)).sum := by
  have hfst : (SEOAnalyzerService.analyzeNodes up host nodes opts).issues =
      ((SEOAnalyzerService.registeredAnalyzers up).map
        (SEOAnalyzerService.slotOut host nodes opts)).flatten := by
    show (SEOAnalyzerService.runAnalyzersLoop host nodes opts
      (SEOAnalyzerService.registeredAnalyzers up) ([], fun _ => [])).1 = _
    rw [SEOAnalyzerService.runAnalyzersLoop_fst]
    simp
  have hcat := SEOAnalyzerService.analyzeNodes_cat_issues up host nodes opts
  constructor
  · rw [hfst]
    simp only [registrationOrder, List.map_cons, List.map_nil, hcat]
    simp [SEOAnalyzerService.registeredAnalyzers, SEOAnalyzerService.registeredIssuesFor]
  · rw [hfst, List.length_flatten]
    simp only [SEOAnalyzerService.categoriesKeyOrder, List.map_cons, List.map_nil, hcat]
    simp [SEOAnalyzerService.registeredAnalyzers, SEOAnalyzerService.registeredIssuesFor,
      List.map_map]
    omega

/-! ### Category-tagging of the checkers

Every issue a checker pushes carries the checker's fixed home category
(`category: this.category` in every issue literal); the lemmas below verify
this per analyzer. -/

/-- Every issue of the list is tagged with category `c`. -/
def issuesAllCat (c : SEOCategory) (l : List SEOIssue) : Prop :=
  ∀ i ∈ l, i.category = c

theorem allCat_nil {c : SEOCategory} : issuesAllCat c [] := by
  intro i hi
  exact absurd hi (List.not_mem_nil i)

theorem allCat_singleton {c : SEOCategory} {i : SEOIssue} (h : i.category = c) :
    issuesAllCat c [i] := by
  intro j hj
  rw [List.mem_singleton] at hj
  rw [hj, h]

theorem allCat_append {c : SEOCategory} {l1 l2 : List SEOIssue}
    (h1 : issuesAllCat c l1) (h2 : issuesAllCat c l2) :
    issuesAllCat c (l1 ++ l2) := by
  intro i hi
  rcases List.mem_append.1 hi with h | h
  · exact h1 i h
  · exact h2 i h

theorem allCat_flatMap {c : SEOCategory} {α : Type} {f : α → List SEOIssue}
    {l : List α} (h : ∀ x, issuesAllCat c (f x)) :
    issuesAllCat c ((l.map f).flatten) := by
  intro i hi
  rcases List.mem_flatten.1 hi with ⟨s, hs, hsi⟩
  rcases List.mem_map.1 hs with ⟨x, _, rfl⟩
  exact h x i hsi

theorem allCat_mapIssue {c : SEOCategory} {α : Type} {f : α → SEOIssue}
    {l : List α} (h : ∀ x, (f x).category = c) :
    issuesAllCat c (l.map f) := by
  intro i hi
  rcases List.mem_map.1 hi with ⟨x, _, rfl⟩
  exact h x

theorem metadata_analyze_cat (nodes : List FramerNode) :
    issuesAllCat .metadata (MetadataAnalyzer.analyze nodes) := by
  repeat' first
    | exact allCat_nil
    | exact allCat_singleton rfl
    | apply allCat_append
    | (apply allCat_flatMap; intro x)
    | (apply allCat_mapIssue; intro x; exact rfl)
    | split
    | simp only [MetadataAnalyzer.analyze, MetadataAnalyzer.checkTitleTag,
        MetadataAnalyzer.checkMetaDescription, MetadataAnalyzer.checkMetaViewport,
        MetadataAnalyzer.checkCanonicalUrl, MetadataAnalyzer.checkLanguageAttribute,
        MetadataAnalyzer.checkMetaRobots, MetadataAnalyzer.checkFavicon]

theorem international_analyze_cat (nodes : List FramerNode) :
    issuesAllCat .metadata (InternationalAnalyzer.analyze nodes) := by
  repeat' first
    | exact allCat_nil
    | exact allCat_singleton rfl
    | apply allCat_append
    | (apply allCat_flatMap; intro x)
    | (apply allCat_mapIssue; intro x; exact rfl)
    | split
    | simp only [InternationalAnalyzer.analyze,
        InternationalAnalyzer.checkHreflangTags,
        InternationalAnalyzer.checkLanguageDeclaration,
        InternationalAnalyzer.checkGeoTargeting,
        InternationalAnalyzer.checkMultilingualContent,
        InternationalAnalyzer.checkInternationalURLs]

theorem structure_analyze_cat (nodes : List FramerNode) :
    issuesAllCat .structureTag (StructureAnalyzer.analyze nodes) := by
  repeat' first
    | exact allCat_nil
    | exact allCat_singleton rfl
    | apply allCat_append
    | (apply allCat_flatMap; intro x)
    | (apply allCat_mapIssue; intro x; exact rfl)
    | split
    | exact allCat_singleton (c := .structureTag) rfl
    | simp only [StructureAnalyzer.analyze, StructureAnalyzer.checkHeadingStructure,
        StructureAnalyzer.checkSemanticElements, StructureAnalyzer.checkContentStructure,
        StructureAnalyzer.headingLengthIssues, StructureAnalyzer.noH1Issue,
        StructureAnalyzer.multipleH1Issue, StructureAnalyzer.mainH1Suggestion]

theorem social_analyze_cat (nodes : List FramerNode) :
    issuesAllCat .social (SocialAnalyzer.analyze nodes) := by
  repeat' first
    | exact allCat_nil
    | exact allCat_singleton rfl
    | apply allCat_append
    | (apply allCat_flatMap; intro x)
    | (apply allCat_mapIssue; intro x; exact rfl)
    | split
    | simp only [SocialAnalyzer.analyze, SocialAnalyzer.checkOpenGraphTags,
        SocialAnalyzer.checkTwitterCards, SocialAnalyzer.checkSocialPreviewImages,
        SocialAnalyzer.checkSocialSharingOptions]

theorem images_analyze_cat (nodes : List FramerNode) :
    issuesAllCat .images (ImagesAnalyzer.analyze nodes) := by
  repeat' first
    | exact allCat_nil
    | exact allCat_singleton rfl
    | apply allCat_append
    | (apply allCat_flatMap; intro x)
    | (apply allCat_mapIssue; intro x; exact rfl)
    | split
    | simp only [ImagesAnalyzer.analyze, ImagesAnalyzer.checkAltText,
        ImagesAnalyzer.checkImageFilenames, ImagesAnalyzer.checkLazyLoading,
        ImagesAnalyzer.checkImageDimensions]

set_option maxHeartbeats 1000000 in
theorem content_analyze_cat (nodes : List FramerNode) :
    issuesAllCat .content (ContentAnalyzer.analyze nodes) := by
  repeat' first
    | exact allCat_nil
    | exact allCat_singleton rfl
    | apply allCat_append
    | (apply allCat_flatMap; intro x)
    | (apply allCat_mapIssue; intro x; exact rfl)
    | split
    | simp only [ContentAnalyzer.analyze, ContentAnalyzer.checkContentLength,
        ContentAnalyzer.checkKeywordDensity, ContentAnalyzer.checkReadability,
        ContentAnalyzer.checkThinContent]

theorem accessibility_analyze_cat (nodes : List FramerNode) :
    issuesAllCat .accessibility (AccessibilityAnalyzer.analyze nodes) := by
  repeat' first
    | exact allCat_nil
    | exact allCat_singleton rfl
    | apply allCat_append
    | (apply allCat_flatMap; intro x)
    | (apply allCat_mapIssue; intro x; exact rfl)
    | split
    | simp only [AccessibilityAnalyzer.analyze,
        AccessibilityAnalyzer.checkImageAltText, AccessibilityAnalyzer.altIssuesFor,
        AccessibilityAnalyzer.missingAltIssue, AccessibilityAnalyzer.decorativeIssuesFor,
        AccessibilityAnalyzer.checkAriaAttributes, AccessibilityAnalyzer.ariaIssuesFor,
        AccessibilityAnalyzer.checkFormAccessibility,
        AccessibilityAnalyzer.checkKeyboardNavigation,
        AccessibilityAnalyzer.checkColorContrast, AccessibilityAnalyzer.contrastIssuesFor,
        AccessibilityAnalyzer.checkTextSize]

theorem links_analyze_cat (up : String → Option String) (nodes : List FramerNode) :
    issuesAllCat .links (LinksAnalyzer.analyze up nodes) := by
  repeat' first
    | exact allCat_nil
    | exact allCat_singleton rfl
    | apply allCat_append
    | (apply allCat_flatMap; intro x)
    | (apply allCat_mapIssue; intro x; exact rfl)
    | split
    | simp only [LinksAnalyzer.analyze, LinksAnalyzer.checkBrokenLinks,
        LinksAnalyzer.brokenLinkIssues, LinksAnalyzer.noLinksIssue,
        LinksAnalyzer.verifyLinksIssue, LinksAnalyzer.checkLinkText,
        LinksAnalyzer.linkTextIssues, LinksAnalyzer.checkExternalLinks,
        LinksAnalyzer.externalSecurityIssues, LinksAnalyzer.externalSpamIssues,
        LinksAnalyzer.checkInternalLinking]

theorem performance_analyze_cat (nodes : List FramerNode) :
    issuesAllCat .performance (PerformanceAnalyzer.analyze nodes) := by
  repeat' first
    | exact allCat_nil
    | exact allCat_singleton rfl
    | apply allCat_append
    | (apply allCat_flatMap; intro x)
    | (apply allCat_mapIssue; intro x; exact rfl)
    | split
    | simp only [PerformanceAnalyzer.analyze, PerformanceAnalyzer.checkJavaScriptUsage,
        PerformanceAnalyzer.checkImageOptimization,
        PerformanceAnalyzer.checkResourceMinification,
        PerformanceAnalyzer.checkCriticalRenderingPath,
        PerformanceAnalyzer.checkRenderBlockingResources]

theorem mobile_analyze_cat (nodes : List FramerNode) :
    issuesAllCat .mobile (MobileAnalyzer.analyze nodes) := by
  repeat' first
    | exact allCat_nil
    | exact allCat_singleton rfl
    | apply allCat_append
    | (apply allCat_flatMap; intro x)
    | (apply allCat_mapIssue; intro x; exact rfl)
    | split
    | simp only [MobileAnalyzer.analyze, MobileAnalyzer.checkViewportMetaTag,
        MobileAnalyzer.checkTapTargets, MobileAnalyzer.checkFontSizing,
        MobileAnalyzer.checkMediaQueries, MobileAnalyzer.checkMobileSpecificIssues]

theorem security_analyze_cat (nodes : List FramerNode) :
    issuesAllCat .security (SecurityAnalyzer.analyze nodes) := by
  repeat' first
    | exact allCat_nil
    | exact allCat_singleton rfl
    | apply allCat_append
    | (apply allCat_flatMap; intro x)
    | (apply allCat_mapIssue; intro x; exact rfl)
    | split
    | simp only [SecurityAnalyzer.analyze, SecurityAnalyzer.checkHttpsUsage,
        SecurityAnalyzer.checkSecureForms, SecurityAnalyzer.checkSecurityHeaders,
        SecurityAnalyzer.checkExternalResources,
        SecurityAnalyzer.checkContentSecurityPolicy]

theorem schema_analyze_cat (nodes : List FramerNode) :
    issuesAllCat .schema (SchemaAnalyzer.analyze nodes) := by
  repeat' first
    | exact allCat_nil
    | exact allCat_singleton rfl
    | apply allCat_append
    | (apply allCat_flatMap; intro x)
    | (apply allCat_mapIssue; intro x; exact rfl)
    | split
    | simp only [SchemaAnalyzer.analyze, SchemaAnalyzer.checkSchemaMarkupPresence,
        SchemaAnalyzer.checkCommonSchemas, SchemaAnalyzer.checkLocalBusinessSchema,
        SchemaAnalyzer.checkOrganizationSchema, SchemaAnalyzer.checkBreadcrumbSchema]

/-- A trivial host collaborator: every `getRect` call throws and every
screenshot is the empty string (used to instantiate concrete witnesses; the
theorems quantify over arbitrary hosts). -/
def hostNone : SEOAnalyzerService.HostEnv :=
  { getRect := fun _ => .error (), screenshot := fun _ => "" }

/-- Category names are pairwise distinct. -/
theorem catName_inj : ∀ a b : SEOCategory, a.name = b.name → a = b := by
  intro a b
  cases a <;> cases b <;> decide

/-- Enrichment only writes the visual fields, never the category. -/
theorem enrichIssue_category (host : SEOAnalyzerService.HostEnv)
    (nodes : List FramerNode) (i : SEOIssue) :
    (SEOAnalyzerService.enrichIssue host nodes i).category = i.category := by
  unfold SEOAnalyzerService.enrichIssue
  repeat' first
    | rfl
    | split

/-- The registered analyzers tag every issue with their slot's category. -/
theorem registered_analyzers_cat (up : String → Option String)
    (nodes : List FramerNode) :
    ∀ s ∈ SEOAnalyzerService.registeredAnalyzers up,
      issuesAllCat s.1 (s.2 nodes) := by
  intro s hs
  fin_cases hs
  · exact allCat_append (metadata_analyze_cat nodes) (international_analyze_cat nodes)
  · exact structure_analyze_cat nodes
  · exact social_analyze_cat nodes
  · exact images_analyze_cat nodes
  · exact content_analyze_cat nodes
  · exact accessibility_analyze_cat nodes
  · exact links_analyze_cat up nodes
  · exact performance_analyze_cat nodes
  · exact mobile_analyze_cat nodes
  · exact security_analyze_cat nodes
  · exact schema_analyze_cat nodes

/-- Counterexample to C5: filtering to the links category only, every other
category ends with an empty issue list but score 100, not 0 — the final
score loop runs over all 14 categories and `calculateScoreForCategory([])`
is 100. -/
theorem c5_counterexample :
    ((SEOAnalyzerService.analyzeNodes specURLHostname hostNone []
        { filter := some ["links"] }).categories SEOCategory.metadata).issues = [] ∧
    ((SEOAnalyzerService.analyzeNodes specURLHostname hostNone []
        { filter := some ["links"] }).categories SEOCategory.metadata).score ≠ 0 := by
  constructor
  · decide
  · decide

/-- Claim C5 (amended): with a filter restricted to a single category, every
issue in the result is tagged with that category, and every other category
has an empty issue list and score 100 (not 0: the score loop recomputes all
fourteen categories and an empty issue list scores 100). -/
theorem c5_single_category_filter (up : String → Option String)
    (host : SEOAnalyzerService.HostEnv) (nodes : List FramerNode)
    (c : SEOCategory) :
    (∀ i ∈ (SEOAnalyzerService.analyzeNodes up host nodes
        { filter := some [c.name] }).issues, i.category = c) ∧
    (∀ c', c' ≠ c →
      ((SEOAnalyzerService.analyzeNodes up host nodes
          { filter := some [c.name] }).categories c').issues = [] ∧
      ((SEOAnalyzerService.analyzeNodes up host nodes
          { filter := some [c.name] }).categories c').score = 100) := by
  have hskip : ∀ cat : SEOCategory, cat ≠ c →
      SEOAnalyzerService.skippedByFilter { filter := some [c.name] } cat = true := by
    intro cat hne
    have hname : cat.name ≠ c.name := fun h => hne (catName_inj cat c h)
    simp [SEOAnalyzerService.skippedByFilter, hname]
  constructor
  · intro i hi
    have hfst : (SEOAnalyzerService.analyzeNodes up host nodes
        { filter := some [c.name] }).issues =
        ((SEOAnalyzerService.registeredAnalyzers up).map
          (SEOAnalyzerService.slotOut host nodes { filter := some [c.name] })).flatten := by
      show (SEOAnalyzerService.runAnalyzersLoop host nodes _
        (SEOAnalyzerService.registeredAnalyzers up) ([], fun _ => [])).1 = _
      rw [SEOAnalyzerService.runAnalyzersLoop_fst]
      simp
    rw [hfst] at hi
    rcases List.mem_flatten.1 hi with ⟨lx, hlx, hilx⟩
    rcases List.mem_map.1 hlx with ⟨s, hs, rfl⟩
    unfold SEOAnalyzerService.slotOut at hilx
    by_cases hsk : SEOAnalyzerService.skippedByFilter { filter := some [c.name] } s.1 = true
    · rw [if_pos hsk] at hilx
      exact absurd hilx (List.not_mem_nil i)
    · rw [if_neg hsk] at hilx
      have hcat : s.1 = c := by
        by_contra hne
        exact hsk (hskip s.1 hne)
      rcases List.mem_map.1 hilx with ⟨j, hj, rfl⟩
      rw [enrichIssue_category]
      rw [registered_analyzers_cat up nodes s hs j hj, hcat]
  · intro c' hne
    have hsk := hskip c' hne
    have hiss : ((SEOAnalyzerService.analyzeNodes up host nodes
        { filter := some [c.name] }).categories c').issues = [] := by
      rw [SEOAnalyzerService.analyzeNodes_cat_issues]
      cases c' <;>
        simp [SEOAnalyzerService.registeredIssuesFor, SEOAnalyzerService.slotOut, hsk]
    refine ⟨hiss, ?_⟩
    rw [SEOAnalyzerService.analyzeNodes_cat_score, hiss]
    rfl

/-- Witness for C5: the links-only filter on the empty node list — the
metadata category keeps an empty issue list and scores 100. -/
theorem c5_single_category_filter_witness :
    ((SEOAnalyzerService.analyzeNodes specURLHostname hostNone []
        { filter := some [SEOCategory.links.name] }).categories
      SEOCategory.metadata).issues = [] ∧
    ((SEOAnalyzerService.analyzeNodes specURLHostname hostNone []
        { filter := some [SEOCategory.links.name] }).categories
      SEOCategory.metadata).score = 100 :=
  (c5_single_category_filter specURLHostname hostNone [] SEOCategory.links).2
    SEOCategory.metadata (by decide)

/-- Claim C1: the per-category score is exactly
`max 0 (100 - 20*critical - 10*important - 5*niceToHave)` (the empty list
scores 100, which the formula also gives), and adding one critical issue to
an otherwise-clean category lowers the score by exactly 20. -/
theorem c1_per_category_score (issues : List SEOIssue) (i : SEOIssue)
    (hc : i.priority = SEOIssuePriority.critical) :
    SEOAnalyzerService.calculateScoreForCategory issues =
      max 0 (100 -
        20 * (issues.countP (fun j => j.priority == SEOIssuePriority.critical) : Int) -
        10 * (issues.countP (fun j => j.priority == SEOIssuePriority.important) : Int) -
        5 * (issues.countP (fun j => j.priority == SEOIssuePriority.niceToHave) : Int)) ∧
    SEOAnalyzerService.calculateScoreForCategory [i] =
      SEOAnalyzerService.calculateScoreForCategory [] - 20 := by
  constructor
  · unfold SEOAnalyzerService.calculateScoreForCategory
    split
    · next h =>
      have hnil : issues = [] := List.length_eq_zero.mp h
      subst hnil
      simp
    · simp only [List.countP_eq_length_filter]
      congr 1
      ring
  · simp [SEOAnalyzerService.calculateScoreForCategory, hc]

/-- Witness for C1 at a concrete critical metadata issue. -/
theorem c1_per_category_score_witness :
    SEOAnalyzerService.calculateScoreForCategory
      [{ type := SEOIssueType.error, message := "Missing title tag",
         category := SEOCategory.metadata,
         priority := SEOIssuePriority.critical }] =
      SEOAnalyzerService.calculateScoreForCategory [] - 20 :=
  (c1_per_category_score []
    { type := SEOIssueType.error, message := "Missing title tag",
      category := SEOCategory.metadata,
      priority := SEOIssuePriority.critical } rfl).2

/-- Every weight in the fixed table is positive. -/
theorem categoryWeights_pos : ∀ c, 0 < SEOAnalyzerService.categoryWeights c := by
  intro c
  cases c <;> norm_num [SEOAnalyzerService.categoryWeights]

/-- Invariant of the overall-score accumulator: every step either keeps the
accumulator or adds a positive weight and a weighted score in `[0,100]`, so
total weight and weighted sum stay nonnegative with sum ≤ 100 · weight. -/
theorem foldl_ratio_invariant (f : Rat × Rat → SEOCategory → Rat × Rat)
    (hf : ∀ acc c, f acc c = acc ∨
      ∃ w s : Rat, 0 < w ∧ 0 ≤ s ∧ s ≤ 100 ∧ f acc c = (acc.1 + w, acc.2 + s * w)) :
    ∀ (l : List SEOCategory) (acc : Rat × Rat),
      0 ≤ acc.1 → 0 ≤ acc.2 → acc.2 ≤ 100 * acc.1 →
      0 ≤ (l.foldl f acc).1 ∧ 0 ≤ (l.foldl f acc).2 ∧
        (l.foldl f acc).2 ≤ 100 * (l.foldl f acc).1 := by
  intro l
  induction l with
  | nil =>
    intro acc h1 h2 h3
    exact ⟨h1, h2, h3⟩
  | cons c cs ih =>
    intro acc h1 h2 h3
    rw [List.foldl_cons]
    rcases hf acc c with heq | ⟨w, s, hw, hs0, hs1, heq⟩
    · rw [heq]
      exact ih acc h1 h2 h3
    · rw [heq]
      have hsw : s * w ≤ 100 * w := mul_le_mul_of_nonneg_right hs1 (le_of_lt hw)
      have hsw0 : 0 ≤ s * w := mul_nonneg hs0 (le_of_lt hw)
      exact ih _ (by dsimp only; linarith) (by dsimp only; linarith)
        (by dsimp only; linarith)

/-- The overall-score expression — `Math.round` of weighted sum over total
weight when the weight is positive, else 100 — lies in `[0,100]` for any
step function satisfying the accumulator invariant. -/
theorem overall_expr_bounds (f : Rat × Rat → SEOCategory → Rat × Rat)
    (hf : ∀ acc c, f acc c = acc ∨
      ∃ w s : Rat, 0 < w ∧ 0 ≤ s ∧ s ≤ 100 ∧ f acc c = (acc.1 + w, acc.2 + s * w))
    (l : List SEOCategory) :
    0 ≤ (if (l.foldl f (0, 0)).1 > 0 then
          jsRound ((l.foldl f (0, 0)).2 / (l.foldl f (0, 0)).1) else 100) ∧
    (if (l.foldl f (0, 0)).1 > 0 then
          jsRound ((l.foldl f (0, 0)).2 / (l.foldl f (0, 0)).1) else 100) ≤ 100 := by
  obtain ⟨k1, k2, k3⟩ :=
    foldl_ratio_invariant f hf l (0, 0) le_rfl le_rfl (by norm_num)
  split
  · next hpos =>
    have hdiv0 : 0 ≤ (l.foldl f (0, 0)).2 / (l.foldl f (0, 0)).1 :=
      div_nonneg k2 k1
    have hdiv1 : (l.foldl f (0, 0)).2 / (l.foldl f (0, 0)).1 ≤ 100 :=
      (div_le_iff₀ hpos).mpr (by linarith)
    unfold jsRound
    constructor
    · exact Int.le_floor.mpr (by push_cast; linarith)
    · have hlt : ⌊(l.foldl f (0, 0)).2 / (l.foldl f (0, 0)).1 + 1 / 2⌋ < 101 :=
        Int.floor_lt.mpr (by push_cast; linarith)
      omega
  · norm_num

/-- If every per-category score is in `[0,100]`, so is the overall score. -/
theorem calculateOverallScore_bounds (categories : SEOCategory → CategoryData)
    (h : ∀ c, 0 ≤ (categories c).score ∧ (categories c).score ≤ 100) :
    0 ≤ SEOAnalyzerService.calculateOverallScore categories ∧
      SEOAnalyzerService.calculateOverallScore categories ≤ 100 := by
  have hf : ∀ (acc : Rat × Rat) (category : SEOCategory),
      (if (categories category).issues.length > 0 then
        (acc.1 + SEOAnalyzerService.categoryWeights category,
         acc.2 + ((categories category).score : Rat) *
           SEOAnalyzerService.categoryWeights category)
       else acc) = acc ∨
      ∃ w s : Rat, 0 < w ∧ 0 ≤ s ∧ s ≤ 100 ∧
        (if (categories category).issues.length > 0 then
          (acc.1 + SEOAnalyzerService.categoryWeights category,
           acc.2 + ((categories category).score : Rat) *
             SEOAnalyzerService.categoryWeights category)
         else acc) = (acc.1 + w, acc.2 + s * w) := by
    intro acc category
    by_cases hc : (categories category).issues.length > 0
    · right
      refine ⟨SEOAnalyzerService.categoryWeights category,
        ((categories category).score : Rat), categoryWeights_pos category,
        ?_, ?_, ?_⟩
      · exact_mod_cast (h category).1
      · exact_mod_cast (h category).2
      · rw [if_pos hc]
    · left
      rw [if_neg hc]
  exact overall_expr_bounds
    (fun acc category =>
      if (categories category).issues.length > 0 then
        (acc.1 + SEOAnalyzerService.categoryWeights category,
         acc.2 + ((categories category).score : Rat) *
           SEOAnalyzerService.categoryWeights category)
      else acc)
    hf SEOAnalyzerService.categoriesKeyOrder

/-- Per-category scores are always in `[0,100]`. -/
theorem calculateScoreForCategory_bounds (issues : List SEOIssue) :
    0 ≤ SEOAnalyzerService.calculateScoreForCategory issues ∧
      SEOAnalyzerService.calculateScoreForCategory issues ≤ 100 := by
  unfold SEOAnalyzerService.calculateScoreForCategory
  split
  · omega
  · dsimp only
    omega

/-- Claim C3: for every input and filter, every per-category score and the
overall score of `analyzeNodes` lie in `[0,100]`. -/
theorem c3_score_bounds (up : String → Option String)
    (host : SEOAnalyzerService.HostEnv) (nodes : List FramerNode)
    (opts : SEOAnalyzerOptions) :
    (∀ c, 0 ≤ ((SEOAnalyzerService.analyzeNodes up host nodes opts).categories c).score ∧
       ((SEOAnalyzerService.analyzeNodes up host nodes opts).categories c).score ≤ 100) ∧
    0 ≤ (SEOAnalyzerService.analyzeNodes up host nodes opts).score ∧
      (SEOAnalyzerService.analyzeNodes up host nodes opts).score ≤ 100 := by
  have hcat : ∀ c,
      0 ≤ ((SEOAnalyzerService.analyzeNodes up host nodes opts).categories c).score ∧
      ((SEOAnalyzerService.analyzeNodes up host nodes opts).categories c).score ≤ 100 := by
    intro c
    rw [SEOAnalyzerService.analyzeNodes_cat_score]
    exact calculateScoreForCategory_bounds _
  refine ⟨hcat, ?_⟩
  exact calculateOverallScore_bounds
    ((SEOAnalyzerService.analyzeNodes up host nodes opts).categories) hcat

/-- Stated from claim C2's words: the fixed weight table — metadata 1.5;
headings, structure, links, content 1.2; security 0.8; favicon 0.5;
default 1. -/
def claimedWeight : SEOCategory → Rat
  | .metadata => 3 / 2
  | .headings => 6 / 5
  | .structureTag => 6 / 5
  | .links => 6 / 5
  | .content => 6 / 5
  | .security => 4 / 5
  | .favicon => 1 / 2
  | _ => 1

/-- Stated from claim C2's words: the overall score is the weighted mean of
the scores of exactly those categories whose issue list is non-empty,
rounded to the nearest integer; 100 when no category has any issues. -/
def claimedOverallScore (categories : SEOCategory → CategoryData) : Int :=
  let active := SEOAnalyzerService.categoriesKeyOrder.filter
    (fun c => !(categories c).issues.isEmpty)
  if active = [] then 100
  else
    jsRound
      ((active.map (fun c => ((categories c).score : Rat) * claimedWeight c)).sum /
       (active.map (fun c => claimedWeight c)).sum)

/-- The claim's weight table agrees with the source's. -/
theorem claimedWeight_eq : ∀ c, claimedWeight c = SEOAnalyzerService.categoryWeights c := by
  intro c
  cases c <;> rfl

/-- The overall-score accumulator computes the sums of weights and weighted
scores over the categories with a non-empty issue list. -/
theorem overall_foldl_sum (categories : SEOCategory → CategoryData) :
    ∀ (l : List SEOCategory) (acc : Rat × Rat),
      l.foldl (fun (acc : Rat × Rat) category =>
        if (categories category).issues.length > 0 then
          (acc.1 + SEOAnalyzerService.categoryWeights category,
           acc.2 + ((categories category).score : Rat) *
             SEOAnalyzerService.categoryWeights category)
        else acc) acc =
      (acc.1 + ((l.filter fun c => !(categories c).issues.isEmpty).map
          (fun c => SEOAnalyzerService.categoryWeights c)).sum,
       acc.2 + ((l.filter fun c => !(categories c).issues.isEmpty).map
          (fun c => ((categories c).score : Rat) *
            SEOAnalyzerService.categoryWeights c)).sum) := by
  intro l
  induction l with
  | nil =>
    intro acc
    simp
  | cons c cs ih =>
    intro acc
    rw [List.foldl_cons]
    by_cases hc : (categories c).issues.length > 0
    · have hne : (!(categories c).issues.isEmpty) = true := by
        have hnil := List.length_pos.mp hc
        simp [List.isEmpty_iff, hnil]
      rw [if_pos hc, ih]
      simp [List.filter_cons, hne, add_assoc]
    · have hemp : (!(categories c).issues.isEmpty) = false := by
        have hnil : (categories c).issues = [] := by
          have hz : (categories c).issues.length = 0 := by omega
          exact List.length_eq_zero.mp hz
        simp [hnil]
      rw [if_neg hc, ih]
      simp [List.filter_cons, hemp]

/-- The source's overall score equals the claim's weighted mean. -/
theorem calculateOverallScore_eq_claimed (categories : SEOCategory → CategoryData) :
    SEOAnalyzerService.calculateOverallScore categories =
      claimedOverallScore categories := by
  unfold SEOAnalyzerService.calculateOverallScore claimedOverallScore
  dsimp only
  rw [overall_foldl_sum]
  simp only [zero_add, claimedWeight_eq]
  by_cases hact : SEOAnalyzerService.categoriesKeyOrder.filter
      (fun c => !(categories c).issues.isEmpty) = []
  · rw [hact]
    simp
  · rw [if_neg hact]
    have hw : 0 < ((SEOAnalyzerService.categoriesKeyOrder.filter
        (fun c => !(categories c).issues.isEmpty)).map
        (fun c => SEOAnalyzerService.categoryWeights c)).sum := by
      apply List.sum_pos
      · intro a ha
        rcases List.mem_map.1 ha with ⟨c, _, rfl⟩
        exact categoryWeights_pos c
      · simp [hact]
    rw [if_pos hw]

/-- Claim C2: the overall score of `analyzeNodes` is the weighted mean —
with the fixed weight table — of the scores of exactly the categories whose
issue list is non-empty, rounded to the nearest integer (100 when every
category's issue list is empty). -/
theorem c2_overall_weighted_mean (up : String → Option String)
    (host : SEOAnalyzerService.HostEnv) (nodes : List FramerNode)
    (opts : SEOAnalyzerOptions) :
    (SEOAnalyzerService.analyzeNodes up host nodes opts).score =
      claimedOverallScore
        ((SEOAnalyzerService.analyzeNodes up host nodes opts).categories) :=
  calculateOverallScore_eq_claimed _

/-- Strip the two visual-enrichment fields (`elementPosition`, `screenshot`)
— the only fields the host-dependent enrichment step may write, and the ones
claim C10 excludes from the two-run equality. -/
def eraseVisual (i : SEOIssue) : SEOIssue :=
  { i with elementPosition := none, screenshot := none }

/-- Enrichment changes nothing visible after the visual fields are erased. -/
theorem eraseVisual_enrichIssue (host : SEOAnalyzerService.HostEnv)
    (nodes : List FramerNode) (i : SEOIssue) :
    eraseVisual (SEOAnalyzerService.enrichIssue host nodes i) = eraseVisual i := by
  unfold SEOAnalyzerService.enrichIssue eraseVisual
  repeat' first
    | rfl
    | split

/-- Enrichment never changes the priority of an issue. -/
theorem enrichIssue_priority (host : SEOAnalyzerService.HostEnv)
    (nodes : List FramerNode) (i : SEOIssue) :
    (SEOAnalyzerService.enrichIssue host nodes i).priority = i.priority := by
  unfold SEOAnalyzerService.enrichIssue
  repeat' first
    | rfl
    | split

/-- Erasing the visual fields commutes enrichment away. -/
theorem map_eraseVisual_enrich (host : SEOAnalyzerService.HostEnv)
    (nodes : List FramerNode) (l : List SEOIssue) :
    (SEOAnalyzerService.enrichIssuesWithVisualInfo host nodes l).map eraseVisual =
      l.map eraseVisual := by
  unfold SEOAnalyzerService.enrichIssuesWithVisualInfo
  rw [List.map_map]
  exact List.map_congr_left (fun i _ => eraseVisual_enrichIssue host nodes i)

/-- The per-category score only reads issue priorities, so it is invariant
under enrichment. -/
theorem calcScore_enrich (host : SEOAnalyzerService.HostEnv)
    (nodes : List FramerNode) (l : List SEOIssue) :
    SEOAnalyzerService.calculateScoreForCategory
        (SEOAnalyzerService.enrichIssuesWithVisualInfo host nodes l) =
      SEOAnalyzerService.calculateScoreForCategory l := by
  have hcount : ∀ (p : SEOIssuePriority),
      ((l.map (SEOAnalyzerService.enrichIssue host nodes)).filter
        (fun issue => issue.priority == p)).length =
      (l.filter (fun issue => issue.priority == p)).length := by
    intro p
    rw [← List.countP_eq_length_filter, ← List.countP_eq_length_filter,
      List.countP_map]
    apply List.countP_congr
    intro i _
    simp [Function.comp, enrichIssue_priority]
  unfold SEOAnalyzerService.calculateScoreForCategory
    SEOAnalyzerService.enrichIssuesWithVisualInfo
  simp only [List.length_map]
  split
  · rfl
  · rw [hcount SEOIssuePriority.critical, hcount SEOIssuePriority.important,
      hcount SEOIssuePriority.niceToHave]

namespace SEOAnalyzerService

/-- The raw (pre-enrichment) contribution of one registered slot. -/
def rawSlotOut (nodes : List FramerNode) (opts : SEOAnalyzerOptions)
    (s : SEOCategory × (List FramerNode → List SEOIssue)) : List SEOIssue :=
  if skippedByFilter opts s.1 then [] else s.2 nodes

/-- A slot's output is the enrichment of its raw output. -/
theorem slotOut_eq_enrich_raw (host : HostEnv) (nodes : List FramerNode)
    (opts : SEOAnalyzerOptions)
    (s : SEOCategory × (List FramerNode → List SEOIssue)) :
    slotOut host nodes opts s =
      enrichIssuesWithVisualInfo host nodes (rawSlotOut nodes opts s) := by
  unfold slotOut rawSlotOut
  split
  · rfl
  · rfl

/-- The raw (pre-enrichment) per-category contribution of the loop. -/
def rawIssuesFor (up : String → Option String) (nodes : List FramerNode)
    (opts : SEOAnalyzerOptions) : SEOCategory → List SEOIssue
  | .metadata => rawSlotOut nodes opts (.metadata, fun nodes =>
      MetadataAnalyzer.analyze nodes ++ InternationalAnalyzer.analyze nodes)
  | .structureTag => rawSlotOut nodes opts (.structureTag, StructureAnalyzer.analyze)
  | .social => rawSlotOut nodes opts (.social, SocialAnalyzer.analyze)
  | .images => rawSlotOut nodes opts (.images, ImagesAnalyzer.analyze)
  | .content => rawSlotOut nodes opts (.content, ContentAnalyzer.analyze)
  | .accessibility => rawSlotOut nodes opts (.accessibility, AccessibilityAnalyzer.analyze)
  | .links => rawSlotOut nodes opts (.links, LinksAnalyzer.analyze up)
  | .performance => rawSlotOut nodes opts (.performance, PerformanceAnalyzer.analyze)
  | .mobile => rawSlotOut nodes opts (.mobile, MobileAnalyzer.analyze)
  | .security => rawSlotOut nodes opts (.security, SecurityAnalyzer.analyze)
  | .schema => rawSlotOut nodes opts (.schema, SchemaAnalyzer.analyze)
  | .headings => []
  | .favicon => []
  | .international => []

/-- Every category's final issue list is the enrichment of a host-independent
raw list. -/
theorem registeredIssuesFor_enrich (up : String → Option String) (host : HostEnv)
    (nodes : List FramerNode) (opts : SEOAnalyzerOptions) (c : SEOCategory) :
    registeredIssuesFor up host nodes opts c =
      enrichIssuesWithVisualInfo host nodes (rawIssuesFor up nodes opts c) := by
  cases c <;>
    simp only [registeredIssuesFor, rawIssuesFor, slotOut_eq_enrich_raw,
      enrichIssuesWithVisualInfo, List.map_nil]

/-- The overall score only reads each category's issue count and score. -/
theorem calculateOverallScore_congr (cat1 cat2 : SEOCategory → CategoryData)
    (h : ∀ c, (cat1 c).issues.length = (cat2 c).issues.length ∧
      (cat1 c).score = (cat2 c).score) :
    calculateOverallScore cat1 = calculateOverallScore cat2 := by
  unfold calculateOverallScore
  dsimp only
  have hstep : (fun (acc : Rat × Rat) category =>
      if (cat1 category).issues.length > 0 then
        (acc.1 + categoryWeights category,
         acc.2 + ((cat1 category).score : Rat) * categoryWeights category)
      else acc) = (fun (acc : Rat × Rat) category =>
      if (cat2 category).issues.length > 0 then
        (acc.1 + categoryWeights category,
         acc.2 + ((cat2 category).score : Rat) * categoryWeights category)
      else acc) := by
    funext acc category
    rw [(h category).1, (h category).2]
  rw [hstep]

end SEOAnalyzerService

/-- Claim C10: two runs of `analyzeNodes` on the same node list and options
agree on everything except the host-dependent visual-enrichment fields —
the issue lists coincide after erasing `elementPosition` and `screenshot`
(flat and per category), and every per-category score and the overall score
are identical.  Host nondeterminism (including the randomized placeholder
color behind `screenshot`) is modelled by quantifying over two arbitrary
host environments. -/
theorem c10_determinism (up : String → Option String)
    (nodes : List FramerNode) (opts : SEOAnalyzerOptions)
    (host1 host2 : SEOAnalyzerService.HostEnv) :
    (SEOAnalyzerService.analyzeNodes up host1 nodes opts).issues.map eraseVisual =
      (SEOAnalyzerService.analyzeNodes up host2 nodes opts).issues.map eraseVisual ∧
    (∀ c, ((SEOAnalyzerService.analyzeNodes up host1 nodes opts).categories c).issues.map
          eraseVisual =
        ((SEOAnalyzerService.analyzeNodes up host2 nodes opts).categories c).issues.map
          eraseVisual ∧
      ((SEOAnalyzerService.analyzeNodes up host1 nodes opts).categories c).score =
        ((SEOAnalyzerService.analyzeNodes up host2 nodes opts).categories c).score) ∧
    (SEOAnalyzerService.analyzeNodes up host1 nodes opts).score =
      (SEOAnalyzerService.analyzeNodes up host2 nodes opts).score := by
  have hcat : ∀ (host : SEOAnalyzerService.HostEnv) c,
      ((SEOAnalyzerService.analyzeNodes up host nodes opts).categories c).issues =
        SEOAnalyzerService.enrichIssuesWithVisualInfo host nodes
          (SEOAnalyzerService.rawIssuesFor up nodes opts c) := fun host c =>
    (SEOAnalyzerService.analyzeNodes_cat_issues up host nodes opts c).trans
      (SEOAnalyzerService.registeredIssuesFor_enrich up host nodes opts c)
  have hscore : ∀ (host : SEOAnalyzerService.HostEnv) c,
      ((SEOAnalyzerService.analyzeNodes up host nodes opts).categories c).score =
        SEOAnalyzerService.calculateScoreForCategory
          (SEOAnalyzerService.rawIssuesFor up nodes opts c) := by
    intro host c
    rw [SEOAnalyzerService.analyzeNodes_cat_score, hcat host c, calcScore_enrich]
  have hflat : ∀ (host : SEOAnalyzerService.HostEnv),
      (SEOAnalyzerService.analyzeNodes up host nodes opts).issues.map eraseVisual =
        ((SEOAnalyzerService.registeredAnalyzers up).map
          (fun s => (SEOAnalyzerService.rawSlotOut nodes opts s).map eraseVisual)).flatten := by
    intro host
    have h1 : (SEOAnalyzerService.analyzeNodes up host nodes opts).issues =
        ((SEOAnalyzerService.registeredAnalyzers up).map
          (SEOAnalyzerService.slotOut host nodes opts)).flatten := by
      show (SEOAnalyzerService.runAnalyzersLoop host nodes opts
        (SEOAnalyzerService.registeredAnalyzers up) ([], fun _ => [])).1 = _
      rw [SEOAnalyzerService.runAnalyzersLoop_fst]
      simp
    rw [h1, List.map_flatten, List.map_map]
    congr 1
    apply List.map_congr_left
    intro s _
    show (SEOAnalyzerService.slotOut host nodes opts s).map eraseVisual =
      (SEOAnalyzerService.rawSlotOut nodes opts s).map eraseVisual
    rw [SEOAnalyzerService.slotOut_eq_enrich_raw, map_eraseVisual_enrich]
  refine ⟨(hflat host1).trans (hflat host2).symm, ?_, ?_⟩
  · intro c
    constructor
    · rw [hcat host1 c, hcat host2 c, map_eraseVisual_enrich, map_eraseVisual_enrich]
    · rw [hscore host1 c, hscore host2 c]
  · show SEOAnalyzerService.calculateOverallScore _ =
      SEOAnalyzerService.calculateOverallScore _
    apply SEOAnalyzerService.calculateOverallScore_congr
    intro c
    constructor
    · show ((SEOAnalyzerService.analyzeNodes up host1 nodes opts).categories c).issues.length =
        ((SEOAnalyzerService.analyzeNodes up host2 nodes opts).categories c).issues.length
      rw [hcat host1 c, hcat host2 c]
      unfold SEOAnalyzerService.enrichIssuesWithVisualInfo
      rw [List.length_map, List.length_map]
    · show ((SEOAnalyzerService.analyzeNodes up host1 nodes opts).categories c).score =
        ((SEOAnalyzerService.analyzeNodes up host2 nodes opts).categories c).score
      rw [hscore host1 c, hscore host2 c]
